import Mathlib

/-!
Logical SPI device access (`src/Windows.Devices.Spi/nanoHAL_Spi.cpp`).

A shallow embedding of the slot table, the handle codec and the open / close
life cycle of `nanoHAL_Spi.cpp`, followed by theorems about them.

Conventions of the embedding:

* The build constants `NUM_SPI_BUSES`, `MAX_SPI_DEVICES`, `CPU_DEVICE_TYPE_SPI`,
  `GPIO_PIN_NONE` and the value of `CPU_SPI_PortsMap()` come from headers and
  target code outside this source file; they are the fields of `Target`.
* The global `spiconfig` is passed explicitly.  C arrays are lists; an access
  outside an array is undefined behaviour in C and is the result `none` here.
* Every call into the driver layer is appended to a call log.  The driver's
  answers are arbitrary functions of the calls logged so far and of the
  arguments, so a driver may answer the same question differently each time.
* `devicesInUse` is a signed counter (the source tests `devicesInUse <= 0`);
  it is an `Int`.  Pins and chip selects are `Int`, driver handles are `Nat`.
* `1 << spiBus` in open is taken in 32 bits: a shift by 32 or more yields 0, so
  such a bus is never offered.
* `byteTime` is a C `float`.  Floating-point values are the type `CFloat`: a
  finite value is the rational number it denotes (the two zeros are not told
  apart), next to the infinities and NaN.  Arithmetic follows IEEE 754 in the
  default rounding mode: the exact result is rounded to the nearest number of
  the format, ties to the even significand, with gradual underflow and
  overflow to infinity (`roundTo`).  The expression
  `(1.0 / Clock_RateHz) * 1000` is evaluated in `double`, each operation
  rounded to `double`, and converted to `float` by the assignment
  (`byteTimeOf`); `Clock_RateHz` is a 32-bit integer in the target headers, so
  its conversion to `double` is exact.
-/

namespace NanoSpi

/-- Constants and target facts that the source file takes from its headers. -/
structure Target where
  NUM_SPI_BUSES : Nat
  MAX_SPI_DEVICES : Nat
  CPU_DEVICE_TYPE_SPI : Nat
  GPIO_PIN_NONE : Int
  CPU_SPI_PortsMap : Nat
deriving DecidableEq, Repr

/-- The fields of `SPI_DEVICE_CONFIGURATION` that this layer reads; `Spi_Mode`
stands for the transfer parameters it only passes through. -/
structure SPI_DEVICE_CONFIGURATION where
  Spi_Bus : Nat
  DeviceChipSelect : Int
  Clock_RateHz : Int
  Spi_Mode : Nat
deriving DecidableEq, Repr

/-- A value of a C floating-point type: a finite number (given by the rational
it denotes), an infinity with its sign, or a NaN. -/
inductive CFloat where
  | finite (q : ℚ)
  | inf (negative : Bool)
  | nan
deriving DecidableEq

/-- A binary floating-point format: bits of the significand, least and
greatest exponent of a normal number. -/
structure FloatFormat where
  precision : Nat
  emin : Int
  emax : Int

/-- The format of `double` (IEEE 754 binary64). -/
def binary64 : FloatFormat := ⟨53, -1022, 1023⟩

/-- The format of `float` (IEEE 754 binary32). -/
def binary32 : FloatFormat := ⟨24, -126, 127⟩

/-- The loop of `bitLength`: one more bit for every halving until 0. -/
def bitLength.loop : Nat → Nat → Nat
  | 0, _ => 0
  | fuel + 1, n => if n = 0 then 0 else bitLength.loop fuel (n / 2) + 1

/-- The number of binary digits of `n` (0 for 0). -/
def bitLength (n : Nat) : Nat := bitLength.loop n n

/-- The binary exponent of a rational `x ≠ 0`: the `e` with
`2 ^ e ≤ |x| < 2 ^ (e + 1)`. -/
def binaryExponent (x : ℚ) : Int :=
  let d : Int := (bitLength x.num.natAbs : Int) - (bitLength x.den : Int)
  if (2 : ℚ) ^ d ≤ |x| then d else d - 1

/-- The integer nearest to `m`, the even one of the two when `m` lies half way. -/
def roundNearestEven (m : ℚ) : Int :=
  let f := ⌊m⌋
  let r := m - f
  if r < 1 / 2 then f else if 1 / 2 < r then f + 1 else if f % 2 = 0 then f else f + 1

/-- The value a floating-point operation of format `F` delivers for the exact
result `x` (round to nearest, ties to even): `x` is rounded to a multiple of
the unit in the last place of its binade, of the least binade for subnormal
results; a result beyond the greatest finite number is an infinity. -/
def roundTo (F : FloatFormat) (x : ℚ) : CFloat :=
  let e := max (binaryExponent x) F.emin
  let ulp := (2 : ℚ) ^ (e - F.precision + 1)
  let y := roundNearestEven (x / ulp) * ulp
  if (2 : ℚ) ^ (F.emax + 1) ≤ |y| then CFloat.inf (decide (x < 0)) else CFloat.finite y

/-- The `double` quotient `a / b` of two integers that convert to `double`
exactly; division by zero yields an infinity, `0 / 0` a NaN. -/
def CFloat.divDouble (a b : Int) : CFloat :=
  if b = 0 then (if a = 0 then CFloat.nan else CFloat.inf (decide (a < 0)))
  else roundTo binary64 ((a : ℚ) / (b : ℚ))

/-- The `double` product of a `double` with an integer constant `k`. -/
def CFloat.mulDouble (x : CFloat) (k : Int) : CFloat :=
  match x with
  | CFloat.finite q => roundTo binary64 (q * (k : ℚ))
  | CFloat.inf negative => if k = 0 then CFloat.nan else CFloat.inf (negative != decide (k < 0))
  | CFloat.nan => CFloat.nan

/-- The conversion of a `double` to `float`. -/
def CFloat.toFloat (x : CFloat) : CFloat :=
  match x with
  | CFloat.finite q => roundTo binary32 q
  | CFloat.inf negative => CFloat.inf negative
  | CFloat.nan => CFloat.nan

/-- The value of `(1.0 / spiDeviceConfig.Clock_RateHz) * 1000` stored in the
`float` field `byteTime` (line 256 of the source). -/
def byteTimeOf (Clock_RateHz : Int) : CFloat :=
  ((CFloat.divDouble 1 Clock_RateHz).mulDouble 1000).toFloat

/-- The `float` nearest to 0.001, which is `byteTimeOf 1000000`. -/
def byteTime1MHz : CFloat := CFloat.finite (8589935 / 8589934592)

/-- The `float` nearest to 0.0005, which is `byteTimeOf 2000000`. -/
def byteTime2MHz : CFloat := CFloat.finite (8589935 / 17179869184)

/-- One entry of `spiconfig`. -/
structure nanoSPI_BusConfig where
  spiBusInited : Bool
  devicesInUse : Int
  deviceCongfig : List SPI_DEVICE_CONFIGURATION
  deviceHandles : List Nat
  byteTime : CFloat
deriving DecidableEq

/-- The global `spiconfig[NUM_SPI_BUSES]`. -/
abbrev SpiConfig := List nanoSPI_BusConfig

/-- Calls into the driver layer, as they are logged. -/
inductive Call where
  | SPI_Initialize (bus : Nat)
  | SPI_Uninitialize (bus : Nat)
  | SPI_Add_Device (cfg : SPI_DEVICE_CONFIGURATION)
  | SPI_Remove_Device (deviceHandle : Nat)
  | SPI_GetPins (bus : Nat)
  | GPIO_PinIsBusy (pin : Int)
  | GPIO_ReservePin (pin : Int) (reserve : Bool)
  | SPI_nWrite_nRead (deviceHandle : Nat) (cfg : SPI_DEVICE_CONFIGURATION) (swrs : Nat)
      (writeData : List Nat) (readSize : Nat)
deriving DecidableEq, Repr

/-- Answers of the driver layer.  Each takes the calls logged before it. -/
structure Driver where
  CPU_SPI_Initialize : List Call → Nat → Bool
  CPU_SPI_Add_Device : List Call → SPI_DEVICE_CONFIGURATION → Nat
  CPU_SPI_Remove_Device : List Call → Nat → Bool
  CPU_SPI_GetPins : List Call → Nat → Int × Int × Int
  CPU_GPIO_PinIsBusy : List Call → Int → Bool
  CPU_GPIO_ReservePin : List Call → Int → Bool → Bool
  CPU_SPI_nWrite_nRead : List Call → Nat → SPI_DEVICE_CONFIGURATION → Nat → List Nat → Nat → Int

/-- Result codes; `handle h` is the non-error value that open returns. -/
inductive HRESULT where
  | S_OK
  | CLR_E_INVALID_PARAMETER
  | CLR_E_INDEX_OUT_OF_RANGE
  | CLR_E_NOT_SUPPORTED
  | CLR_E_FAIL
  | handle (h : Nat)
deriving DecidableEq, Repr

/-- `#define CreateSpiHandle(spiBus, deviceIndex)`, as a 32-bit value. -/
def CreateSpiHandle (T : Target) (spiBus deviceIndex : Nat) : Nat :=
  ((T.CPU_DEVICE_TYPE_SPI <<< 16) + (spiBus <<< 8) + deviceIndex) % 2 ^ 32

/-- `#define GetBusFromHandle(handle)`. -/
def GetBusFromHandle (handle : Nat) : Nat :=
  (handle >>> 8) &&& 0x00ff

/-- The `while (map > 0)` loop of the weak `CPU_SPI_PortsCount`; `map` is a
`uint32_t`, so 32 rounds always reach `map = 0`. -/
def CPU_SPI_PortsCount.loop : Nat → Nat → Nat → Nat
  | 0, _, count => count
  | fuel + 1, map, count =>
    if map > 0 then
      CPU_SPI_PortsCount.loop fuel (map >>> 1) (if map &&& 0x01 ≠ 0 then count + 1 else count)
    else count

/-- Weak `CPU_SPI_PortsCount`: the number of bits set in the port map. -/
def CPU_SPI_PortsCount (T : Target) : Nat :=
  CPU_SPI_PortsCount.loop 32 (T.CPU_SPI_PortsMap % 2 ^ 32) 0

/-- `getDevice`: the validity flag, then the outputs `spiBus` and `deviceIndex`. -/
def getDevice (T : Target) (handle : Nat) : Bool × Nat × Nat :=
  let type := handle >>> 16 &&& 0x00ff
  let deviceIndex := handle &&& 0x00ff
  let spiBus := GetBusFromHandle handle
  if type ≠ T.CPU_DEVICE_TYPE_SPI ∨ spiBus ≥ CPU_SPI_PortsCount T ∨ deviceIndex ≥ T.NUM_SPI_BUSES then
    (false, spiBus, deviceIndex)
  else
    (true, spiBus, deviceIndex)

/-- The bus test of open: `CPU_SPI_PortsMap() & (1 << spiBus)`, in 32 bits. -/
def busAvailable (T : Target) (spiBus : Nat) : Bool :=
  (T.CPU_SPI_PortsMap % 2 ^ 32) &&& ((1 <<< spiBus) % 2 ^ 32) ≠ 0

/-- First loop of `nanoSPI_ReserveBusPins` ("if reserve, check can reserve"),
run over `pins[i]` for the remaining `i`; `pin0` is `pins[0]`.  The flag tells
whether the loop left with `return CLR_E_INVALID_PARAMETER`. -/
def nanoSPI_ReserveBusPins.check (T : Target) (D : Driver) (pin0 : Int) :
    List Int → List Call → Bool × List Call
  | [], tr => (false, tr)
  | p :: rest, tr =>
    if pin0 ≠ T.GPIO_PIN_NONE then
      if D.CPU_GPIO_PinIsBusy tr p then (true, tr ++ [Call.GPIO_PinIsBusy p])
      else nanoSPI_ReserveBusPins.check T D pin0 rest (tr ++ [Call.GPIO_PinIsBusy p])
    else nanoSPI_ReserveBusPins.check T D pin0 rest tr

/-- Second loop of `nanoSPI_ReserveBusPins` ("Reserve / UnReserve pins").  The
flag is false when the loop left with `return CLR_E_INVALID_PARAMETER`. -/
def nanoSPI_ReserveBusPins.reserveAll (D : Driver) (reserve : Bool) :
    List Int → List Call → Bool × List Call
  | [], tr => (true, tr)
  | p :: rest, tr =>
    if D.CPU_GPIO_ReservePin tr p reserve = false then
      (false, tr ++ [Call.GPIO_ReservePin p reserve])
    else nanoSPI_ReserveBusPins.reserveAll D reserve rest (tr ++ [Call.GPIO_ReservePin p reserve])

/-- `nanoSPI_ReserveBusPins(spiBus, reserve)`: result code and extended call log. -/
def nanoSPI_ReserveBusPins (T : Target) (D : Driver) (spiBus : Nat) (reserve : Bool)
    (tr : List Call) : HRESULT × List Call :=
  let got := D.CPU_SPI_GetPins tr spiBus
  let pins := [got.1, got.2.1, got.2.2]
  let tr1 := tr ++ [Call.SPI_GetPins spiBus]
  let chk := if reserve then nanoSPI_ReserveBusPins.check T D got.1 pins tr1 else (false, tr1)
  if chk.1 then (HRESULT.CLR_E_INVALID_PARAMETER, chk.2)
  else
    let rsv := nanoSPI_ReserveBusPins.reserveAll D reserve pins chk.2
    if rsv.1 then (HRESULT.S_OK, rsv.2) else (HRESULT.CLR_E_INVALID_PARAMETER, rsv.2)

/-- The `for` loop of `FindFreeDeviceSlotSpi` from `deviceIndex` on, with `fuel`
rounds left (`MAX_SPI_DEVICES - deviceIndex`); `bc` is `spiconfig[spiBus]`. -/
def FindFreeDeviceSlotSpi.loop (bc : nanoSPI_BusConfig) (cs : Int) : Nat → Nat → Option Int
  | 0, _ => some (-1)
  | fuel + 1, deviceIndex =>
    match bc.deviceHandles[deviceIndex]? with
    | none => none
    | some h =>
      if h = 0 then some (deviceIndex : Int)
      else
        match bc.deviceCongfig[deviceIndex]? with
        | none => none
        | some c =>
          if c.DeviceChipSelect = cs then some (-2)
          else FindFreeDeviceSlotSpi.loop bc cs fuel (deviceIndex + 1)

/-- `FindFreeDeviceSlotSpi(spiBus, cs)` on the entry `bc = spiconfig[spiBus]`:
a slot index, `-1` or `-2`. -/
def FindFreeDeviceSlotSpi (T : Target) (bc : nanoSPI_BusConfig) (cs : Int) : Option Int :=
  FindFreeDeviceSlotSpi.loop bc cs T.MAX_SPI_DEVICES 0

/-- What the body of the loop of `nanoSPI_Initialize` stores in one entry. -/
def nanoSPI_Initialize.reset (bc : nanoSPI_BusConfig) : nanoSPI_BusConfig :=
  { bc with spiBusInited := false, devicesInUse := 0,
            deviceHandles := bc.deviceHandles.map (fun _ => 0) }

/-- The `for` loop of `nanoSPI_Initialize` from `spiBus` on, `fuel` rounds left. -/
def nanoSPI_Initialize.loop : Nat → Nat → SpiConfig → Option SpiConfig
  | 0, _, s => some s
  | fuel + 1, spiBus, s =>
    match s[spiBus]? with
    | none => none
    | some bc =>
      nanoSPI_Initialize.loop fuel (spiBus + 1) (s.set spiBus (nanoSPI_Initialize.reset bc))

/-- `nanoSPI_Initialize()`: the returned flag and the new `spiconfig`. -/
def nanoSPI_Initialize (T : Target) (s : SpiConfig) : Option (Bool × SpiConfig) :=
  match nanoSPI_Initialize.loop T.NUM_SPI_BUSES 0 s with
  | none => none
  | some s1 => some (true, s1)

/-- The block "Initialise Bus if not already initialised" of
`nanoSPI_OpenDeviceEx`: either the code it returns with, or the entry of the
bus after the block; and the call log. -/
def nanoSPI_OpenDeviceEx.initBus (T : Target) (D : Driver) (spiBus : Nat)
    (bc : nanoSPI_BusConfig) (tr : List Call) : Except HRESULT nanoSPI_BusConfig × List Call :=
  if ¬ bc.spiBusInited then
    if ¬ D.CPU_SPI_Initialize tr spiBus then
      (Except.error HRESULT.CLR_E_INVALID_PARAMETER, tr ++ [Call.SPI_Initialize spiBus])
    else
      let hr := nanoSPI_ReserveBusPins T D spiBus true (tr ++ [Call.SPI_Initialize spiBus])
      if hr.1 ≠ HRESULT.S_OK then (Except.error hr.1, hr.2)
      else (Except.ok { bc with spiBusInited := true }, hr.2)
  else (Except.ok bc, tr)

/-- `nanoSPI_OpenDeviceEx(spiDeviceConfig, ..)` (the alternate pins are unused):
result, new `spiconfig` and extended call log; `none` on an access outside
`spiconfig` or outside a slot array. -/
def nanoSPI_OpenDeviceEx (T : Target) (D : Driver) (s : SpiConfig) (tr : List Call)
    (spiDeviceConfig : SPI_DEVICE_CONFIGURATION) : Option (HRESULT × SpiConfig × List Call) :=
  let spiBus := spiDeviceConfig.Spi_Bus % 256
  if ¬ busAvailable T spiBus then some (HRESULT.CLR_E_INVALID_PARAMETER, s, tr)
  else
    match s[spiBus]? with
    | none => none
    | some bc =>
      if bc.devicesInUse ≥ (T.MAX_SPI_DEVICES : Int) then
        some (HRESULT.CLR_E_INDEX_OUT_OF_RANGE, s, tr)
      else
        match nanoSPI_OpenDeviceEx.initBus T D spiBus bc tr with
        | (Except.error hr, tr1) => some (hr, s, tr1)
        | (Except.ok bc1, tr1) =>
          match FindFreeDeviceSlotSpi T bc1 spiDeviceConfig.DeviceChipSelect with
          | none => none
          | some deviceIndex =>
            if deviceIndex < 0 then
              if deviceIndex = -1 then some (HRESULT.CLR_E_INDEX_OUT_OF_RANGE, s.set spiBus bc1, tr1)
              else some (HRESULT.CLR_E_NOT_SUPPORTED, s.set spiBus bc1, tr1)
            else
              let deviceHandle := D.CPU_SPI_Add_Device tr1 spiDeviceConfig
              let tr2 := tr1 ++ [Call.SPI_Add_Device spiDeviceConfig]
              let tr3 := if deviceHandle ≠ 0 then
                  tr2 ++ [Call.GPIO_ReservePin spiDeviceConfig.DeviceChipSelect true] else tr2
              if deviceHandle ≠ 0 ∧
                  D.CPU_GPIO_ReservePin tr2 spiDeviceConfig.DeviceChipSelect true = false then
                some (HRESULT.CLR_E_FAIL, s.set spiBus bc1, tr3 ++ [Call.SPI_Remove_Device deviceHandle])
              else if deviceIndex.toNat < bc1.deviceCongfig.length ∧
                  deviceIndex.toNat < bc1.deviceHandles.length then
                some (HRESULT.handle (CreateSpiHandle T spiBus deviceIndex.toNat),
                  s.set spiBus
                    { bc1 with
                      deviceCongfig := bc1.deviceCongfig.set deviceIndex.toNat spiDeviceConfig,
                      deviceHandles := bc1.deviceHandles.set deviceIndex.toNat deviceHandle,
                      byteTime := byteTimeOf spiDeviceConfig.Clock_RateHz,
                      devicesInUse := bc1.devicesInUse + 1 },
                  tr3)
              else none

/-- `nanoSPI_CloseDevice(handle)`: result, new `spiconfig` and extended call
log; `none` on an access outside `spiconfig` or outside a slot array. -/
def nanoSPI_CloseDevice (T : Target) (D : Driver) (s : SpiConfig) (tr : List Call)
    (handle : Nat) : Option (HRESULT × SpiConfig × List Call) :=
  let spiBus := (getDevice T handle).2.1
  let deviceIndex := (getDevice T handle).2.2
  if ¬ (getDevice T handle).1 then some (HRESULT.CLR_E_INVALID_PARAMETER, s, tr)
  else
    match s[spiBus]? with
    | none => none
    | some bc =>
      match bc.deviceHandles[deviceIndex]? with
      | none => none
      | some deviceHandle =>
        let tr1 := tr ++ [Call.SPI_Remove_Device deviceHandle]
        let bc1 := { bc with deviceHandles := bc.deviceHandles.set deviceIndex 0,
                             devicesInUse := bc.devicesInUse - 1 }
        match bc1.deviceCongfig[0]? with
        | none => none
        | some c0 =>
          let tr2 := tr1 ++ [Call.GPIO_ReservePin c0.DeviceChipSelect false]
          if bc1.devicesInUse ≤ 0 then
            some (HRESULT.S_OK, s.set spiBus { bc1 with spiBusInited := false },
              (nanoSPI_ReserveBusPins T D spiBus false (tr2 ++ [Call.SPI_Uninitialize spiBus])).2)
          else some (HRESULT.S_OK, s.set spiBus bc1, tr2)

/-- Shape of `spiconfig` given by its declaration: `NUM_SPI_BUSES` entries, each
with `MAX_SPI_DEVICES` configurations and handles. -/
def WellFormed (T : Target) (s : SpiConfig) : Prop :=
  s.length = T.NUM_SPI_BUSES ∧
    ∀ bc ∈ s, bc.deviceCongfig.length = T.MAX_SPI_DEVICES ∧
      bc.deviceHandles.length = T.MAX_SPI_DEVICES

instance (T : Target) (s : SpiConfig) : Decidable (WellFormed T s) := by
  unfold WellFormed; infer_instance

/-- `nanoSPI_OpenDevice(Configuration)`: open without alternate pins. -/
def nanoSPI_OpenDevice (T : Target) (D : Driver) (s : SpiConfig) (tr : List Call)
    (Configuration : SPI_DEVICE_CONFIGURATION) : Option (HRESULT × SpiConfig × List Call) :=
  nanoSPI_OpenDeviceEx T D s tr Configuration

/-- The inner `for` loop of `nanoSPI_Uninitialize` over the slots of `spiBus`,
from `deviceIndex` on, `fuel` rounds left. -/
def nanoSPI_Uninitialize.devices (T : Target) (D : Driver) (spiBus : Nat) :
    Nat → Nat → SpiConfig → List Call → Option (SpiConfig × List Call)
  | 0, _, s, tr => some (s, tr)
  | fuel + 1, deviceIndex, s, tr =>
    match s[spiBus]? with
    | none => none
    | some bc =>
      match bc.deviceHandles[deviceIndex]? with
      | none => none
      | some deviceHandle =>
        if deviceHandle ≠ 0 then
          match nanoSPI_CloseDevice T D s tr (CreateSpiHandle T spiBus deviceIndex) with
          | none => none
          | some (_, s1, tr1) =>
            nanoSPI_Uninitialize.devices T D spiBus fuel (deviceIndex + 1) s1 tr1
        else nanoSPI_Uninitialize.devices T D spiBus fuel (deviceIndex + 1) s tr

/-- The outer `for` loop of `nanoSPI_Uninitialize` from `spiBus` on, `fuel`
rounds left. -/
def nanoSPI_Uninitialize.buses (T : Target) (D : Driver) :
    Nat → Nat → SpiConfig → List Call → Option (SpiConfig × List Call)
  | 0, _, s, tr => some (s, tr)
  | fuel + 1, spiBus, s, tr =>
    match s[spiBus]? with
    | none => none
    | some bc =>
      if bc.spiBusInited then
        match nanoSPI_Uninitialize.devices T D spiBus T.MAX_SPI_DEVICES 0 s tr with
        | none => none
        | some (s1, tr1) => nanoSPI_Uninitialize.buses T D fuel (spiBus + 1) s1 tr1
      else nanoSPI_Uninitialize.buses T D fuel (spiBus + 1) s tr

/-- `nanoSPI_Uninitialize()`: the new `spiconfig` and the extended call log. -/
def nanoSPI_Uninitialize (T : Target) (D : Driver) (s : SpiConfig) (tr : List Call) :
    Option (SpiConfig × List Call) :=
  nanoSPI_Uninitialize.buses T D T.NUM_SPI_BUSES 0 s tr

/-- `nanoSPI_GetByteTime(handle)`: the `float` stored for the bus of the handle;
`none` on an access outside `spiconfig`. -/
def nanoSPI_GetByteTime (s : SpiConfig) (handle : Nat) : Option CFloat :=
  match s[GetBusFromHandle handle]? with
  | none => none
  | some bc => some bc.byteTime

/-- `nanoSPI_Write_Read(handle, swrs, writePtr, wsize, readPtr, readSize)`: an
error code of this layer, or the value the driver's transfer returns; and the
call log.  The buffers are the bytes to write and the number of bytes to read. -/
def nanoSPI_Write_Read (T : Target) (D : Driver) (s : SpiConfig) (tr : List Call) (handle : Nat)
    (swrs : Nat) (writeData : List Nat) (readSize : Nat) :
    Option ((HRESULT ⊕ Int) × List Call) :=
  let spiBus := (getDevice T handle).2.1
  let deviceIndex := (getDevice T handle).2.2
  if ¬ (getDevice T handle).1 then some (Sum.inl HRESULT.CLR_E_INVALID_PARAMETER, tr)
  else
    match s[spiBus]? with
    | none => none
    | some bc =>
      match bc.deviceHandles[deviceIndex]?, bc.deviceCongfig[deviceIndex]? with
      | some deviceHandle, some cfg =>
        some (Sum.inr (D.CPU_SPI_nWrite_nRead tr deviceHandle cfg swrs writeData readSize),
          tr ++ [Call.SPI_nWrite_nRead deviceHandle cfg swrs writeData readSize])
      | _, _ => none

/-- The weak driver functions of the source file: every call succeeds, add
returns 1, all bus pins are `GPIO_PIN_NONE`; the GPIO layer finds no pin busy
and grants every reservation, and every transfer returns 0. -/
def weakDriver (T : Target) : Driver where
  CPU_SPI_Initialize := fun _ _ => true
  CPU_SPI_Add_Device := fun _ _ => 1
  CPU_SPI_Remove_Device := fun _ _ => true
  CPU_SPI_GetPins := fun _ _ => (T.GPIO_PIN_NONE, T.GPIO_PIN_NONE, T.GPIO_PIN_NONE)
  CPU_GPIO_PinIsBusy := fun _ _ => false
  CPU_GPIO_ReservePin := fun _ _ _ => true
  CPU_SPI_nWrite_nRead := fun _ _ _ _ _ _ => 0

/-- Slot `j` of a bus holds a device (nonzero handle) whose chip select is not `cs`:
the case in which the loop of `FindFreeDeviceSlotSpi` moves on to slot `j + 1`. -/
def OccupiedByOther (bc : nanoSPI_BusConfig) (cs : Int) (j : Nat) : Prop :=
  (∃ h, bc.deviceHandles[j]? = some h ∧ h ≠ 0) ∧
    ∃ c, bc.deviceCongfig[j]? = some c ∧ c.DeviceChipSelect ≠ cs

/-- The entry of a bus after a successful open has stored a device in slot
`deviceIndex` (lines 249 to 258 of the source; the bus is initialised then). -/
def storeDevice (bc : nanoSPI_BusConfig) (deviceIndex : Nat)
    (spiDeviceConfig : SPI_DEVICE_CONFIGURATION) (deviceHandle : Nat) : nanoSPI_BusConfig :=
  { spiBusInited := true,
    devicesInUse := bc.devicesInUse + 1,
    deviceCongfig := bc.deviceCongfig.set deviceIndex spiDeviceConfig,
    deviceHandles := bc.deviceHandles.set deviceIndex deviceHandle,
    byteTime := byteTimeOf spiDeviceConfig.Clock_RateHz }

/-- The entry of a bus after a close has released slot `deviceIndex` (lines 279
to 290 of the source). -/
def releaseDevice (bc : nanoSPI_BusConfig) (deviceIndex : Nat) : nanoSPI_BusConfig :=
  { bc with
    deviceHandles := bc.deviceHandles.set deviceIndex 0,
    devicesInUse := bc.devicesInUse - 1,
    spiBusInited := if bc.devicesInUse - 1 ≤ 0 then false else bc.spiBusInited }

/-- Number of slots of a bus whose `deviceHandles` entry is nonzero. -/
def occupiedSlots (bc : nanoSPI_BusConfig) : Nat :=
  bc.deviceHandles.countP (fun h => h != 0)

/-- The handle is rejected by `getDevice`, or it names a slot of the table
whose `deviceHandles` entry is nonzero. -/
def closesOccupiedSlot (T : Target) (s : SpiConfig) (handle : Nat) : Prop :=
  (getDevice T handle).1 = false ∨
    ∃ bc h, s[(getDevice T handle).2.1]? = some bc ∧
      bc.deviceHandles[(getDevice T handle).2.2]? = some h ∧ h ≠ 0

/-- The tables reachable from `nanoSPI_Initialize` (run on any well-shaped
table) by calls of open and close that return.  Each call may meet another
driver and call log; `okDriver` restricts the drivers and `okClose` the handles
passed to close in a given table. -/
inductive Reachable (T : Target) (okDriver : Driver → Prop)
    (okClose : SpiConfig → Nat → Prop) : SpiConfig → Prop where
  | init (s0 s : SpiConfig) : WellFormed T s0 → nanoSPI_Initialize T s0 = some (true, s) →
      Reachable T okDriver okClose s
  | openDevice (s s1 : SpiConfig) (D : Driver) (tr tr1 : List Call)
      (cfg : SPI_DEVICE_CONFIGURATION) (r : HRESULT) :
      Reachable T okDriver okClose s → okDriver D →
      nanoSPI_OpenDeviceEx T D s tr cfg = some (r, s1, tr1) → Reachable T okDriver okClose s1
  | closeDevice (s s1 : SpiConfig) (D : Driver) (tr tr1 : List Call) (handle : Nat)
      (r : HRESULT) :
      Reachable T okDriver okClose s → okDriver D → okClose s handle →
      nanoSPI_CloseDevice T D s tr handle = some (r, s1, tr1) → Reachable T okDriver okClose s1

/-- A caller's request: open with a configuration, or close a handle. -/
inductive ApiCall where
  | OpenDeviceEx (spiDeviceConfig : SPI_DEVICE_CONFIGURATION)
  | CloseDevice (handle : Nat)
deriving DecidableEq, Repr

/-- A caller that issues the requests one after the other against one driver,
collecting the result codes. -/
def runCalls (T : Target) (D : Driver) :
    SpiConfig → List Call → List ApiCall → Option (List HRESULT × SpiConfig × List Call)
  | s, tr, [] => some ([], s, tr)
  | s, tr, ApiCall.OpenDeviceEx cfg :: rest =>
    match nanoSPI_OpenDeviceEx T D s tr cfg with
    | none => none
    | some (hr, s1, tr1) =>
      match runCalls T D s1 tr1 rest with
      | none => none
      | some (hrs, s2, tr2) => some (hr :: hrs, s2, tr2)
  | s, tr, ApiCall.CloseDevice handle :: rest =>
    match nanoSPI_CloseDevice T D s tr handle with
    | none => none
    | some (hr, s1, tr1) =>
      match runCalls T D s1 tr1 rest with
      | none => none
      | some (hrs, s2, tr2) => some (hr :: hrs, s2, tr2)

/-- The zero-filled `spiconfig` of program start (static storage). -/
def bootConfig (T : Target) : SpiConfig :=
  List.replicate T.NUM_SPI_BUSES
    { spiBusInited := false, devicesInUse := 0,
      deviceCongfig := List.replicate T.MAX_SPI_DEVICES ⟨0, 0, 0, 0⟩,
      deviceHandles := List.replicate T.MAX_SPI_DEVICES 0,
      byteTime := CFloat.finite 0 }

/-- A target with two buses (port map `0b11`), four slots per bus. -/
def target2x4 : Target := ⟨2, 4, 1, -1, 3⟩

/-- A target with three buses of which only bus 2 is present (port map `0b100`). -/
def targetSparse : Target := ⟨3, 4, 1, -1, 4⟩

/-- A target with four buses (port map `0b1111`) and two slots per bus. -/
def target4x2 : Target := ⟨4, 2, 1, -1, 15⟩

/-- A driver for the worked examples: bus pins 18, 19 and 23, no pin busy,
every call succeeds, add-device returns `100 * (Spi_Mode + 1) + DeviceChipSelect`
and every transfer returns 0. -/
def testDriver : Driver where
  CPU_SPI_Initialize := fun _ _ => true
  CPU_SPI_Add_Device := fun _ cfg => 100 * (cfg.Spi_Mode + 1) + cfg.DeviceChipSelect.toNat
  CPU_SPI_Remove_Device := fun _ _ => true
  CPU_SPI_GetPins := fun _ _ => (18, 19, 23)
  CPU_GPIO_PinIsBusy := fun _ _ => false
  CPU_GPIO_ReservePin := fun _ _ _ => true
  CPU_SPI_nWrite_nRead := fun _ _ _ _ _ _ => 0

/-- Device A of the worked examples: bus 0, chip select 10, 1 MHz. -/
def deviceA : SPI_DEVICE_CONFIGURATION := ⟨0, 10, 1000000, 0⟩

/-- Device B: bus 0, chip select 11, 1 MHz. -/
def deviceB : SPI_DEVICE_CONFIGURATION := ⟨0, 11, 1000000, 0⟩

/-- Device C: bus 0, chip select 11 like device B, 2 MHz, another mode. -/
def deviceC : SPI_DEVICE_CONFIGURATION := ⟨0, 11, 2000000, 1⟩

/-- The all-zero configuration of a slot never written. -/
def noDevice : SPI_DEVICE_CONFIGURATION := ⟨0, 0, 0, 0⟩

/-- The entry of a four-slot bus after `nanoSPI_Initialize` at program start. -/
def idleBus : nanoSPI_BusConfig :=
  ⟨false, 0, [noDevice, noDevice, noDevice, noDevice], [0, 0, 0, 0], CFloat.finite 0⟩

/-- The table after device A has been opened on the idle two-bus target. -/
def tableA : SpiConfig :=
  [⟨true, 1, [deviceA, noDevice, noDevice, noDevice], [110, 0, 0, 0], byteTime1MHz⟩, idleBus]

/-- The table after device A has been opened and closed again. -/
def tableAClosed : SpiConfig :=
  [⟨false, 0, [deviceA, noDevice, noDevice, noDevice], [0, 0, 0, 0], byteTime1MHz⟩, idleBus]

/-- The table after devices A and B have been opened. -/
def tableAB : SpiConfig :=
  [⟨true, 2, [deviceA, deviceB, noDevice, noDevice], [110, 111, 0, 0], byteTime1MHz⟩, idleBus]

/-- The table after A and B have been opened and A closed: B alone, in slot 1. -/
def tableB : SpiConfig :=
  [⟨true, 1, [deviceA, deviceB, noDevice, noDevice], [0, 111, 0, 0], byteTime1MHz⟩, idleBus]

/-- The call log of opening device A on the idle table with `testDriver`. -/
def logOpenA : List Call :=
  [Call.SPI_Initialize 0, Call.SPI_GetPins 0, Call.GPIO_PinIsBusy 18, Call.GPIO_PinIsBusy 19,
    Call.GPIO_PinIsBusy 23, Call.GPIO_ReservePin 18 true, Call.GPIO_ReservePin 19 true,
    Call.GPIO_ReservePin 23 true, Call.SPI_Add_Device deviceA, Call.GPIO_ReservePin 10 true]

/-- The table after A and B have been opened, A closed and C opened: C has
taken slot 0 and shares chip select 11 with B in slot 1. -/
def tableCB : SpiConfig :=
  [⟨true, 2, [deviceC, deviceB, noDevice, noDevice], [211, 111, 0, 0], byteTime2MHz⟩, idleBus]

/-- The table after A and B have been opened and the handle of slot 1 closed. -/
def tableABClosedB : SpiConfig :=
  [⟨true, 1, [deviceA, deviceB, noDevice, noDevice], [110, 0, 0, 0], byteTime1MHz⟩, idleBus]

/-- The table after a close of the handle of (bus 0, slot 0) on the idle table. -/
def tableStrayClose : SpiConfig :=
  [⟨false, -1, [noDevice, noDevice, noDevice, noDevice], [0, 0, 0, 0], CFloat.finite 0⟩,
    idleBus]

/-- The driver's add-device never returns 0. -/
def addsNonzero (D : Driver) : Prop :=
  ∀ tr cfg, D.CPU_SPI_Add_Device tr cfg ≠ 0

/-- The handle is the one open has minted for a slot that holds a device now. -/
def closesOpenDevice (T : Target) (s : SpiConfig) (handle : Nat) : Prop :=
  ∃ spiBus deviceIndex bc h, handle = CreateSpiHandle T spiBus deviceIndex ∧
    s[spiBus]? = some bc ∧ bc.deviceHandles[deviceIndex]? = some h ∧ h ≠ 0

/-- Slots `0 .. k-1` of the bus entry hold devices (nonzero handles) whose chip
selects all belong to `used`, slots `k ..` are free, and the counter is `k`. -/
def FilledUpTo (T : Target) (bc : nanoSPI_BusConfig) (k : Nat) (used : List Int) : Prop :=
  bc.devicesInUse = (k : Int) ∧
  (∀ j, j < k → ∃ h c, bc.deviceHandles[j]? = some h ∧ h ≠ 0 ∧
      bc.deviceCongfig[j]? = some c ∧ c.DeviceChipSelect ∈ used) ∧
  (∀ j, k ≤ j → j < T.MAX_SPI_DEVICES → bc.deviceHandles[j]? = some 0)

/-- A driver whose bus initialisation and pin reservations always succeed,
which finds no pin busy, and whose add-device never returns 0. -/
def Cooperative (D : Driver) : Prop :=
  (∀ tr spiBus, D.CPU_SPI_Initialize tr spiBus = true) ∧
  (∀ tr cfg, D.CPU_SPI_Add_Device tr cfg ≠ 0) ∧
  (∀ tr pin, D.CPU_GPIO_PinIsBusy tr pin = false) ∧
  (∀ tr pin reserve, D.CPU_GPIO_ReservePin tr pin reserve = true)

/-- Four devices for bus 0 with chip selects 10, 11, 12 and 13. -/
def fourDevices : List SPI_DEVICE_CONFIGURATION :=
  [⟨0, 10, 1000000, 0⟩, ⟨0, 11, 1000000, 0⟩, ⟨0, 12, 1000000, 0⟩, ⟨0, 13, 1000000, 0⟩]

/-- A driver whose bus has no clock pin (`GPIO_PIN_NONE` of the example
targets is -1), MISO pin 19 and MOSI pin 23, and which reports pin 19 busy;
every other call succeeds. -/
def busyMisoDriver : Driver where
  CPU_SPI_Initialize := fun _ _ => true
  CPU_SPI_Add_Device := fun _ _ => 1
  CPU_SPI_Remove_Device := fun _ _ => true
  CPU_SPI_GetPins := fun _ _ => (-1, 19, 23)
  CPU_GPIO_PinIsBusy := fun _ pin => pin == 19
  CPU_GPIO_ReservePin := fun _ _ _ => true
  CPU_SPI_nWrite_nRead := fun _ _ _ _ _ _ => 0

/-- A driver whose bus has clock pin 18, no MISO pin and MOSI pin 23; no pin is
busy and every call succeeds. -/
def noMisoDriver : Driver where
  CPU_SPI_Initialize := fun _ _ => true
  CPU_SPI_Add_Device := fun _ _ => 1
  CPU_SPI_Remove_Device := fun _ _ => true
  CPU_SPI_GetPins := fun _ _ => (18, -1, 23)
  CPU_GPIO_PinIsBusy := fun _ _ => false
  CPU_GPIO_ReservePin := fun _ _ _ => true
  CPU_SPI_nWrite_nRead := fun _ _ _ _ _ _ => 0

/-- A target with one bus (port map `0b1`) and two slots per bus. -/
def target1x2 : Target := ⟨1, 2, 1, -1, 1⟩

/-- The table of `target1x2` after device A has been opened. -/
def table1x2A : SpiConfig :=
  [⟨true, 1, [deviceA, noDevice], [110, 0], byteTime1MHz⟩]

/-- The table of `target1x2` after devices A and B have been opened. -/
def table1x2AB : SpiConfig :=
  [⟨true, 2, [deviceA, deviceB], [110, 111], byteTime1MHz⟩]

/-- A device for bus 2 with chip select 10. -/
def deviceOnBus2 : SPI_DEVICE_CONFIGURATION := ⟨2, 10, 1000000, 0⟩

/-- The table of `targetSparse` after `deviceOnBus2` has been opened. -/
def tableSparse : SpiConfig :=
  [idleBus, idleBus,
    ⟨true, 1, [deviceOnBus2, noDevice, noDevice, noDevice], [110, 0, 0, 0], byteTime1MHz⟩]

/-- The table of `target1x2` after A and B have been opened and A closed: B
alone, in slot 1. -/
def table1x2B : SpiConfig :=
  [⟨true, 1, [deviceA, deviceB], [0, 111], byteTime1MHz⟩]

/-- A second device for bus 2, with chip select 11. -/
def secondOnBus2 : SPI_DEVICE_CONFIGURATION := ⟨2, 11, 1000000, 0⟩

/-! ## The handle codec -/

/-- The outputs `spiBus` and `deviceIndex` of `getDevice` are the two low bytes. -/
theorem getDevice_snd (T : Target) (handle : Nat) :
    (getDevice T handle).2 = (GetBusFromHandle handle, handle &&& 0x00ff) := by
  unfold getDevice
  dsimp only
  split <;> rfl

/-- When `getDevice` accepts: the three tests of its `if` all fail. -/
theorem getDevice_fst_eq_true_iff (T : Target) (handle : Nat) :
    (getDevice T handle).1 = true ↔
      (handle >>> 16 &&& 0x00ff = T.CPU_DEVICE_TYPE_SPI ∧
        GetBusFromHandle handle < CPU_SPI_PortsCount T ∧
        handle &&& 0x00ff < T.NUM_SPI_BUSES) := by
  unfold getDevice
  dsimp only
  split
  · rename_i h
    simp only [Bool.false_eq_true, false_iff, not_and, not_lt]
    intro h1 h2
    rcases h with h | h | h
    · exact absurd h1 h
    · exact absurd h2 (Nat.not_lt.mpr h)
    · exact h
  · rename_i h
    simp only [not_or, not_not, ge_iff_le, not_le] at h
    simp [h.1, h.2.1, h.2.2]

theorem and_255_eq_mod (x : Nat) : x &&& 255 = x % 256 :=
  Nat.and_pow_two_sub_one_eq_mod x 8

/-- Where the round trip does hold: type constant, bus and slot fit in a byte,
the bus index is below the number of present buses and the slot index is below
`NUM_SPI_BUSES`, the two bounds that `getDevice` tests. -/
theorem getDevice_CreateSpiHandle (T : Target) (spiBus deviceIndex : Nat)
    (hT : T.CPU_DEVICE_TYPE_SPI < 256) (hb : spiBus < 256) (hi : deviceIndex < 256)
    (hbus : spiBus < CPU_SPI_PortsCount T) (hidx : deviceIndex < T.NUM_SPI_BUSES) :
    getDevice T (CreateSpiHandle T spiBus deviceIndex) = (true, spiBus, deviceIndex) := by
  have e1 : CreateSpiHandle T spiBus deviceIndex >>> 16 &&& 255 = T.CPU_DEVICE_TYPE_SPI := by
    simp only [CreateSpiHandle, Nat.shiftLeft_eq, Nat.shiftRight_eq_div_pow, and_255_eq_mod]
    omega
  have e2 : GetBusFromHandle (CreateSpiHandle T spiBus deviceIndex) = spiBus := by
    simp only [GetBusFromHandle, CreateSpiHandle, Nat.shiftLeft_eq, Nat.shiftRight_eq_div_pow,
      and_255_eq_mod]
    omega
  have e3 : CreateSpiHandle T spiBus deviceIndex &&& 255 = deviceIndex := by
    simp only [CreateSpiHandle, Nat.shiftLeft_eq, and_255_eq_mod]
    omega
  have hv := (getDevice_fst_eq_true_iff T (CreateSpiHandle T spiBus deviceIndex)).mpr
    ⟨e1, by rw [e2]; exact hbus, by rw [e3]; exact hidx⟩
  have hs := getDevice_snd T (CreateSpiHandle T spiBus deviceIndex)
  rw [e2, e3] at hs
  exact Prod.ext hv hs

/-- The loop of `CPU_SPI_PortsCount` is left because `map` has become 0, not
because the rounds are used up: more rounds than the bit width of `map` give
the same count. -/
theorem CPU_SPI_PortsCount.loop_fuel (fuel : Nat) :
    ∀ (map count extra : Nat), map < 2 ^ fuel →
      CPU_SPI_PortsCount.loop (fuel + extra) map count = CPU_SPI_PortsCount.loop fuel map count := by
  induction fuel with
  | zero =>
    intro map count extra h
    have h0 : map = 0 := by simpa using h
    subst h0
    cases extra <;> simp [CPU_SPI_PortsCount.loop]
  | succ fuel ih =>
    intro map count extra h
    have e : fuel + 1 + extra = (fuel + extra) + 1 := by omega
    rw [e]
    simp only [CPU_SPI_PortsCount.loop]
    split_ifs with h1 h2
    · exact ih _ _ _ (by rw [Nat.shiftRight_eq_div_pow]; omega)
    · exact ih _ _ _ (by rw [Nat.shiftRight_eq_div_pow]; omega)
    · rfl

/-- `CPU_SPI_PortsCount` with any number of rounds from 32 on. -/
theorem CPU_SPI_PortsCount_fuel (T : Target) (extra : Nat) :
    CPU_SPI_PortsCount.loop (32 + extra) (T.CPU_SPI_PortsMap % 2 ^ 32) 0 = CPU_SPI_PortsCount T :=
  CPU_SPI_PortsCount.loop_fuel 32 _ 0 extra (Nat.mod_lt _ (by decide))

/-- C1 (evaluated at the failing inputs): a handle that open mints is rejected
by `getDevice`.  With 2 buses and 4 slots per bus, bus 0 is present and slot 2
exists, yet the handle of (bus 0, slot 2) is rejected, because the slot index
is compared with `NUM_SPI_BUSES`: the third device opened on bus 0 gets this
handle and cannot be closed.  With port map `0b100`, bus 2 is present, yet the
handle of (bus 2, slot 0) is rejected, because the bus index is compared with
the number of present buses. -/
theorem getDevice_rejects_minted_handles :
    (busAvailable target2x4 0 = true ∧ 0 < target2x4.NUM_SPI_BUSES ∧
      2 < target2x4.MAX_SPI_DEVICES ∧
      getDevice target2x4 (CreateSpiHandle target2x4 0 2) = (false, 0, 2)) ∧
    (busAvailable targetSparse 2 = true ∧ 2 < targetSparse.NUM_SPI_BUSES ∧
      0 < targetSparse.MAX_SPI_DEVICES ∧
      getDevice targetSparse (CreateSpiHandle targetSparse 2 0) = (false, 2, 0)) ∧
    (runCalls target2x4 testDriver [idleBus, idleBus] []
        [ApiCall.OpenDeviceEx ⟨0, 10, 1000000, 0⟩, ApiCall.OpenDeviceEx ⟨0, 11, 1000000, 0⟩,
          ApiCall.OpenDeviceEx ⟨0, 12, 1000000, 0⟩,
          ApiCall.CloseDevice (CreateSpiHandle target2x4 0 2)]).map (fun x => x.1) =
      some [HRESULT.handle (CreateSpiHandle target2x4 0 0),
        HRESULT.handle (CreateSpiHandle target2x4 0 1),
        HRESULT.handle (CreateSpiHandle target2x4 0 2), HRESULT.CLR_E_INVALID_PARAMETER] := by
  decide

/-- C2 (counterexample): handle `0x01010000` has bit 24 set, so the bits above
bit 15 are `0x101`, not the type constant 1, and `getDevice` accepts it; and
with 4 buses and 2 slots per bus the handle of slot byte 3 is accepted. -/
theorem getDevice_accepts_tampered_handles :
    (16842752 < 2 ^ 32 ∧ 16842752 >>> 16 ≠ target2x4.CPU_DEVICE_TYPE_SPI ∧
      (getDevice target2x4 16842752).1 = true) ∧
    (65539 < 2 ^ 32 ∧ 65539 &&& 0x00ff ≥ target4x2.MAX_SPI_DEVICES ∧
      (getDevice target4x2 65539).1 = true) := by
  decide

/-- C2 (amended): `getDevice` returns false whenever the type byte of the
handle (bits 16 to 23) differs from `CPU_DEVICE_TYPE_SPI`, or its bus byte is
at least the number of buses the driver reports, or, on a target where
`NUM_SPI_BUSES ≤ MAX_SPI_DEVICES`, its slot byte is at least `MAX_SPI_DEVICES`. -/
theorem getDevice_rejects (T : Target) (handle : Nat)
    (h : handle >>> 16 &&& 0x00ff ≠ T.CPU_DEVICE_TYPE_SPI ∨
      GetBusFromHandle handle ≥ CPU_SPI_PortsCount T ∨
      (T.NUM_SPI_BUSES ≤ T.MAX_SPI_DEVICES ∧ handle &&& 0x00ff ≥ T.MAX_SPI_DEVICES)) :
    (getDevice T handle).1 = false := by
  cases hg : (getDevice T handle).1
  · rfl
  · rw [getDevice_fst_eq_true_iff] at hg
    rcases h with h | h | h
    · exact absurd hg.1 h
    · exact absurd hg.2.1 (Nat.not_lt.mpr h)
    · omega

/-- C2 (instance): on the target with 2 buses and 4 slots, the handle with slot
byte 4 is rejected. -/
theorem getDevice_rejects_witness : (getDevice target2x4 65540).1 = false :=
  getDevice_rejects target2x4 65540 (Or.inr (Or.inr (by decide)))

/-! ## Shape of the slot table -/

theorem WellFormed.bus {T : Target} {s : SpiConfig} (hwf : WellFormed T s) {spiBus : Nat}
    {bc : nanoSPI_BusConfig} (hb : s[spiBus]? = some bc) :
    bc.deviceCongfig.length = T.MAX_SPI_DEVICES ∧ bc.deviceHandles.length = T.MAX_SPI_DEVICES :=
  hwf.2 bc (List.getElem?_mem hb)

theorem WellFormed.set {T : Target} {s : SpiConfig} (hwf : WellFormed T s) (spiBus : Nat)
    (bc : nanoSPI_BusConfig) (h1 : bc.deviceCongfig.length = T.MAX_SPI_DEVICES)
    (h2 : bc.deviceHandles.length = T.MAX_SPI_DEVICES) : WellFormed T (s.set spiBus bc) := by
  refine ⟨by simpa using hwf.1, ?_⟩
  intro x hx
  rcases List.mem_or_eq_of_mem_set hx with hx | hx
  · exact hwf.2 x hx
  · subst hx; exact ⟨h1, h2⟩

theorem WellFormed.lookup {T : Target} {s : SpiConfig} (hwf : WellFormed T s) {spiBus : Nat}
    (hb : spiBus < T.NUM_SPI_BUSES) : ∃ bc, s[spiBus]? = some bc := by
  have : spiBus < s.length := by rw [hwf.1]; exact hb
  exact ⟨s[spiBus], List.getElem?_eq_getElem this⟩

/-! ## `nanoSPI_Initialize` -/

theorem nanoSPI_Initialize.loop_eq (fuel : Nat) :
    ∀ (spiBus : Nat) (s : SpiConfig), spiBus + fuel = s.length →
      nanoSPI_Initialize.loop fuel spiBus s =
        some (s.take spiBus ++ (s.drop spiBus).map nanoSPI_Initialize.reset) := by
  induction fuel with
  | zero =>
    intro spiBus s h
    have h0 : spiBus = s.length := by omega
    subst h0
    simp [nanoSPI_Initialize.loop]
  | succ fuel ih =>
    intro spiBus s h
    have hlt : spiBus < s.length := by omega
    simp only [nanoSPI_Initialize.loop, List.getElem?_eq_getElem hlt]
    rw [ih (spiBus + 1) _ (by simp; omega)]
    congr 1
    rw [List.drop_eq_getElem_cons hlt]
    simp only [List.map_cons]
    rw [List.take_succ, List.getElem?_set_self hlt, List.drop_set_of_lt _ _ (Nat.lt_succ_self spiBus),
      List.set_take, List.set_eq_of_length_le (by simp)]
    simp

/-- `nanoSPI_Initialize` returns, with every entry reset, on a table of
`NUM_SPI_BUSES` entries. -/
theorem nanoSPI_Initialize_eq (T : Target) (s : SpiConfig) (h : s.length = T.NUM_SPI_BUSES) :
    nanoSPI_Initialize T s = some (true, s.map nanoSPI_Initialize.reset) := by
  unfold nanoSPI_Initialize
  rw [nanoSPI_Initialize.loop_eq T.NUM_SPI_BUSES 0 s (by omega)]
  simp

/-! ## `FindFreeDeviceSlotSpi` -/

/-- The loop of `FindFreeDeviceSlotSpi` returns on arrays of the declared size,
and its three results mean what the scan has seen. -/
theorem FindFreeDeviceSlotSpi.loop_cases (bc : nanoSPI_BusConfig) (cs : Int) (fuel : Nat) :
    ∀ k, k + fuel ≤ bc.deviceHandles.length → k + fuel ≤ bc.deviceCongfig.length →
      (∃ i : Nat, FindFreeDeviceSlotSpi.loop bc cs fuel k = some (i : Int) ∧ k ≤ i ∧ i < k + fuel ∧
          bc.deviceHandles[i]? = some 0 ∧ ∀ j, k ≤ j → j < i → OccupiedByOther bc cs j) ∨
      (FindFreeDeviceSlotSpi.loop bc cs fuel k = some (-1) ∧
          ∀ j, k ≤ j → j < k + fuel → OccupiedByOther bc cs j) ∨
      (FindFreeDeviceSlotSpi.loop bc cs fuel k = some (-2) ∧
          ∃ i, k ≤ i ∧ i < k + fuel ∧ (∃ h, bc.deviceHandles[i]? = some h ∧ h ≠ 0) ∧
            (∃ c, bc.deviceCongfig[i]? = some c ∧ c.DeviceChipSelect = cs) ∧
            ∀ j, k ≤ j → j < i → OccupiedByOther bc cs j) := by
  induction fuel with
  | zero =>
    intro k _ _
    right; left
    exact ⟨rfl, fun j h1 h2 => by omega⟩
  | succ fuel ih =>
    intro k hk1 hk2
    have hlt1 : k < bc.deviceHandles.length := by omega
    have hlt2 : k < bc.deviceCongfig.length := by omega
    simp only [FindFreeDeviceSlotSpi.loop, List.getElem?_eq_getElem hlt1,
      List.getElem?_eq_getElem hlt2]
    by_cases h0 : bc.deviceHandles[k] = 0
    · left
      refine ⟨k, by simp [h0], le_refl k, by omega, ?_, fun j h1 h2 => by omega⟩
      rw [List.getElem?_eq_getElem hlt1, h0]
    · by_cases hcs : bc.deviceCongfig[k].DeviceChipSelect = cs
      · right; right
        refine ⟨by simp [h0, hcs], k, le_refl k, by omega,
          ⟨_, List.getElem?_eq_getElem hlt1, h0⟩, ⟨_, List.getElem?_eq_getElem hlt2, hcs⟩,
          fun j h1 h2 => by omega⟩
      · have hk : OccupiedByOther bc cs k :=
          ⟨⟨_, List.getElem?_eq_getElem hlt1, h0⟩, ⟨_, List.getElem?_eq_getElem hlt2, hcs⟩⟩
        have hstep : ∀ j, k ≤ j → (k + 1 ≤ j → OccupiedByOther bc cs j) → OccupiedByOther bc cs j := by
          intro j hj h
          rcases Nat.eq_or_lt_of_le hj with e | e
          · subst e; exact hk
          · exact h e
        simp only [h0, hcs, if_false]
        rcases ih (k + 1) (by omega) (by omega) with ⟨i, h1, h2, h3, h4, h5⟩ | ⟨h1, h2⟩ |
            ⟨h1, i, h2, h3, h4, h5, h6⟩
        · left
          exact ⟨i, h1, by omega, by omega, h4, fun j hj1 hj2 => hstep j hj1 (fun e => h5 j e hj2)⟩
        · right; left
          exact ⟨h1, fun j hj1 hj2 => hstep j hj1 (fun e => h2 j e (by omega))⟩
        · right; right
          exact ⟨h1, i, by omega, by omega, h4, h5,
            fun j hj1 hj2 => hstep j hj1 (fun e => h6 j e hj2)⟩

/-- `FindFreeDeviceSlotSpi` on a well-shaped entry: see `loop_cases`. -/
theorem FindFreeDeviceSlotSpi_cases (T : Target) (bc : nanoSPI_BusConfig) (cs : Int)
    (h1 : bc.deviceHandles.length = T.MAX_SPI_DEVICES)
    (h2 : bc.deviceCongfig.length = T.MAX_SPI_DEVICES) :
    (∃ i : Nat, FindFreeDeviceSlotSpi T bc cs = some (i : Int) ∧ i < T.MAX_SPI_DEVICES ∧
        bc.deviceHandles[i]? = some 0 ∧ ∀ j, j < i → OccupiedByOther bc cs j) ∨
    (FindFreeDeviceSlotSpi T bc cs = some (-1) ∧
        ∀ j, j < T.MAX_SPI_DEVICES → OccupiedByOther bc cs j) ∨
    (FindFreeDeviceSlotSpi T bc cs = some (-2) ∧
        ∃ i, i < T.MAX_SPI_DEVICES ∧ (∃ h, bc.deviceHandles[i]? = some h ∧ h ≠ 0) ∧
          (∃ c, bc.deviceCongfig[i]? = some c ∧ c.DeviceChipSelect = cs) ∧
          ∀ j, j < i → OccupiedByOther bc cs j) := by
  unfold FindFreeDeviceSlotSpi
  rcases FindFreeDeviceSlotSpi.loop_cases bc cs T.MAX_SPI_DEVICES 0 (by omega) (by omega) with
    ⟨i, h1, h2, h3, h4, h5⟩ | ⟨h1, h2⟩ | ⟨h1, i, h2, h3, h4, h5, h6⟩
  · left
    exact ⟨i, h1, by omega, h4, fun j hj => h5 j (Nat.zero_le j) hj⟩
  · right; left
    exact ⟨h1, fun j hj => h2 j (Nat.zero_le j) (by omega)⟩
  · right; right
    exact ⟨h1, i, by omega, h4, h5, fun j hj => h6 j (Nat.zero_le j) hj⟩

/-! ## One call of close, one call of open -/

/-- Close on a handle that `getDevice` rejects: the error code, nothing changes. -/
theorem nanoSPI_CloseDevice_rejected (T : Target) (D : Driver) (s : SpiConfig) (tr : List Call)
    (handle : Nat) (hv : (getDevice T handle).1 = false) :
    nanoSPI_CloseDevice T D s tr handle = some (HRESULT.CLR_E_INVALID_PARAMETER, s, tr) := by
  unfold nanoSPI_CloseDevice
  simp [hv]

/-- Close on a handle that `getDevice` accepts and that indexes inside the
table: the result, the new table and the call log. -/
theorem nanoSPI_CloseDevice_accepted (T : Target) (D : Driver) (s : SpiConfig) (tr : List Call)
    (handle : Nat) (hv : (getDevice T handle).1 = true) {bc : nanoSPI_BusConfig}
    (hb : s[(getDevice T handle).2.1]? = some bc) {h : Nat}
    (hh : bc.deviceHandles[(getDevice T handle).2.2]? = some h)
    {c0 : SPI_DEVICE_CONFIGURATION} (hc : bc.deviceCongfig[0]? = some c0) :
    nanoSPI_CloseDevice T D s tr handle =
      some (HRESULT.S_OK,
        s.set (getDevice T handle).2.1 (releaseDevice bc (getDevice T handle).2.2),
        if bc.devicesInUse - 1 ≤ 0 then
          (nanoSPI_ReserveBusPins T D (getDevice T handle).2.1 false
            (tr ++ [Call.SPI_Remove_Device h] ++ [Call.GPIO_ReservePin c0.DeviceChipSelect false]
              ++ [Call.SPI_Uninitialize (getDevice T handle).2.1])).2
        else tr ++ [Call.SPI_Remove_Device h] ++
          [Call.GPIO_ReservePin c0.DeviceChipSelect false]) := by
  unfold nanoSPI_CloseDevice
  simp only [hv, hb, hh, hc, not_true_eq_false, if_false]
  by_cases hz : bc.devicesInUse - 1 ≤ 0
  · simp [hz, releaseDevice]
  · simp [hz, releaseDevice]

/-- The result code of `nanoSPI_ReserveBusPins` is `S_OK` or the parameter error. -/
theorem nanoSPI_ReserveBusPins_code (T : Target) (D : Driver) (spiBus : Nat) (reserve : Bool)
    (tr : List Call) :
    (nanoSPI_ReserveBusPins T D spiBus reserve tr).1 = HRESULT.S_OK ∨
      (nanoSPI_ReserveBusPins T D spiBus reserve tr).1 = HRESULT.CLR_E_INVALID_PARAMETER := by
  unfold nanoSPI_ReserveBusPins
  dsimp only
  split_ifs <;> simp

/-- The bus-initialisation block of open, when it does not return, leaves the
entry with only `spiBusInited` set. -/
theorem nanoSPI_OpenDeviceEx.initBus_ok {T : Target} {D : Driver} {spiBus : Nat}
    {bc bc1 : nanoSPI_BusConfig} {tr tr1 : List Call}
    (h : nanoSPI_OpenDeviceEx.initBus T D spiBus bc tr = (Except.ok bc1, tr1)) :
    bc1 = { bc with spiBusInited := true } := by
  unfold nanoSPI_OpenDeviceEx.initBus at h
  by_cases h1 : bc.spiBusInited = true
  · simp only [h1, not_true_eq_false, if_false] at h
    cases h
    cases bc
    simp_all
  · by_cases h2 : D.CPU_SPI_Initialize tr spiBus = true
    · by_cases h3 : (nanoSPI_ReserveBusPins T D spiBus true
          (tr ++ [Call.SPI_Initialize spiBus])).1 = HRESULT.S_OK
      · simp [h1, h2, h3] at h
        exact h.1.symm
      · simp [h1, h2, h3] at h
    · simp [h1, h2] at h

/-- The code with which the bus-initialisation block of open returns is the
parameter error, and the bus was not initialised. -/
theorem nanoSPI_OpenDeviceEx.initBus_error {T : Target} {D : Driver} {spiBus : Nat}
    {bc : nanoSPI_BusConfig} {tr tr1 : List Call} {hr : HRESULT}
    (h : nanoSPI_OpenDeviceEx.initBus T D spiBus bc tr = (Except.error hr, tr1)) :
    hr = HRESULT.CLR_E_INVALID_PARAMETER ∧ bc.spiBusInited = false := by
  unfold nanoSPI_OpenDeviceEx.initBus at h
  by_cases h1 : bc.spiBusInited = true
  · simp [h1] at h
  · have h1f : bc.spiBusInited = false := by simpa using h1
    by_cases h2 : D.CPU_SPI_Initialize tr spiBus = true
    · by_cases h3 : (nanoSPI_ReserveBusPins T D spiBus true
          (tr ++ [Call.SPI_Initialize spiBus])).1 = HRESULT.S_OK
      · simp [h1, h2, h3] at h
      · simp [h1, h2, h3] at h
        rcases nanoSPI_ReserveBusPins_code T D spiBus true (tr ++ [Call.SPI_Initialize spiBus])
          with e | e
        · exact absurd e h3
        · exact ⟨h.1 ▸ e, h1f⟩
    · simp [h1, h2] at h
      exact ⟨h.1.symm, h1f⟩

/-- The outcomes of one open on a well-shaped table, for a bus that is inside
the table whenever the port map offers it.  The call returns, and either
(1) it fails before touching the table, or (2) it fails after the
bus-initialisation block, the entry of the bus changed at most in
`spiBusInited`, or (3) it succeeds: the bus had room, slot `i` is the first
with handle 0, every slot before it holds a device with another chip select,
and the entry of the bus becomes `storeDevice`. -/
theorem nanoSPI_OpenDeviceEx_cases (T : Target) (D : Driver) (s : SpiConfig) (tr : List Call)
    (cfg : SPI_DEVICE_CONFIGURATION) (hwf : WellFormed T s)
    (hbus : busAvailable T (cfg.Spi_Bus % 256) = true → cfg.Spi_Bus % 256 < T.NUM_SPI_BUSES) :
    ∃ r s1 tr1, nanoSPI_OpenDeviceEx T D s tr cfg = some (r, s1, tr1) ∧
      ((s1 = s ∧ (r = HRESULT.CLR_E_INVALID_PARAMETER ∨ r = HRESULT.CLR_E_INDEX_OUT_OF_RANGE)) ∨
       (∃ bc, s[cfg.Spi_Bus % 256]? = some bc ∧ bc.devicesInUse < (T.MAX_SPI_DEVICES : Int) ∧
          s1 = s.set (cfg.Spi_Bus % 256) { bc with spiBusInited := true } ∧
          (r = HRESULT.CLR_E_INDEX_OUT_OF_RANGE ∨ r = HRESULT.CLR_E_NOT_SUPPORTED ∨
            r = HRESULT.CLR_E_FAIL)) ∨
       (∃ bc i, s[cfg.Spi_Bus % 256]? = some bc ∧ bc.devicesInUse < (T.MAX_SPI_DEVICES : Int) ∧
          i < T.MAX_SPI_DEVICES ∧ bc.deviceHandles[i]? = some 0 ∧
          (∀ j, j < i → OccupiedByOther bc cfg.DeviceChipSelect j) ∧
          r = HRESULT.handle (CreateSpiHandle T (cfg.Spi_Bus % 256) i) ∧
          s1 = s.set (cfg.Spi_Bus % 256) (storeDevice bc i cfg
            (D.CPU_SPI_Add_Device (nanoSPI_OpenDeviceEx.initBus T D (cfg.Spi_Bus % 256) bc tr).2 cfg)))) := by
  unfold nanoSPI_OpenDeviceEx
  dsimp only
  by_cases hav : busAvailable T (cfg.Spi_Bus % 256) = true
  swap
  · exact ⟨HRESULT.CLR_E_INVALID_PARAMETER, s, tr, by simp [hav], Or.inl ⟨rfl, Or.inl rfl⟩⟩
  obtain ⟨bc, hb⟩ := hwf.lookup (hbus hav)
  obtain ⟨hlc, hlh⟩ := hwf.bus hb
  simp only [hav, not_true_eq_false, if_false, hb]
  by_cases hfull : bc.devicesInUse ≥ (T.MAX_SPI_DEVICES : Int)
  · exact ⟨HRESULT.CLR_E_INDEX_OUT_OF_RANGE, s, tr, by simp [hfull], Or.inl ⟨rfl, Or.inr rfl⟩⟩
  simp only [hfull, if_false]
  have hroom : bc.devicesInUse < (T.MAX_SPI_DEVICES : Int) := by omega
  rcases hi : nanoSPI_OpenDeviceEx.initBus T D (cfg.Spi_Bus % 256) bc tr with ⟨hr | bc1, tr1⟩
  · obtain ⟨e, -⟩ := nanoSPI_OpenDeviceEx.initBus_error hi
    exact ⟨_, _, _, rfl, Or.inl ⟨rfl, Or.inl e⟩⟩
  have hbc1 := nanoSPI_OpenDeviceEx.initBus_ok hi
  subst hbc1
  dsimp only
  rcases FindFreeDeviceSlotSpi_cases T { bc with spiBusInited := true } cfg.DeviceChipSelect hlh hlc
    with ⟨i, h1, h2, h3, h4⟩ | ⟨h1, -⟩ | ⟨h1, -⟩
  · simp only [h1]
    have hneg : ¬ ((i : Int) < 0) := by omega
    simp only [hneg, if_false, Int.toNat_ofNat]
    by_cases hfail : D.CPU_SPI_Add_Device tr1 cfg ≠ 0 ∧
        D.CPU_GPIO_ReservePin (tr1 ++ [Call.SPI_Add_Device cfg]) cfg.DeviceChipSelect true = false
    · exact ⟨_, _, _, by rw [if_pos hfail],
        Or.inr (Or.inl ⟨bc, rfl, hroom, rfl, Or.inr (Or.inr rfl)⟩)⟩
    · have hin : i < bc.deviceCongfig.length ∧ i < bc.deviceHandles.length := by
        rw [hlc, hlh]; exact ⟨h2, h2⟩
      refine ⟨_, _, _, by rw [if_neg hfail, if_pos hin], Or.inr (Or.inr ⟨bc, i, rfl, hroom, h2, h3, h4, rfl, ?_⟩)⟩
      simp [storeDevice, hi]
  · exact ⟨HRESULT.CLR_E_INDEX_OUT_OF_RANGE, s.set (cfg.Spi_Bus % 256) { bc with spiBusInited := true },
      tr1, by simp [h1], Or.inr (Or.inl ⟨bc, rfl, hroom, rfl, Or.inl rfl⟩)⟩
  · exact ⟨HRESULT.CLR_E_NOT_SUPPORTED, s.set (cfg.Spi_Bus % 256) { bc with spiBusInited := true },
      tr1, by simp [h1], Or.inr (Or.inl ⟨bc, rfl, hroom, rfl, Or.inr (Or.inl rfl)⟩)⟩

/-- An open that returns on an offered bus has found the bus inside the table. -/
theorem nanoSPI_OpenDeviceEx_bus_lt {T : Target} {D : Driver} {s : SpiConfig} {tr : List Call}
    {cfg : SPI_DEVICE_CONFIGURATION} {x : HRESULT × SpiConfig × List Call}
    (h : nanoSPI_OpenDeviceEx T D s tr cfg = some x)
    (hav : busAvailable T (cfg.Spi_Bus % 256) = true) : cfg.Spi_Bus % 256 < s.length := by
  by_contra hlt
  have hnone : s[cfg.Spi_Bus % 256]? = none := List.getElem?_eq_none (by omega)
  unfold nanoSPI_OpenDeviceEx at h
  simp [hav, hnone] at h

/-! ## Counting occupied slots -/

theorem countP_set_le (xs : List Nat) (i v : Nat) :
    (xs.set i v).countP (fun h => h != 0) ≤ xs.countP (fun h => h != 0) + 1 := by
  induction xs generalizing i with
  | nil => simp
  | cons x xs ih =>
    cases i with
    | zero =>
      simp only [List.set_cons_zero, List.countP_cons]
      split_ifs <;> omega
    | succ i =>
      simp only [List.set_cons_succ, List.countP_cons]
      have := ih i
      omega

theorem countP_set_zero (xs : List Nat) (i h : Nat) (hh : xs[i]? = some h) (hne : h ≠ 0) :
    (xs.set i 0).countP (fun h => h != 0) + 1 = xs.countP (fun h => h != 0) := by
  induction xs generalizing i with
  | nil => simp at hh
  | cons x xs ih =>
    cases i with
    | zero =>
      simp only [List.getElem?_cons_zero, Option.some.injEq] at hh
      subst hh
      simp [List.countP_cons, hne]
    | succ i =>
      simp only [List.getElem?_cons_succ] at hh
      simp only [List.set_cons_succ, List.countP_cons]
      have := ih i hh
      omega

theorem countP_set_nonzero (xs : List Nat) (i v : Nat) (hh : xs[i]? = some 0) (hne : v ≠ 0) :
    (xs.set i v).countP (fun h => h != 0) = xs.countP (fun h => h != 0) + 1 := by
  induction xs generalizing i with
  | nil => simp at hh
  | cons x xs ih =>
    cases i with
    | zero =>
      simp only [List.getElem?_cons_zero, Option.some.injEq] at hh
      subst hh
      simp [List.countP_cons, hne]
    | succ i =>
      simp only [List.getElem?_cons_succ] at hh
      simp only [List.set_cons_succ, List.countP_cons]
      have := ih i hh
      omega

theorem occupiedSlots_reset (bc : nanoSPI_BusConfig) :
    occupiedSlots (nanoSPI_Initialize.reset bc) = 0 := by
  simp [occupiedSlots, nanoSPI_Initialize.reset, List.countP_eq_zero]

/-! ## Invariants of the reachable tables -/

/-- A close that returns either rejected the handle and changed nothing, or
accepted it and released the slot it names. -/
theorem nanoSPI_CloseDevice_cases {T : Target} {D : Driver} {s s1 : SpiConfig}
    {tr tr1 : List Call} {handle : Nat} {r : HRESULT}
    (h : nanoSPI_CloseDevice T D s tr handle = some (r, s1, tr1)) :
    ((getDevice T handle).1 = false ∧ r = HRESULT.CLR_E_INVALID_PARAMETER ∧ s1 = s ∧ tr1 = tr) ∨
    ((getDevice T handle).1 = true ∧ r = HRESULT.S_OK ∧
      ∃ bc dh c0, s[(getDevice T handle).2.1]? = some bc ∧
        bc.deviceHandles[(getDevice T handle).2.2]? = some dh ∧
        bc.deviceCongfig[0]? = some c0 ∧
        s1 = s.set (getDevice T handle).2.1 (releaseDevice bc (getDevice T handle).2.2)) := by
  cases hv : (getDevice T handle).1
  · rw [nanoSPI_CloseDevice_rejected T D s tr handle hv] at h
    simp only [Option.some.injEq, Prod.mk.injEq] at h
    exact Or.inl ⟨rfl, h.1.symm, h.2.1.symm, h.2.2.symm⟩
  · right
    cases hb : s[(getDevice T handle).2.1]? with
    | none => unfold nanoSPI_CloseDevice at h; simp [hv, hb] at h
    | some bc =>
      cases hh : bc.deviceHandles[(getDevice T handle).2.2]? with
      | none => unfold nanoSPI_CloseDevice at h; simp [hv, hb, hh] at h
      | some dh =>
        cases hc : bc.deviceCongfig[0]? with
        | none => unfold nanoSPI_CloseDevice at h; simp [hv, hb, hh, hc] at h
        | some c0 =>
          rw [nanoSPI_CloseDevice_accepted T D s tr handle hv hb hh hc] at h
          simp only [Option.some.injEq, Prod.mk.injEq] at h
          exact ⟨rfl, h.1.symm, bc, dh, c0, rfl, hh, hc, h.2.1.symm⟩

/-- Every reachable table has the declared shape. -/
theorem Reachable.wellFormed {T : Target} {okDriver : Driver → Prop}
    {okClose : SpiConfig → Nat → Prop} {s : SpiConfig}
    (h : Reachable T okDriver okClose s) : WellFormed T s := by
  induction h with
  | init s0 s hwf hinit =>
    rw [nanoSPI_Initialize_eq T s0 hwf.1] at hinit
    simp only [Option.some.injEq, Prod.mk.injEq, true_and] at hinit
    subst hinit
    refine ⟨by simpa using hwf.1, ?_⟩
    intro bc hbc
    obtain ⟨bc0, hbc0, rfl⟩ := List.mem_map.mp hbc
    simpa [nanoSPI_Initialize.reset] using hwf.2 bc0 hbc0
  | openDevice s s1 D tr tr1 cfg r _ _ hopen ih =>
    have hbus : busAvailable T (cfg.Spi_Bus % 256) = true → cfg.Spi_Bus % 256 < T.NUM_SPI_BUSES :=
      fun hav => ih.1 ▸ nanoSPI_OpenDeviceEx_bus_lt hopen hav
    obtain ⟨r', s', tr', he, hc⟩ := nanoSPI_OpenDeviceEx_cases T D s tr cfg ih hbus
    rw [hopen] at he
    simp only [Option.some.injEq, Prod.mk.injEq] at he
    obtain ⟨-, rfl, -⟩ := he
    rcases hc with ⟨rfl, -⟩ | ⟨bc, hb, -, rfl, -⟩ | ⟨bc, i, hb, -, -, -, -, -, rfl⟩
    · exact ih
    · exact ih.set _ _ (ih.bus hb).1 (ih.bus hb).2
    · exact ih.set _ _ (by simpa [storeDevice] using (ih.bus hb).1)
        (by simpa [storeDevice] using (ih.bus hb).2)
  | closeDevice s s1 D tr tr1 handle r _ _ _ hclose ih =>
    rcases nanoSPI_CloseDevice_cases hclose with ⟨-, -, rfl, -⟩ | ⟨-, -, bc, dh, c0, hb, -, -, rfl⟩
    · exact ih
    · exact ih.set _ _ (by simpa [releaseDevice] using (ih.bus hb).1)
        (by simpa [releaseDevice] using (ih.bus hb).2)

/-- Reachability is monotone in the two restrictions. -/
theorem Reachable.mono {T : Target} {okDriver okDriver2 : Driver → Prop}
    {okClose okClose2 : SpiConfig → Nat → Prop} (hD : ∀ D, okDriver D → okDriver2 D)
    (hC : ∀ s handle, okClose s handle → okClose2 s handle) {s : SpiConfig}
    (h : Reachable T okDriver okClose s) : Reachable T okDriver2 okClose2 s := by
  induction h with
  | init s0 s hwf hinit => exact Reachable.init s0 s hwf hinit
  | openDevice s s1 D tr tr1 cfg r _ hd hopen ih =>
    exact Reachable.openDevice s s1 D tr tr1 cfg r ih (hD D hd) hopen
  | closeDevice s s1 D tr tr1 handle r _ hd hc hclose ih =>
    exact Reachable.closeDevice s s1 D tr tr1 handle r ih (hD D hd) (hC s handle hc) hclose

/-- When close is only called on handles that are rejected or name an occupied
slot, the counter of every bus lies between the number of its occupied slots
and `MAX_SPI_DEVICES`. -/
theorem Reachable.count_between {T : Target} {okDriver : Driver → Prop} {s : SpiConfig}
    (h : Reachable T okDriver (closesOccupiedSlot T) s) :
    ∀ bc ∈ s, (occupiedSlots bc : Int) ≤ bc.devicesInUse ∧
      bc.devicesInUse ≤ (T.MAX_SPI_DEVICES : Int) := by
  induction h with
  | init s0 s hwf hinit =>
    rw [nanoSPI_Initialize_eq T s0 hwf.1] at hinit
    simp only [Option.some.injEq, Prod.mk.injEq, true_and] at hinit
    subst hinit
    intro bc hbc
    obtain ⟨bc0, -, rfl⟩ := List.mem_map.mp hbc
    rw [occupiedSlots_reset]
    simp [nanoSPI_Initialize.reset]
  | openDevice s s1 D tr tr1 cfg r hs _ hopen ih =>
    have hwf := hs.wellFormed
    have hbus : busAvailable T (cfg.Spi_Bus % 256) = true → cfg.Spi_Bus % 256 < T.NUM_SPI_BUSES :=
      fun hav => hwf.1 ▸ nanoSPI_OpenDeviceEx_bus_lt hopen hav
    obtain ⟨r', s', tr', he, hc⟩ := nanoSPI_OpenDeviceEx_cases T D s tr cfg hwf hbus
    rw [hopen] at he
    simp only [Option.some.injEq, Prod.mk.injEq] at he
    obtain ⟨-, rfl, -⟩ := he
    rcases hc with ⟨rfl, -⟩ | ⟨bc, hb, -, rfl, -⟩ | ⟨bc, i, hb, hroom, -, -, -, -, rfl⟩
    · exact ih
    · intro x hx
      rcases List.mem_or_eq_of_mem_set hx with hx | rfl
      · exact ih x hx
      · exact ih bc (List.getElem?_mem hb)
    · intro x hx
      rcases List.mem_or_eq_of_mem_set hx with hx | rfl
      · exact ih x hx
      · have hbc := ih bc (List.getElem?_mem hb)
        have hle := countP_set_le bc.deviceHandles i
          (D.CPU_SPI_Add_Device (nanoSPI_OpenDeviceEx.initBus T D (cfg.Spi_Bus % 256) bc tr).2 cfg)
        simp only [storeDevice, occupiedSlots] at hbc ⊢
        omega
  | closeDevice s s1 D tr tr1 handle r hs _ hok hclose ih =>
    rcases nanoSPI_CloseDevice_cases hclose with ⟨-, -, rfl, -⟩ | ⟨hv, -, bc, dh, c0, hb, hh, -, rfl⟩
    · exact ih
    · rcases hok with hrej | ⟨bc2, dh2, hb2, hh2, hne⟩
      · rw [hv] at hrej; cases hrej
      · rw [hb] at hb2
        cases hb2
        rw [hh] at hh2
        cases hh2
        intro x hx
        rcases List.mem_or_eq_of_mem_set hx with hx | rfl
        · exact ih x hx
        · have hbc := ih bc (List.getElem?_mem hb)
          have hcnt := countP_set_zero bc.deviceHandles _ dh hh hne
          simp only [releaseDevice, occupiedSlots] at hbc ⊢
          omega

/-! ## Closing twice (C3) -/

/-- C3 (counterexample): device A is opened and its handle closed twice.  After
the first close the bus has `devicesInUse = 0`; the second close returns `S_OK`
again, not `CLR_E_INVALID_PARAMETER`, and moves `devicesInUse` to `-1`. -/
theorem second_close_returns_S_OK :
    nanoSPI_Initialize target2x4 (bootConfig target2x4) = some (true, [idleBus, idleBus]) ∧
    (runCalls target2x4 testDriver [idleBus, idleBus] []
        [ApiCall.OpenDeviceEx deviceA, ApiCall.CloseDevice 65536]).map (fun x => (x.1, x.2.1)) =
      some ([HRESULT.handle 65536, HRESULT.S_OK], tableAClosed) ∧
    (runCalls target2x4 testDriver [idleBus, idleBus] []
        [ApiCall.OpenDeviceEx deviceA, ApiCall.CloseDevice 65536,
          ApiCall.CloseDevice 65536]).map (fun x => (x.1, x.2.1)) =
      some ([HRESULT.handle 65536, HRESULT.S_OK, HRESULT.S_OK],
        [⟨false, -1, [deviceA, noDevice, noDevice, noDevice], [0, 0, 0, 0], byteTime1MHz⟩, idleBus]) := by
  decide!

/-- C3 (amended): when a close of `handle` has returned code `r1`, a second
close of the same handle right after it returns the same code `r1`, whatever
the driver answers.  If the code is `CLR_E_INVALID_PARAMETER` the table is
unchanged.  If it is `S_OK` (close tests the encoding of the handle, not the
occupancy of the slot) the slot's handle is 0 before and after, all handles and
configurations are unchanged, and only the bus entry's `devicesInUse` is
lowered once more, with `spiBusInited` cleared when the counter is at most 0. -/
theorem close_twice (T : Target) (D1 D2 : Driver) (s s1 : SpiConfig) (tr tr1 tr2 : List Call)
    (handle : Nat) (r1 : HRESULT)
    (h1 : nanoSPI_CloseDevice T D1 s tr handle = some (r1, s1, tr1)) :
    ∃ s2 tr3, nanoSPI_CloseDevice T D2 s1 tr2 handle = some (r1, s2, tr3) ∧
      ((r1 = HRESULT.CLR_E_INVALID_PARAMETER ∧ s2 = s1) ∨
       (r1 = HRESULT.S_OK ∧ ∃ bc1, s1[(getDevice T handle).2.1]? = some bc1 ∧
          bc1.deviceHandles[(getDevice T handle).2.2]? = some 0 ∧
          s2 = s1.set (getDevice T handle).2.1
            { bc1 with
              devicesInUse := bc1.devicesInUse - 1,
              spiBusInited := if bc1.devicesInUse - 1 ≤ 0 then false else bc1.spiBusInited })) := by
  rcases nanoSPI_CloseDevice_cases h1 with ⟨hv, rfl, rfl, -⟩ | ⟨hv, rfl, bc, dh, c0, hb, hh, hc, rfl⟩
  · exact ⟨s1, tr2, nanoSPI_CloseDevice_rejected T D2 s1 tr2 handle hv, Or.inl ⟨rfl, rfl⟩⟩
  · have hblt : (getDevice T handle).2.1 < s.length := (List.getElem?_eq_some.mp hb).1
    have hilt : (getDevice T handle).2.2 < bc.deviceHandles.length :=
      (List.getElem?_eq_some.mp hh).1
    have hb1 : (s.set (getDevice T handle).2.1 (releaseDevice bc (getDevice T handle).2.2))[
        (getDevice T handle).2.1]? = some (releaseDevice bc (getDevice T handle).2.2) :=
      List.getElem?_set_self hblt
    have hh1 : (releaseDevice bc (getDevice T handle).2.2).deviceHandles[
        (getDevice T handle).2.2]? = some 0 := by
      simp only [releaseDevice]
      exact List.getElem?_set_self hilt
    have hc1 : (releaseDevice bc (getDevice T handle).2.2).deviceCongfig[0]? = some c0 := by
      simpa [releaseDevice] using hc
    refine ⟨_, _, nanoSPI_CloseDevice_accepted T D2 _ tr2 handle hv hb1 hh1 hc1,
      Or.inr ⟨rfl, _, hb1, hh1, ?_⟩⟩
    congr 1
    simp [releaseDevice]

/-- C3 (instance): device A was closed once with `testDriver` (table `tableA`
to `tableAClosed`); closing its handle again, here against the weak driver of
the source, returns `S_OK`. -/
theorem close_twice_witness :
    ∃ s2 tr3, nanoSPI_CloseDevice target2x4 (weakDriver target2x4) tableAClosed [] 65536 =
      some (HRESULT.S_OK, s2, tr3) :=
  (close_twice target2x4 testDriver (weakDriver target2x4) tableA tableAClosed logOpenA
    (logOpenA ++ [Call.SPI_Remove_Device 110, Call.GPIO_ReservePin 10 false,
      Call.SPI_Uninitialize 0, Call.SPI_GetPins 0, Call.GPIO_ReservePin 18 false,
      Call.GPIO_ReservePin 19 false, Call.GPIO_ReservePin 23 false])
    [] 65536 HRESULT.S_OK (by decide!)).imp fun _ h => h.imp fun _ h => h.1

/-! ## Worked call sequences on the two-bus target -/

theorem Reachable.open_of_map {T : Target} {okDriver : Driver → Prop}
    {okClose : SpiConfig → Nat → Prop} {s s1 : SpiConfig} (D : Driver) (tr : List Call)
    (cfg : SPI_DEVICE_CONFIGURATION) (hs : Reachable T okDriver okClose s) (hD : okDriver D)
    (h : (nanoSPI_OpenDeviceEx T D s tr cfg).map (fun x => x.2.1) = some s1) :
    Reachable T okDriver okClose s1 := by
  obtain ⟨⟨r, s2, tr1⟩, hx, rfl⟩ := Option.map_eq_some'.mp h
  exact Reachable.openDevice s s2 D tr tr1 cfg r hs hD hx

theorem Reachable.close_of_map {T : Target} {okDriver : Driver → Prop}
    {okClose : SpiConfig → Nat → Prop} {s s1 : SpiConfig} (D : Driver) (tr : List Call)
    (handle : Nat) (hs : Reachable T okDriver okClose s) (hD : okDriver D)
    (hC : okClose s handle)
    (h : (nanoSPI_CloseDevice T D s tr handle).map (fun x => x.2.1) = some s1) :
    Reachable T okDriver okClose s1 := by
  obtain ⟨⟨r, s2, tr1⟩, hx, rfl⟩ := Option.map_eq_some'.mp h
  exact Reachable.closeDevice s s2 D tr tr1 handle r hs hD hC hx

theorem addsNonzero_testDriver : addsNonzero testDriver := by
  intro tr cfg
  simp only [testDriver]
  omega

theorem reachable_idle (okDriver : Driver → Prop) (okClose : SpiConfig → Nat → Prop) :
    Reachable target2x4 okDriver okClose [idleBus, idleBus] :=
  Reachable.init (bootConfig target2x4) _ (by decide) (by decide!)

theorem reachable_tableA (okDriver : Driver → Prop) (okClose : SpiConfig → Nat → Prop)
    (hD : okDriver testDriver) : Reachable target2x4 okDriver okClose tableA :=
  Reachable.open_of_map testDriver [] deviceA (reachable_idle okDriver okClose) hD (by decide!)

theorem reachable_tableAB (okDriver : Driver → Prop) (okClose : SpiConfig → Nat → Prop)
    (hD : okDriver testDriver) : Reachable target2x4 okDriver okClose tableAB :=
  Reachable.open_of_map testDriver [] deviceB (reachable_tableA okDriver okClose hD) hD
    (by decide!)

theorem reachable_tableB :
    Reachable target2x4 addsNonzero (closesOpenDevice target2x4) tableB :=
  Reachable.close_of_map testDriver [] 65536
    (reachable_tableAB addsNonzero (closesOpenDevice target2x4) addsNonzero_testDriver)
    addsNonzero_testDriver ⟨0, 0, _, 110, by decide, rfl, rfl, by decide⟩ (by decide!)

/-! ## Chip selects of the occupied slots (C4, C7) and the pin close releases (C8) -/

/-- C4 (evaluated at the failing input): open A (chip select 10), open B (chip
select 11), close A, open C (chip select 11).  The last open returns the handle
of slot 0, and the reachable table `tableCB` has nonzero handles in slots 0 and
1 of bus 0 whose configurations both have chip select 11. -/
theorem chip_select_shared_after_reopen :
    (runCalls target2x4 testDriver [idleBus, idleBus] []
        [ApiCall.OpenDeviceEx deviceA, ApiCall.OpenDeviceEx deviceB, ApiCall.CloseDevice 65536,
          ApiCall.OpenDeviceEx deviceC]).map (fun x => (x.1, x.2.1)) =
      some ([HRESULT.handle 65536, HRESULT.handle 65537, HRESULT.S_OK, HRESULT.handle 65536],
        tableCB) ∧
    Reachable target2x4 addsNonzero (closesOpenDevice target2x4) tableCB ∧
    tableCB.map (fun bc => bc.deviceHandles) = [[211, 111, 0, 0], [0, 0, 0, 0]] ∧
    tableCB.map (fun bc => bc.deviceCongfig.map (fun c => c.DeviceChipSelect)) =
      [[11, 11, 0, 0], [0, 0, 0, 0]] :=
  ⟨by decide!,
    Reachable.open_of_map testDriver [] deviceC reachable_tableB addsNonzero_testDriver
      (by decide!),
    by decide, by decide⟩

/-- C7 (evaluated at the failing input): in the reachable table `tableB` device
B is open on bus 0 with chip select 11 (slot 1) and one of four slots is in
use.  A further open on bus 0 with chip select 11 returns the handle of slot 0
instead of `CLR_E_NOT_SUPPORTED`, calls the driver's add-device, and raises
`devicesInUse` from 1 to 2. -/
theorem open_same_chip_select_succeeds :
    Reachable target2x4 addsNonzero (closesOpenDevice target2x4) tableB ∧
    deviceC.DeviceChipSelect = deviceB.DeviceChipSelect ∧
    nanoSPI_OpenDeviceEx target2x4 testDriver tableB [] deviceC =
      some (HRESULT.handle 65536, tableCB,
        [Call.SPI_Add_Device deviceC, Call.GPIO_ReservePin 11 true]) ∧
    tableB.map (fun bc => bc.devicesInUse) = [1, 0] ∧
    tableCB.map (fun bc => bc.devicesInUse) = [2, 0] :=
  ⟨reachable_tableB, by decide, by decide!, by decide, by decide⟩

/-- C8 (evaluated at the failing input): with A (chip select 10) in slot 0 and B
(chip select 11) in slot 1, closing the handle of slot 1 removes B's driver
device 111 and then releases pin 10, the chip select of slot 0; pin 11 is not
released. -/
theorem close_releases_chip_select_of_slot_0 :
    (runCalls target2x4 testDriver [idleBus, idleBus] []
        [ApiCall.OpenDeviceEx deviceA, ApiCall.OpenDeviceEx deviceB]).map
      (fun x => (x.1, x.2.1)) = some ([HRESULT.handle 65536, HRESULT.handle 65537], tableAB) ∧
    getDevice target2x4 65537 = (true, 0, 1) ∧
    nanoSPI_CloseDevice target2x4 testDriver tableAB [] 65537 =
      some (HRESULT.S_OK, tableABClosedB,
        [Call.SPI_Remove_Device 111, Call.GPIO_ReservePin 10 false]) := by
  decide!

/-! ## Bounds of `devicesInUse` (C5) -/

/-- C5 (counterexample): right after `nanoSPI_Initialize`, a close of the handle
of (bus 0, slot 0), which `getDevice` accepts, is a call the claim admits; it
leads to the reachable table `tableStrayClose`, where bus 0 has
`devicesInUse = -1`. -/
theorem devicesInUse_negative_reachable :
    Reachable target2x4 (fun _ => True) (fun _ _ => True) tableStrayClose ∧
    nanoSPI_CloseDevice target2x4 testDriver [idleBus, idleBus] [] 65536 =
      some (HRESULT.S_OK, tableStrayClose,
        [Call.SPI_Remove_Device 0, Call.GPIO_ReservePin 0 false, Call.SPI_Uninitialize 0,
          Call.SPI_GetPins 0, Call.GPIO_ReservePin 18 false, Call.GPIO_ReservePin 19 false,
          Call.GPIO_ReservePin 23 false]) ∧
    tableStrayClose.map (fun bc => decide (0 ≤ bc.devicesInUse)) = [false, true] :=
  ⟨Reachable.close_of_map testDriver [] 65536 (reachable_idle _ _) trivial trivial (by decide!),
    by decide!, by decide⟩

/-- C5 (amended): in every table reached from `nanoSPI_Initialize` by opens
with any configuration and any driver answers, and by closes whose handle is
either rejected by `getDevice` or names a slot with a nonzero handle, every bus
has `0 ≤ devicesInUse ≤ MAX_SPI_DEVICES`. -/
theorem devicesInUse_bounds (T : Target) (s : SpiConfig) (bc : nanoSPI_BusConfig)
    (hreach : Reachable T (fun _ => True) (closesOccupiedSlot T) s) (hbc : bc ∈ s) :
    0 ≤ bc.devicesInUse ∧ bc.devicesInUse ≤ (T.MAX_SPI_DEVICES : Int) := by
  have h := hreach.count_between bc hbc
  exact ⟨le_trans (Int.ofNat_nonneg _) h.1, h.2⟩

/-- C5 (instance): the bounds in the table with devices A and B open. -/
theorem devicesInUse_bounds_witness :
    (0 : Int) ≤ 2 ∧ (2 : Int) ≤ (target2x4.MAX_SPI_DEVICES : Int) :=
  devicesInUse_bounds target2x4 tableAB
    ⟨true, 2, [deviceA, deviceB, noDevice, noDevice], [110, 111, 0, 0], byteTime1MHz⟩
    (reachable_tableAB _ _ trivial) (List.mem_cons_self _ _)

/-! ## Call logs only grow -/

theorem nanoSPI_ReserveBusPins.check_log (T : Target) (D : Driver) (pin0 : Int) (pins : List Int) :
    ∀ tr, tr <+: (nanoSPI_ReserveBusPins.check T D pin0 pins tr).2 := by
  induction pins with
  | nil => intro tr; exact List.prefix_refl tr
  | cons p rest ih =>
    intro tr
    unfold nanoSPI_ReserveBusPins.check
    split_ifs
    · exact List.prefix_append tr _
    · exact (List.prefix_append tr _).trans (ih _)
    · exact ih tr

theorem nanoSPI_ReserveBusPins.reserveAll_log (D : Driver) (reserve : Bool) (pins : List Int) :
    ∀ tr, tr <+: (nanoSPI_ReserveBusPins.reserveAll D reserve pins tr).2 := by
  induction pins with
  | nil => intro tr; exact List.prefix_refl tr
  | cons p rest ih =>
    intro tr
    unfold nanoSPI_ReserveBusPins.reserveAll
    split_ifs
    · exact List.prefix_append tr _
    · exact (List.prefix_append tr _).trans (ih _)

/-- The log after `nanoSPI_ReserveBusPins` starts with the log before it and
the `CPU_SPI_GetPins` call. -/
theorem nanoSPI_ReserveBusPins_log (T : Target) (D : Driver) (spiBus : Nat) (reserve : Bool)
    (tr : List Call) :
    (tr ++ [Call.SPI_GetPins spiBus]) <+: (nanoSPI_ReserveBusPins T D spiBus reserve tr).2 := by
  unfold nanoSPI_ReserveBusPins
  dsimp only
  cases reserve
  · simp only [Bool.false_eq_true, if_false]
    split_ifs
    · exact nanoSPI_ReserveBusPins.reserveAll_log D false _ _
    · exact nanoSPI_ReserveBusPins.reserveAll_log D false _ _
  · simp only [if_true]
    have hchk := nanoSPI_ReserveBusPins.check_log T D (D.CPU_SPI_GetPins tr spiBus).1
      [(D.CPU_SPI_GetPins tr spiBus).1, (D.CPU_SPI_GetPins tr spiBus).2.1,
        (D.CPU_SPI_GetPins tr spiBus).2.2] (tr ++ [Call.SPI_GetPins spiBus])
    split_ifs
    · exact hchk
    · exact hchk.trans (nanoSPI_ReserveBusPins.reserveAll_log D true _ _)
    · exact hchk.trans (nanoSPI_ReserveBusPins.reserveAll_log D true _ _)

/-- The log after the bus-initialisation block of open, for a bus that is not
initialised: it starts with the `CPU_SPI_Initialize` call, and when that call
succeeds it is the log of `nanoSPI_ReserveBusPins(spiBus, true)` run next. -/
theorem nanoSPI_OpenDeviceEx.initBus_log (T : Target) (D : Driver) (spiBus : Nat)
    (bc : nanoSPI_BusConfig) (tr : List Call) (hun : bc.spiBusInited = false) :
    (tr ++ [Call.SPI_Initialize spiBus]) <+: (nanoSPI_OpenDeviceEx.initBus T D spiBus bc tr).2 ∧
    (D.CPU_SPI_Initialize tr spiBus = true →
      (nanoSPI_OpenDeviceEx.initBus T D spiBus bc tr).2 =
        (nanoSPI_ReserveBusPins T D spiBus true (tr ++ [Call.SPI_Initialize spiBus])).2) := by
  by_cases h2 : D.CPU_SPI_Initialize tr spiBus = true
  · have he : (nanoSPI_OpenDeviceEx.initBus T D spiBus bc tr).2 =
        (nanoSPI_ReserveBusPins T D spiBus true (tr ++ [Call.SPI_Initialize spiBus])).2 := by
      unfold nanoSPI_OpenDeviceEx.initBus
      simp only [hun, h2]
      split_ifs <;> first | rfl | (exfalso; simp_all)
    refine ⟨?_, fun _ => he⟩
    rw [he]
    exact (List.prefix_append (tr ++ [Call.SPI_Initialize spiBus]) [Call.SPI_GetPins spiBus]).trans
      (nanoSPI_ReserveBusPins_log T D spiBus true (tr ++ [Call.SPI_Initialize spiBus]))
  · unfold nanoSPI_OpenDeviceEx.initBus
    simp [hun, h2]

/-- The log after an open that got past the bus-full test starts with the log
after its bus-initialisation block. -/
theorem nanoSPI_OpenDeviceEx_log {T : Target} {D : Driver} {s s1 : SpiConfig}
    {tr tr1 : List Call} {cfg : SPI_DEVICE_CONFIGURATION} {r : HRESULT}
    {bc : nanoSPI_BusConfig}
    (h : nanoSPI_OpenDeviceEx T D s tr cfg = some (r, s1, tr1))
    (hav : busAvailable T (cfg.Spi_Bus % 256) = true)
    (hb : s[cfg.Spi_Bus % 256]? = some bc)
    (hroom : bc.devicesInUse < (T.MAX_SPI_DEVICES : Int)) :
    (nanoSPI_OpenDeviceEx.initBus T D (cfg.Spi_Bus % 256) bc tr).2 <+: tr1 := by
  unfold nanoSPI_OpenDeviceEx at h
  have hnf : ¬ bc.devicesInUse ≥ (T.MAX_SPI_DEVICES : Int) := by omega
  simp only [hav, not_true_eq_false, if_false, hb, hnf] at h
  rcases hi : nanoSPI_OpenDeviceEx.initBus T D (cfg.Spi_Bus % 256) bc tr with ⟨hr | bc1, tri⟩
  · simp only [hi, Option.some.injEq, Prod.mk.injEq] at h
    rw [← h.2.2]
  · simp only [hi] at h
    cases hf : FindFreeDeviceSlotSpi T bc1 cfg.DeviceChipSelect with
    | none => simp [hf] at h
    | some di =>
      simp only [hf] at h
      split_ifs at h <;>
        simp only [Option.some.injEq, Prod.mk.injEq] at h <;>
        obtain ⟨-, -, rfl⟩ := h <;>
        simp

/-! ## Closing an open device (C10); the last close through an accepted handle -/

/-- A slot of a well-shaped bus entry exists only if the entry has a slot 0. -/
theorem WellFormed.config_zero {T : Target} {s : SpiConfig} (hwf : WellFormed T s)
    {spiBus deviceIndex dh : Nat} {bc : nanoSPI_BusConfig} (hb : s[spiBus]? = some bc)
    (hh : bc.deviceHandles[deviceIndex]? = some dh) :
    deviceIndex < T.MAX_SPI_DEVICES ∧ ∃ c0, bc.deviceCongfig[0]? = some c0 := by
  obtain ⟨hlc, hlh⟩ := hwf.bus hb
  have hi : deviceIndex < bc.deviceHandles.length := (List.getElem?_eq_some.mp hh).1
  have h0 : 0 < bc.deviceCongfig.length := by omega
  exact ⟨by omega, bc.deviceCongfig[0], List.getElem?_eq_getElem h0⟩

/-- C10: for a handle that `getDevice` accepts and that names slot `i` of bus
`b` in a well-shaped table, `nanoSPI_CloseDevice` returns `S_OK` and the new
table is the old one with only the entry of bus `b` replaced: in that entry
`deviceHandles[i]` is 0, `devicesInUse` is one less, `spiBusInited` is cleared
exactly when the new count is at most 0, and the configurations and the byte
time are as before.  So every other bus, every other handle of bus `b` and
every configuration are unchanged. -/
theorem close_frame (T : Target) (D : Driver) (s : SpiConfig) (tr : List Call) (handle : Nat)
    (bc : nanoSPI_BusConfig) (dh : Nat) (hwf : WellFormed T s)
    (hv : (getDevice T handle).1 = true)
    (hb : s[(getDevice T handle).2.1]? = some bc)
    (hh : bc.deviceHandles[(getDevice T handle).2.2]? = some dh) :
    ∃ s1 tr1, nanoSPI_CloseDevice T D s tr handle = some (HRESULT.S_OK, s1, tr1) ∧
      s1 = s.set (getDevice T handle).2.1
        { spiBusInited := if bc.devicesInUse - 1 ≤ 0 then false else bc.spiBusInited,
          devicesInUse := bc.devicesInUse - 1,
          deviceCongfig := bc.deviceCongfig,
          deviceHandles := bc.deviceHandles.set (getDevice T handle).2.2 0,
          byteTime := bc.byteTime } ∧
      (∀ spiBus, spiBus ≠ (getDevice T handle).2.1 → s1[spiBus]? = s[spiBus]?) ∧
      (∀ bc1, s1[(getDevice T handle).2.1]? = some bc1 →
        bc1.deviceCongfig = bc.deviceCongfig ∧
        bc1.deviceHandles[(getDevice T handle).2.2]? = some 0 ∧
        ∀ deviceIndex, deviceIndex ≠ (getDevice T handle).2.2 →
          bc1.deviceHandles[deviceIndex]? = bc.deviceHandles[deviceIndex]?) := by
  obtain ⟨-, c0, hc⟩ := hwf.config_zero hb hh
  have hblt : (getDevice T handle).2.1 < s.length := (List.getElem?_eq_some.mp hb).1
  have hilt : (getDevice T handle).2.2 < bc.deviceHandles.length :=
    (List.getElem?_eq_some.mp hh).1
  refine ⟨_, _, nanoSPI_CloseDevice_accepted T D s tr handle hv hb hh hc, rfl, ?_, ?_⟩
  · intro spiBus hne
    exact List.getElem?_set_ne (Ne.symm hne)
  · intro bc1 hbc1
    rw [List.getElem?_set_self hblt] at hbc1
    cases hbc1
    refine ⟨rfl, ?_, ?_⟩
    · simp only [releaseDevice]
      exact List.getElem?_set_self hilt
    · intro deviceIndex hne
      simp only [releaseDevice]
      exact List.getElem?_set_ne (Ne.symm hne)

/-- C10 (the scenario of the specification): A (chip select 10) is in slot 0
and B (chip select 11) in slot 1 of bus 0; closing A's handle gives `tableB`,
where B's handle 111 and configuration are in place and `devicesInUse = 1`. -/
theorem close_frame_witness :
    ∃ tr1, nanoSPI_CloseDevice target2x4 testDriver tableAB [] 65536 =
      some (HRESULT.S_OK, tableB, tr1) := by
  obtain ⟨s1, tr1, h, hs1, -⟩ := close_frame target2x4 testDriver tableAB [] 65536
    ⟨true, 2, [deviceA, deviceB, noDevice, noDevice], [110, 111, 0, 0], byteTime1MHz⟩ 110
    (by decide) (by decide) (by decide!) (by decide)
  have e : s1 = tableB := by rw [hs1]; decide!
  exact ⟨tr1, e ▸ h⟩

/-- The last close, for the handles close acts on: let the handle be accepted
by `getDevice` and name a slot of bus `b`, whose entry has `devicesInUse = 1`.  Closing it returns `S_OK`, logs the
driver's remove-device, the chip-select release and `CPU_SPI_Uninitialize(b)`,
then runs `nanoSPI_ReserveBusPins(b, false)`, and leaves the bus with
`spiBusInited = false` and `devicesInUse = 0`.  Any open on bus `b` after that
returns; its log starts with `CPU_SPI_Initialize(b)`; when the driver grants
the initialisation the log continues with all of `nanoSPI_ReserveBusPins(b,
true)`; and when the open returns a handle the bus has `spiBusInited = true`. -/
theorem last_close_then_reopen (T : Target) (D D2 : Driver) (s : SpiConfig)
    (tr tr2 : List Call) (handle : Nat) (bc : nanoSPI_BusConfig) (dh : Nat)
    (cfg : SPI_DEVICE_CONFIGURATION) (hwf : WellFormed T s)
    (hv : (getDevice T handle).1 = true)
    (hb : s[(getDevice T handle).2.1]? = some bc)
    (hh : bc.deviceHandles[(getDevice T handle).2.2]? = some dh)
    (hone : bc.devicesInUse = 1)
    (hcfg : cfg.Spi_Bus % 256 = (getDevice T handle).2.1)
    (hav : busAvailable T (cfg.Spi_Bus % 256) = true) :
    ∃ c0 s1, bc.deviceCongfig[0]? = some c0 ∧
      nanoSPI_CloseDevice T D s tr handle =
        some (HRESULT.S_OK, s1,
          (nanoSPI_ReserveBusPins T D (getDevice T handle).2.1 false
            (tr ++ [Call.SPI_Remove_Device dh] ++ [Call.GPIO_ReservePin c0.DeviceChipSelect false]
              ++ [Call.SPI_Uninitialize (getDevice T handle).2.1])).2) ∧
      (∃ bc1, s1[(getDevice T handle).2.1]? = some bc1 ∧ bc1.spiBusInited = false ∧
        bc1.devicesInUse = 0) ∧
      ∃ r s2 tr3, nanoSPI_OpenDeviceEx T D2 s1 tr2 cfg = some (r, s2, tr3) ∧
        (tr2 ++ [Call.SPI_Initialize (getDevice T handle).2.1]) <+: tr3 ∧
        (D2.CPU_SPI_Initialize tr2 (getDevice T handle).2.1 = true →
          (nanoSPI_ReserveBusPins T D2 (getDevice T handle).2.1 true
            (tr2 ++ [Call.SPI_Initialize (getDevice T handle).2.1])).2 <+: tr3) ∧
        (∀ h, r = HRESULT.handle h →
          ∃ bc2, s2[(getDevice T handle).2.1]? = some bc2 ∧ bc2.spiBusInited = true) := by
  obtain ⟨hilt, c0, hc⟩ := hwf.config_zero hb hh
  obtain ⟨hlc, hlh⟩ := hwf.bus hb
  have hblt : (getDevice T handle).2.1 < s.length := (List.getElem?_eq_some.mp hb).1
  have hclose := nanoSPI_CloseDevice_accepted T D s tr handle hv hb hh hc
  have hz : bc.devicesInUse - 1 ≤ 0 := by omega
  rw [if_pos hz] at hclose
  have hb1 : (s.set (getDevice T handle).2.1 (releaseDevice bc (getDevice T handle).2.2))[
      (getDevice T handle).2.1]? = some (releaseDevice bc (getDevice T handle).2.2) :=
    List.getElem?_set_self hblt
  have hun : (releaseDevice bc (getDevice T handle).2.2).spiBusInited = false := by
    simp [releaseDevice, hz]
  have hcnt : (releaseDevice bc (getDevice T handle).2.2).devicesInUse = 0 := by
    simp [releaseDevice, hone]
  refine ⟨c0, _, hc, hclose, ⟨_, hb1, hun, hcnt⟩, ?_⟩
  have hwf1 : WellFormed T
      (s.set (getDevice T handle).2.1 (releaseDevice bc (getDevice T handle).2.2)) :=
    hwf.set _ _ (by simpa [releaseDevice] using hlc) (by simpa [releaseDevice] using hlh)
  have hbus : busAvailable T (cfg.Spi_Bus % 256) = true → cfg.Spi_Bus % 256 < T.NUM_SPI_BUSES := by
    intro _; rw [hcfg, ← hwf.1]; exact hblt
  obtain ⟨r, s2, tr3, hopen, hcases⟩ := nanoSPI_OpenDeviceEx_cases T D2 _ tr2 cfg hwf1 hbus
  have hb1' : (s.set (getDevice T handle).2.1 (releaseDevice bc (getDevice T handle).2.2))[
      cfg.Spi_Bus % 256]? = some (releaseDevice bc (getDevice T handle).2.2) := by
    rw [hcfg]; exact hb1
  have hroom : (releaseDevice bc (getDevice T handle).2.2).devicesInUse <
      (T.MAX_SPI_DEVICES : Int) := by rw [hcnt]; omega
  have hlog := nanoSPI_OpenDeviceEx_log hopen hav hb1' hroom
  obtain ⟨hl1, hl2⟩ := nanoSPI_OpenDeviceEx.initBus_log T D2 (cfg.Spi_Bus % 256)
    (releaseDevice bc (getDevice T handle).2.2) tr2 hun
  rw [hcfg] at hl1 hl2 hlog
  refine ⟨r, s2, tr3, hopen, hl1.trans hlog, fun hi => (hl2 hi) ▸ hlog, ?_⟩
  intro h hr
  rcases hcases with ⟨-, hr1 | hr1⟩ | ⟨_, -, -, -, hr1 | hr1 | hr1⟩ |
      ⟨bc2, i, hb2, -, -, -, -, -, hs2⟩
  · rw [hr] at hr1; cases hr1
  · rw [hr] at hr1; cases hr1
  · rw [hr] at hr1; cases hr1
  · rw [hr] at hr1; cases hr1
  · rw [hr] at hr1; cases hr1
  · refine ⟨storeDevice bc2 i cfg
      (D2.CPU_SPI_Add_Device (nanoSPI_OpenDeviceEx.initBus T D2 (cfg.Spi_Bus % 256) bc2 tr2).2 cfg),
      ?_, rfl⟩
    rw [hs2, hcfg]
    exact List.getElem?_set_self (by simpa using hblt)

/-- An instance of the last close through an accepted handle: device A alone on
bus 0 is closed; device B is opened next. -/
theorem last_close_then_reopen_witness :
    ∃ s1 r s2 tr3,
      (nanoSPI_CloseDevice target2x4 testDriver tableA [] 65536).map (fun x => (x.1, x.2.1)) =
        some (HRESULT.S_OK, s1) ∧
      nanoSPI_OpenDeviceEx target2x4 testDriver s1 [] deviceB = some (r, s2, tr3) ∧
      [Call.SPI_Initialize 0] <+: tr3 := by
  obtain ⟨c0, s1, -, hclose, -, r, s2, tr3, hopen, hl, -, -⟩ :=
    last_close_then_reopen target2x4 testDriver testDriver tableA [] [] 65536
      ⟨true, 1, [deviceA, noDevice, noDevice, noDevice], [110, 0, 0, 0], byteTime1MHz⟩ 110 deviceB
      (by decide) (by decide) (by decide!) (by decide) (by decide) (by decide) (by decide)
  exact ⟨s1, r, s2, tr3, by rw [hclose]; rfl, hopen, hl⟩

/-! ## Filling a bus (C6) -/

theorem nanoSPI_ReserveBusPins.check_cooperative (T : Target) (D : Driver)
    (hbusy : ∀ tr pin, D.CPU_GPIO_PinIsBusy tr pin = false) (pin0 : Int) (pins : List Int) :
    ∀ tr, (nanoSPI_ReserveBusPins.check T D pin0 pins tr).1 = false := by
  induction pins with
  | nil => intro tr; rfl
  | cons p rest ih =>
    intro tr
    unfold nanoSPI_ReserveBusPins.check
    by_cases h0 : pin0 ≠ T.GPIO_PIN_NONE
    · rw [if_pos h0, hbusy tr p]
      exact ih _
    · rw [if_neg h0]
      exact ih _

theorem nanoSPI_ReserveBusPins.reserveAll_cooperative (D : Driver)
    (hres : ∀ tr pin reserve, D.CPU_GPIO_ReservePin tr pin reserve = true) (reserve : Bool)
    (pins : List Int) :
    ∀ tr, (nanoSPI_ReserveBusPins.reserveAll D reserve pins tr).1 = true := by
  induction pins with
  | nil => intro tr; rfl
  | cons p rest ih =>
    intro tr
    unfold nanoSPI_ReserveBusPins.reserveAll
    rw [hres tr p reserve]
    exact ih _

/-- With a cooperative driver `nanoSPI_ReserveBusPins` returns `S_OK`. -/
theorem nanoSPI_ReserveBusPins_ok (T : Target) (D : Driver) (hD : Cooperative D) (spiBus : Nat)
    (reserve : Bool) (tr : List Call) :
    (nanoSPI_ReserveBusPins T D spiBus reserve tr).1 = HRESULT.S_OK := by
  obtain ⟨-, -, hbusy, hres⟩ := hD
  unfold nanoSPI_ReserveBusPins
  dsimp only
  have hchk : (if reserve = true then
        nanoSPI_ReserveBusPins.check T D (D.CPU_SPI_GetPins tr spiBus).1
          [(D.CPU_SPI_GetPins tr spiBus).1, (D.CPU_SPI_GetPins tr spiBus).2.1,
            (D.CPU_SPI_GetPins tr spiBus).2.2] (tr ++ [Call.SPI_GetPins spiBus])
      else (false, tr ++ [Call.SPI_GetPins spiBus])).1 = false := by
    split_ifs
    · exact nanoSPI_ReserveBusPins.check_cooperative T D hbusy _ _ _
    · rfl
  rw [hchk, nanoSPI_ReserveBusPins.reserveAll_cooperative D hres]
  rfl

/-- With a cooperative driver the bus-initialisation block of open does not
return. -/
theorem nanoSPI_OpenDeviceEx.initBus_cooperative (T : Target) (D : Driver) (hD : Cooperative D)
    (spiBus : Nat) (bc : nanoSPI_BusConfig) (tr : List Call) :
    (nanoSPI_OpenDeviceEx.initBus T D spiBus bc tr).1 = Except.ok { bc with spiBusInited := true } := by
  unfold nanoSPI_OpenDeviceEx.initBus
  by_cases h1 : bc.spiBusInited = true
  · simp only [h1, not_true_eq_false, if_false]
    cases bc
    simp_all
  · simp [h1, hD.1, nanoSPI_ReserveBusPins_ok T D hD]

/-- Open on a bus whose counter has reached `MAX_SPI_DEVICES`. -/
theorem nanoSPI_OpenDeviceEx_full (T : Target) (D : Driver) (s : SpiConfig) (tr : List Call)
    (cfg : SPI_DEVICE_CONFIGURATION) (bc : nanoSPI_BusConfig)
    (hav : busAvailable T (cfg.Spi_Bus % 256) = true)
    (hb : s[cfg.Spi_Bus % 256]? = some bc)
    (hfull : bc.devicesInUse ≥ (T.MAX_SPI_DEVICES : Int)) :
    nanoSPI_OpenDeviceEx T D s tr cfg = some (HRESULT.CLR_E_INDEX_OUT_OF_RANGE, s, tr) := by
  unfold nanoSPI_OpenDeviceEx
  simp [hav, hb, hfull]

/-- With slots `0 .. k-1` filled and the rest free, the scan for a chip select
that is not in use returns `k`. -/
theorem FindFreeDeviceSlotSpi_filled (T : Target) (bc : nanoSPI_BusConfig) (k : Nat)
    (used : List Int) (cs : Int) (hlh : bc.deviceHandles.length = T.MAX_SPI_DEVICES)
    (hlc : bc.deviceCongfig.length = T.MAX_SPI_DEVICES) (hfill : FilledUpTo T bc k used)
    (hk : k < T.MAX_SPI_DEVICES) (hcs : cs ∉ used) :
    FindFreeDeviceSlotSpi T bc cs = some (k : Int) := by
  obtain ⟨-, hocc, hfree⟩ := hfill
  have hk0 := hfree k (le_refl k) hk
  rcases FindFreeDeviceSlotSpi_cases T bc cs hlh hlc with
    ⟨i, h1, h2, h3, h4⟩ | ⟨-, h2⟩ | ⟨-, i, h2, ⟨h, h3, hne⟩, ⟨c, h4, h5⟩, -⟩
  · rcases Nat.lt_trichotomy i k with hlt | heq | hgt
    · obtain ⟨h, c, hh, hne, -, -⟩ := hocc i hlt
      rw [h3] at hh
      cases hh
      exact absurd rfl hne
    · rw [h1, heq]
    · obtain ⟨⟨h, hh, hne⟩, -⟩ := h4 k hgt
      rw [hk0] at hh
      cases hh
      exact absurd rfl hne
  · obtain ⟨⟨h, hh, hne⟩, -⟩ := h2 k hk
    rw [hk0] at hh
    cases hh
    exact absurd rfl hne
  · by_cases hik : i < k
    · obtain ⟨h', c', -, -, hc', hmem⟩ := hocc i hik
      rw [h4] at hc'
      cases hc'
      exact absurd (h5 ▸ hmem) hcs
    · have h0 := hfree i (by omega) h2
      rw [h3] at h0
      cases h0
      exact absurd rfl hne

/-- With a cooperative driver, an open on a bus with slots `0 .. k-1` filled,
`k < MAX_SPI_DEVICES`, and a chip select that is not in use returns the handle
of slot `k` and fills it. -/
theorem nanoSPI_OpenDeviceEx_next_slot (T : Target) (D : Driver) (hD : Cooperative D)
    (s : SpiConfig) (tr : List Call) (cfg : SPI_DEVICE_CONFIGURATION) (bc : nanoSPI_BusConfig)
    (k : Nat) (used : List Int) (hwf : WellFormed T s)
    (hav : busAvailable T (cfg.Spi_Bus % 256) = true)
    (hb : s[cfg.Spi_Bus % 256]? = some bc) (hfill : FilledUpTo T bc k used)
    (hk : k < T.MAX_SPI_DEVICES) (hcs : cfg.DeviceChipSelect ∉ used) :
    ∃ tr1 h, nanoSPI_OpenDeviceEx T D s tr cfg =
        some (HRESULT.handle (CreateSpiHandle T (cfg.Spi_Bus % 256) k),
          s.set (cfg.Spi_Bus % 256) (storeDevice bc k cfg h), tr1) ∧
      FilledUpTo T (storeDevice bc k cfg h) (k + 1) (cfg.DeviceChipSelect :: used) := by
  obtain ⟨hlc, hlh⟩ := hwf.bus hb
  have hfill1 : FilledUpTo T { bc with spiBusInited := true } k used := hfill
  have hfind := FindFreeDeviceSlotSpi_filled T { bc with spiBusInited := true } k used
    cfg.DeviceChipSelect hlh hlc hfill1 hk hcs
  have hroom : ¬ bc.devicesInUse ≥ (T.MAX_SPI_DEVICES : Int) := by
    rw [hfill.1]; omega
  have hinit := nanoSPI_OpenDeviceEx.initBus_cooperative T D hD (cfg.Spi_Bus % 256) bc tr
  rcases hi : nanoSPI_OpenDeviceEx.initBus T D (cfg.Spi_Bus % 256) bc tr with ⟨e, tri⟩
  rw [hi] at hinit
  dsimp only at hinit
  subst hinit
  have hadd := hD.2.1 tri cfg
  have hres := hD.2.2.2 (tri ++ [Call.SPI_Add_Device cfg]) cfg.DeviceChipSelect true
  have hnofail : ¬ (D.CPU_SPI_Add_Device tri cfg ≠ 0 ∧
      D.CPU_GPIO_ReservePin (tri ++ [Call.SPI_Add_Device cfg]) cfg.DeviceChipSelect true = false) := by
    rw [hres]; simp
  have hin : k < bc.deviceCongfig.length ∧ k < bc.deviceHandles.length := by
    rw [hlc, hlh]; exact ⟨hk, hk⟩
  have hneg : ¬ ((k : Int) < 0) := by omega
  refine ⟨tri ++ [Call.SPI_Add_Device cfg] ++ [Call.GPIO_ReservePin cfg.DeviceChipSelect true],
    D.CPU_SPI_Add_Device tri cfg, ?_, ?_, ?_, ?_⟩
  · unfold nanoSPI_OpenDeviceEx
    simp only [hav, not_true_eq_false, if_false, hb, hroom, hi, hfind, hneg, Int.toNat_ofNat,
      if_neg hnofail, if_pos hin, if_pos hadd]
    rfl
  · simp [storeDevice, hfill.1]
  · intro j hj
    rcases Nat.lt_or_ge j k with hlt | hge
    · obtain ⟨h, c, hh, hne, hc, hmem⟩ := hfill.2.1 j hlt
      refine ⟨h, c, ?_, hne, ?_, List.mem_cons_of_mem _ hmem⟩
      · simp only [storeDevice]
        rw [List.getElem?_set_ne (by omega)]
        exact hh
      · simp only [storeDevice]
        rw [List.getElem?_set_ne (by omega)]
        exact hc
    · have hjk : j = k := by omega
      subst hjk
      refine ⟨D.CPU_SPI_Add_Device tri cfg, cfg, ?_, hadd, ?_, List.mem_cons_self _ _⟩
      · simp only [storeDevice]
        exact List.getElem?_set_self hin.2
      · simp only [storeDevice]
        exact List.getElem?_set_self hin.1
  · intro j hj1 hj2
    simp only [storeDevice]
    rw [List.getElem?_set_ne (by omega)]
    exact hfill.2.2 j (by omega) hj2

/-- With a cooperative driver, opens with fresh chip selects fill the remaining
slots of a bus in order and return their handles. -/
theorem runCalls_fill (T : Target) (D : Driver) (hD : Cooperative D) (spiBus : Nat)
    (hav : busAvailable T spiBus = true) :
    ∀ (cfgs : List SPI_DEVICE_CONFIGURATION) (s : SpiConfig) (tr : List Call)
      (bc : nanoSPI_BusConfig) (k : Nat) (used : List Int),
      WellFormed T s → s[spiBus]? = some bc → FilledUpTo T bc k used →
      k + cfgs.length = T.MAX_SPI_DEVICES → (∀ c ∈ cfgs, c.Spi_Bus % 256 = spiBus) →
      (cfgs.map (fun c => c.DeviceChipSelect)).Nodup →
      (∀ c ∈ cfgs, c.DeviceChipSelect ∉ used) →
      ∃ s1 tr1 bc1, runCalls T D s tr (cfgs.map ApiCall.OpenDeviceEx) =
          some ((List.range' k cfgs.length).map
            (fun i => HRESULT.handle (CreateSpiHandle T spiBus i)), s1, tr1) ∧
        WellFormed T s1 ∧ s1[spiBus]? = some bc1 ∧
        bc1.devicesInUse = (T.MAX_SPI_DEVICES : Int) := by
  intro cfgs
  induction cfgs with
  | nil =>
    intro s tr bc k used hwf hb hfill hlen _ _ _
    refine ⟨s, tr, bc, rfl, hwf, hb, ?_⟩
    rw [hfill.1]
    simp only [List.length_nil] at hlen
    omega
  | cons c rest ih =>
    intro s tr bc k used hwf hb hfill hlen hbus hnd hfresh
    simp only [List.length_cons] at hlen
    have hcb : c.Spi_Bus % 256 = spiBus := hbus c (List.mem_cons_self _ _)
    have hb' : s[c.Spi_Bus % 256]? = some bc := by rw [hcb]; exact hb
    have hav' : busAvailable T (c.Spi_Bus % 256) = true := by rw [hcb]; exact hav
    obtain ⟨tr1, h, hopen, hfill1⟩ := nanoSPI_OpenDeviceEx_next_slot T D hD s tr c bc k used
      hwf hav' hb' hfill (by omega) (hfresh c (List.mem_cons_self _ _))
    rw [hcb] at hopen
    obtain ⟨hlc, hlh⟩ := hwf.bus hb
    have hblt : spiBus < s.length := (List.getElem?_eq_some.mp hb).1
    have hwf1 : WellFormed T (s.set spiBus (storeDevice bc k c h)) :=
      hwf.set _ _ (by simpa [storeDevice] using hlc) (by simpa [storeDevice] using hlh)
    simp only [List.map_cons, List.nodup_cons, List.mem_map, not_exists, not_and] at hnd
    obtain ⟨s1, tr2, bc1, hrun, hwf2, hb2, hcnt⟩ := ih (s.set spiBus (storeDevice bc k c h)) tr1
      (storeDevice bc k c h) (k + 1) (c.DeviceChipSelect :: used) hwf1
      (List.getElem?_set_self hblt) hfill1 (by omega)
      (fun c' hc' => hbus c' (List.mem_cons_of_mem _ hc')) hnd.2
      (fun c' hc' hmem => by
        rcases List.mem_cons.mp hmem with e | e
        · exact hnd.1 c' hc' e
        · exact hfresh c' (List.mem_cons_of_mem _ hc') e)
    refine ⟨s1, tr2, bc1, ?_, hwf2, hb2, hcnt⟩
    simp only [List.map_cons, runCalls, hopen, hrun, List.length_cons, List.range'_succ]

/-- The entry of a bus right after `nanoSPI_Initialize` has no slot filled. -/
theorem FilledUpTo_reset (T : Target) (bc : nanoSPI_BusConfig)
    (hlh : bc.deviceHandles.length = T.MAX_SPI_DEVICES) :
    FilledUpTo T (nanoSPI_Initialize.reset bc) 0 [] := by
  refine ⟨rfl, fun j hj => absurd hj (Nat.not_lt_zero j), ?_⟩
  intro j _ hj
  simp only [nanoSPI_Initialize.reset, List.getElem?_map]
  rw [List.getElem?_eq_getElem (by omega)]
  rfl

/-- C6: after `nanoSPI_Initialize`, on a bus that the port map offers and the
table holds, with a cooperative driver (bus initialisation and every pin
reservation succeed, no pin is busy, add-device returns nonzero handles),
`MAX_SPI_DEVICES` opens with pairwise distinct chip selects return the handles
of slots `0, 1, ..` in this order, and one more open on that bus returns
`CLR_E_INDEX_OUT_OF_RANGE` and leaves the table as it is. -/
theorem capacity (T : Target) (D : Driver) (s0 : SpiConfig) (tr : List Call) (spiBus : Nat)
    (cfgs : List SPI_DEVICE_CONFIGURATION) (extra : SPI_DEVICE_CONFIGURATION)
    (hD : Cooperative D) (hwf : WellFormed T s0) (hbn : spiBus < T.NUM_SPI_BUSES)
    (hav : busAvailable T spiBus = true) (hlen : cfgs.length = T.MAX_SPI_DEVICES)
    (hbus : ∀ c ∈ cfgs, c.Spi_Bus % 256 = spiBus)
    (hcs : (cfgs.map (fun c => c.DeviceChipSelect)).Nodup)
    (hextra : extra.Spi_Bus % 256 = spiBus) :
    ∃ s s1 tr1, nanoSPI_Initialize T s0 = some (true, s) ∧
      runCalls T D s tr (cfgs.map ApiCall.OpenDeviceEx) =
        some ((List.range T.MAX_SPI_DEVICES).map
          (fun i => HRESULT.handle (CreateSpiHandle T spiBus i)), s1, tr1) ∧
      nanoSPI_OpenDeviceEx T D s1 tr1 extra = some (HRESULT.CLR_E_INDEX_OUT_OF_RANGE, s1, tr1) := by
  have hwfi : WellFormed T (s0.map nanoSPI_Initialize.reset) :=
    (@Reachable.init T (fun _ => True) (fun _ _ => True) s0 _ hwf
      (nanoSPI_Initialize_eq T s0 hwf.1)).wellFormed
  obtain ⟨bc0, hb0⟩ := hwf.lookup hbn
  have hbi : (s0.map nanoSPI_Initialize.reset)[spiBus]? = some (nanoSPI_Initialize.reset bc0) := by
    rw [List.getElem?_map, hb0]
    rfl
  obtain ⟨s1, tr1, bc1, hrun, -, hb1, hcnt⟩ := runCalls_fill T D hD spiBus hav cfgs
    (s0.map nanoSPI_Initialize.reset) tr (nanoSPI_Initialize.reset bc0) 0 []
    hwfi hbi (FilledUpTo_reset T bc0 (hwf.bus hb0).2) (by omega) hbus hcs
    (fun _ _ h => by cases h)
  refine ⟨_, s1, tr1, nanoSPI_Initialize_eq T s0 hwf.1, ?_, ?_⟩
  · rw [hrun, hlen, List.range_eq_range']
  · exact nanoSPI_OpenDeviceEx_full T D s1 tr1 extra bc1 (by rw [hextra]; exact hav)
      (by rw [hextra]; exact hb1) (by rw [hcnt])

theorem cooperative_testDriver : Cooperative testDriver :=
  ⟨fun _ _ => rfl, addsNonzero_testDriver, fun _ _ => rfl, fun _ _ _ => rfl⟩

/-- C6 (instance): four opens with chip selects 10 to 13 on bus 0 of the
two-bus, four-slot target, then a fifth open with chip select 11. -/
theorem capacity_witness :
    ∃ s s1 tr1, nanoSPI_Initialize target2x4 (bootConfig target2x4) = some (true, s) ∧
      runCalls target2x4 testDriver s [] (fourDevices.map ApiCall.OpenDeviceEx) =
        some ((List.range target2x4.MAX_SPI_DEVICES).map
          (fun i => HRESULT.handle (CreateSpiHandle target2x4 0 i)), s1, tr1) ∧
      nanoSPI_OpenDeviceEx target2x4 testDriver s1 tr1 deviceB =
        some (HRESULT.CLR_E_INDEX_OUT_OF_RANGE, s1, tr1) :=
  capacity target2x4 testDriver (bootConfig target2x4) [] 0 fourDevices deviceB
    cooperative_testDriver (by decide) (by decide) (by decide) (by decide) (by decide)
    (by decide) (by decide)

/-! ## Reserving the bus pins (C11, C12) -/

/-- C11 (evaluated at the failing input): the bus has no clock pin, MISO pin 19
and MOSI pin 23, and the driver reports pin 19 busy.  `nanoSPI_ReserveBusPins(0,
true)` asks for no pin whether it is busy, reserves all three pins and returns
`S_OK`. -/
theorem busy_miso_pin_is_reserved :
    busyMisoDriver.CPU_SPI_GetPins [] 0 = (target2x4.GPIO_PIN_NONE, 19, 23) ∧
    (19 : Int) ≠ target2x4.GPIO_PIN_NONE ∧
    busyMisoDriver.CPU_GPIO_PinIsBusy [] 19 = true ∧
    nanoSPI_ReserveBusPins target2x4 busyMisoDriver 0 true [] =
      (HRESULT.S_OK,
        [Call.SPI_GetPins 0, Call.GPIO_ReservePin (-1) true, Call.GPIO_ReservePin 19 true,
          Call.GPIO_ReservePin 23 true]) := by
  decide

/-- C12 (evaluated at the failing inputs): with the weak `CPU_SPI_GetPins` all
three pins are `GPIO_PIN_NONE` (-1), and `nanoSPI_ReserveBusPins` calls
`CPU_GPIO_ReservePin` on `GPIO_PIN_NONE` three times, for `reserve` true and
false.  With clock pin 18 and no MISO pin it also calls `CPU_GPIO_PinIsBusy` on
`GPIO_PIN_NONE`. -/
theorem none_pins_are_not_skipped :
    nanoSPI_ReserveBusPins target2x4 (weakDriver target2x4) 0 true [] =
      (HRESULT.S_OK,
        [Call.SPI_GetPins 0, Call.GPIO_ReservePin target2x4.GPIO_PIN_NONE true,
          Call.GPIO_ReservePin target2x4.GPIO_PIN_NONE true,
          Call.GPIO_ReservePin target2x4.GPIO_PIN_NONE true]) ∧
    nanoSPI_ReserveBusPins target2x4 (weakDriver target2x4) 0 false [] =
      (HRESULT.S_OK,
        [Call.SPI_GetPins 0, Call.GPIO_ReservePin target2x4.GPIO_PIN_NONE false,
          Call.GPIO_ReservePin target2x4.GPIO_PIN_NONE false,
          Call.GPIO_ReservePin target2x4.GPIO_PIN_NONE false]) ∧
    nanoSPI_ReserveBusPins target2x4 noMisoDriver 0 true [] =
      (HRESULT.S_OK,
        [Call.SPI_GetPins 0, Call.GPIO_PinIsBusy 18,
          Call.GPIO_PinIsBusy target2x4.GPIO_PIN_NONE, Call.GPIO_PinIsBusy 23,
          Call.GPIO_ReservePin 18 true, Call.GPIO_ReservePin target2x4.GPIO_PIN_NONE true,
          Call.GPIO_ReservePin 23 true]) := by
  decide

/-! ## Teardown (C13) and the indices of accepted handles (C20) -/

theorem reachable_table1x2A :
    Reachable target1x2 addsNonzero (closesOpenDevice target1x2) table1x2A :=
  Reachable.open_of_map testDriver [] deviceA
    (Reachable.init (bootConfig target1x2) (bootConfig target1x2) (by decide) (by decide!))
    addsNonzero_testDriver (by decide!)

theorem reachable_table1x2AB :
    Reachable target1x2 addsNonzero (closesOpenDevice target1x2) table1x2AB :=
  Reachable.open_of_map testDriver [] deviceB reachable_table1x2A addsNonzero_testDriver
    (by decide!)

theorem reachable_tableSparse :
    Reachable targetSparse addsNonzero (closesOpenDevice targetSparse) tableSparse :=
  Reachable.open_of_map testDriver [] deviceOnBus2
    (Reachable.init (bootConfig targetSparse) (bootConfig targetSparse) (by decide)
      (by decide!))
    addsNonzero_testDriver (by decide!)

/-- C13 (evaluated at the failing inputs): on the target with 1 bus and 2 slots,
after two successful opens, `nanoSPI_Uninitialize` closes slot 0 only: the
handle of slot 1 is rejected by `getDevice`, so bus 0 keeps `spiBusInited =
true`, `devicesInUse = 1` and handle 111.  On the target with port map `0b100`,
after one successful open on bus 2, `nanoSPI_Uninitialize` closes nothing and
calls no driver function. -/
theorem teardown_leaves_devices_open :
    Reachable target1x2 addsNonzero (closesOpenDevice target1x2) table1x2AB ∧
    nanoSPI_Uninitialize target1x2 testDriver table1x2AB [] =
      some ([⟨true, 1, [deviceA, deviceB], [0, 111], byteTime1MHz⟩],
        [Call.SPI_Remove_Device 110, Call.GPIO_ReservePin 10 false]) ∧
    Reachable targetSparse addsNonzero (closesOpenDevice targetSparse) tableSparse ∧
    nanoSPI_Uninitialize targetSparse testDriver tableSparse [] = some (tableSparse, []) :=
  ⟨reachable_table1x2AB, by decide!, reachable_tableSparse, by decide!⟩

/-- C20 (evaluated at the failing input): on the target with 4 buses, all
present, and 2 slots per bus, `getDevice` accepts handle `0x00010003` and
decodes slot index 3, which is not below `MAX_SPI_DEVICES = 2`; on the
well-shaped table of program start both `nanoSPI_CloseDevice` and
`nanoSPI_Write_Read` then index `deviceHandles[3]` outside the array. -/
theorem accepted_handle_indexes_outside :
    CPU_SPI_PortsCount target4x2 ≤ target4x2.NUM_SPI_BUSES ∧
    getDevice target4x2 65539 = (true, 0, 3) ∧
    ¬ 3 < target4x2.MAX_SPI_DEVICES ∧
    WellFormed target4x2 (bootConfig target4x2) ∧
    nanoSPI_CloseDevice target4x2 testDriver (bootConfig target4x2) [] 65539 = none ∧
    nanoSPI_Write_Read target4x2 testDriver (bootConfig target4x2) [] 65539 0 [] 0 = none := by
  decide!

/-! ## The last close of a bus through the handle open returned (C9) -/

theorem reachable_table1x2B :
    Reachable target1x2 addsNonzero (closesOpenDevice target1x2) table1x2B :=
  Reachable.close_of_map testDriver [] 65536 reachable_table1x2AB addsNonzero_testDriver
    ⟨0, 0, _, 110, by decide, rfl, rfl, by decide⟩ (by decide!)

/-- C9 (evaluated at the failing inputs): on the target with port map `0b100`
the open of `deviceOnBus2` after program start returns handle `0x00010200`, and
that device is the one open device of bus 2.  Closing this handle returns
`CLR_E_INVALID_PARAMETER` (`getDevice` compares bus 2 with the number of buses,
1): the table is as before, so bus 2 keeps `spiBusInited = true` and
`devicesInUse = 1`, and no driver function is called, neither
`CPU_SPI_Uninitialize` nor those of `nanoSPI_ReserveBusPins(2, false)`.  The
next open on bus 2 calls the driver's add-device and the chip-select
reservation only, not `CPU_SPI_Initialize`.  On the target with one bus and two
slots, device B is alone in slot 1 once A has been closed; closing the handle
`0x00010001` that B's open returned is rejected in the same way (`getDevice`
compares slot 1 with `NUM_SPI_BUSES = 1`). -/
theorem last_close_is_rejected :
    (nanoSPI_OpenDeviceEx targetSparse testDriver (bootConfig targetSparse) []
        deviceOnBus2).map (fun x => (x.1, x.2.1)) =
      some (HRESULT.handle 66048, tableSparse) ∧
    Reachable targetSparse addsNonzero (closesOpenDevice targetSparse) tableSparse ∧
    (tableSparse[2]?).map (fun bc => (bc.spiBusInited, bc.devicesInUse, bc.deviceHandles)) =
      some (true, 1, [110, 0, 0, 0]) ∧
    nanoSPI_CloseDevice targetSparse testDriver tableSparse [] 66048 =
      some (HRESULT.CLR_E_INVALID_PARAMETER, tableSparse, []) ∧
    (nanoSPI_OpenDeviceEx targetSparse testDriver tableSparse [] secondOnBus2).map
        (fun x => (x.1, x.2.2)) =
      some (HRESULT.handle 66049,
        [Call.SPI_Add_Device secondOnBus2, Call.GPIO_ReservePin 11 true]) ∧
    (nanoSPI_OpenDeviceEx target1x2 testDriver table1x2A [] deviceB).map
        (fun x => (x.1, x.2.1)) =
      some (HRESULT.handle 65537, table1x2AB) ∧
    Reachable target1x2 addsNonzero (closesOpenDevice target1x2) table1x2B ∧
    (table1x2B[0]?).map (fun bc => (bc.spiBusInited, bc.devicesInUse, bc.deviceHandles)) =
      some (true, 1, [0, 111]) ∧
    nanoSPI_CloseDevice target1x2 testDriver table1x2B [] 65537 =
      some (HRESULT.CLR_E_INVALID_PARAMETER, table1x2B, []) :=
  ⟨by decide!, reachable_tableSparse, by decide, by decide!, by decide!, by decide!,
    reachable_table1x2B, by decide, by decide!⟩

/-! ## Every outcome of one open, with its call log -/

/-- The scan reads only the handles and the configurations of the bus entry. -/
theorem FindFreeDeviceSlotSpi.loop_congr (bc bc1 : nanoSPI_BusConfig) (cs : Int)
    (hh : bc1.deviceHandles = bc.deviceHandles) (hc : bc1.deviceCongfig = bc.deviceCongfig)
    (fuel : Nat) :
    ∀ k, FindFreeDeviceSlotSpi.loop bc1 cs fuel k = FindFreeDeviceSlotSpi.loop bc cs fuel k := by
  induction fuel with
  | zero => intro k; rfl
  | succ fuel ih =>
    intro k
    simp only [FindFreeDeviceSlotSpi.loop, hh, hc, ih]

/-- Setting `spiBusInited` does not change what the scan returns. -/
theorem FindFreeDeviceSlotSpi_inited (T : Target) (bc : nanoSPI_BusConfig) (cs : Int) :
    FindFreeDeviceSlotSpi T { bc with spiBusInited := true } cs = FindFreeDeviceSlotSpi T bc cs :=
  FindFreeDeviceSlotSpi.loop_congr bc { bc with spiBusInited := true } cs rfl rfl
    T.MAX_SPI_DEVICES 0

/-- A scan that returns has returned `-1`, `-2` or a slot index, and the
result tells what the scan has seen. -/
theorem FindFreeDeviceSlotSpi.loop_some (bc : nanoSPI_BusConfig) (cs : Int) (fuel : Nat) :
    ∀ k d, FindFreeDeviceSlotSpi.loop bc cs fuel k = some d →
      (∃ i : Nat, d = (i : Int) ∧ k ≤ i ∧ i < k + fuel ∧ bc.deviceHandles[i]? = some 0 ∧
          ∀ j, k ≤ j → j < i → OccupiedByOther bc cs j) ∨
      (d = -1 ∧ ∀ j, k ≤ j → j < k + fuel → OccupiedByOther bc cs j) ∨
      (d = -2 ∧ ∃ i, k ≤ i ∧ i < k + fuel ∧ (∃ h, bc.deviceHandles[i]? = some h ∧ h ≠ 0) ∧
          (∃ c, bc.deviceCongfig[i]? = some c ∧ c.DeviceChipSelect = cs) ∧
          ∀ j, k ≤ j → j < i → OccupiedByOther bc cs j) := by
  induction fuel with
  | zero =>
    intro k d h
    simp only [FindFreeDeviceSlotSpi.loop, Option.some.injEq] at h
    exact Or.inr (Or.inl ⟨h.symm, fun j h1 h2 => by omega⟩)
  | succ fuel ih =>
    intro k d h
    simp only [FindFreeDeviceSlotSpi.loop] at h
    cases hh : bc.deviceHandles[k]? with
    | none => simp [hh] at h
    | some dh =>
      simp only [hh] at h
      by_cases h0 : dh = 0
      · simp only [h0, if_true, Option.some.injEq] at h
        left
        exact ⟨k, h.symm, le_refl k, by omega, by rw [hh, h0], fun j h1 h2 => by omega⟩
      · simp only [h0, if_false] at h
        cases hc : bc.deviceCongfig[k]? with
        | none => simp [hc] at h
        | some c =>
          simp only [hc] at h
          by_cases hcs : c.DeviceChipSelect = cs
          · simp only [hcs, if_true, Option.some.injEq] at h
            right; right
            exact ⟨h.symm, k, le_refl k, by omega, ⟨dh, hh, h0⟩, ⟨c, hc, hcs⟩,
              fun j h1 h2 => by omega⟩
          · simp only [hcs, if_false] at h
            have hk : OccupiedByOther bc cs k := ⟨⟨dh, hh, h0⟩, ⟨c, hc, hcs⟩⟩
            have hstep : ∀ j, k ≤ j → (k + 1 ≤ j → OccupiedByOther bc cs j) →
                OccupiedByOther bc cs j := by
              intro j hj hjk
              rcases Nat.eq_or_lt_of_le hj with e | e
              · subst e; exact hk
              · exact hjk e
            rcases ih (k + 1) d h with ⟨i, h1, h2, h3, h4, h5⟩ | ⟨h1, h2⟩ |
                ⟨h1, i, h2, h3, h4, h5, h6⟩
            · left
              exact ⟨i, h1, by omega, by omega, h4,
                fun j hj1 hj2 => hstep j hj1 (fun e => h5 j e hj2)⟩
            · right; left
              exact ⟨h1, fun j hj1 hj2 => hstep j hj1 (fun e => h2 j e (by omega))⟩
            · right; right
              exact ⟨h1, i, by omega, by omega, h4, h5,
                fun j hj1 hj2 => hstep j hj1 (fun e => h6 j e hj2)⟩

/-- Every way in which `nanoSPI_OpenDeviceEx` returns, in the order of its
`return` statements: (1) bus not offered; (2) bus full; (3) the
bus-initialisation block fails; (4) no free slot; (5) chip select in use;
(6) the chip select cannot be reserved; (7) success.  In each case the result
code, the new table and the call log are given. -/
theorem nanoSPI_OpenDeviceEx_spec {T : Target} {D : Driver} {s s1 : SpiConfig}
    {tr tr1 : List Call} {cfg : SPI_DEVICE_CONFIGURATION} {r : HRESULT}
    (h : nanoSPI_OpenDeviceEx T D s tr cfg = some (r, s1, tr1)) :
    (busAvailable T (cfg.Spi_Bus % 256) = false ∧ r = HRESULT.CLR_E_INVALID_PARAMETER ∧
      s1 = s ∧ tr1 = tr) ∨
    ∃ bc, busAvailable T (cfg.Spi_Bus % 256) = true ∧ s[cfg.Spi_Bus % 256]? = some bc ∧
      ((bc.devicesInUse ≥ (T.MAX_SPI_DEVICES : Int) ∧ r = HRESULT.CLR_E_INDEX_OUT_OF_RANGE ∧
          s1 = s ∧ tr1 = tr) ∨
       (bc.devicesInUse < (T.MAX_SPI_DEVICES : Int) ∧
         ((nanoSPI_OpenDeviceEx.initBus T D (cfg.Spi_Bus % 256) bc tr = (Except.error r, tr1) ∧
            s1 = s) ∨
          ∃ tri, nanoSPI_OpenDeviceEx.initBus T D (cfg.Spi_Bus % 256) bc tr =
              (Except.ok { bc with spiBusInited := true }, tri) ∧
            ((FindFreeDeviceSlotSpi T bc cfg.DeviceChipSelect = some (-1) ∧
                r = HRESULT.CLR_E_INDEX_OUT_OF_RANGE ∧
                s1 = s.set (cfg.Spi_Bus % 256) { bc with spiBusInited := true } ∧ tr1 = tri) ∨
             (FindFreeDeviceSlotSpi T bc cfg.DeviceChipSelect = some (-2) ∧
                r = HRESULT.CLR_E_NOT_SUPPORTED ∧
                s1 = s.set (cfg.Spi_Bus % 256) { bc with spiBusInited := true } ∧ tr1 = tri) ∨
             ∃ i : Nat, FindFreeDeviceSlotSpi T bc cfg.DeviceChipSelect = some (i : Int) ∧
               ((D.CPU_SPI_Add_Device tri cfg ≠ 0 ∧
                  D.CPU_GPIO_ReservePin (tri ++ [Call.SPI_Add_Device cfg])
                    cfg.DeviceChipSelect true = false ∧
                  r = HRESULT.CLR_E_FAIL ∧
                  s1 = s.set (cfg.Spi_Bus % 256) { bc with spiBusInited := true } ∧
                  tr1 = tri ++ [Call.SPI_Add_Device cfg] ++
                    [Call.GPIO_ReservePin cfg.DeviceChipSelect true] ++
                    [Call.SPI_Remove_Device (D.CPU_SPI_Add_Device tri cfg)]) ∨
                (i < bc.deviceCongfig.length ∧ i < bc.deviceHandles.length ∧
                  r = HRESULT.handle (CreateSpiHandle T (cfg.Spi_Bus % 256) i) ∧
                  s1 = s.set (cfg.Spi_Bus % 256)
                    (storeDevice bc i cfg (D.CPU_SPI_Add_Device tri cfg)) ∧
                  tr1 = if D.CPU_SPI_Add_Device tri cfg ≠ 0 then
                      tri ++ [Call.SPI_Add_Device cfg] ++
                        [Call.GPIO_ReservePin cfg.DeviceChipSelect true]
                    else tri ++ [Call.SPI_Add_Device cfg])))))) := by
  unfold nanoSPI_OpenDeviceEx at h
  dsimp only at h
  by_cases hav : busAvailable T (cfg.Spi_Bus % 256) = true
  swap
  · have hf : busAvailable T (cfg.Spi_Bus % 256) = false := by simpa using hav
    rw [hf] at h
    simp only [Bool.false_eq_true, not_false_eq_true, if_true, Option.some.injEq,
      Prod.mk.injEq] at h
    exact Or.inl ⟨hf, h.1.symm, h.2.1.symm, h.2.2.symm⟩
  right
  simp only [hav, not_true_eq_false, if_false] at h
  cases hb : s[cfg.Spi_Bus % 256]? with
  | none => simp [hb] at h
  | some bc =>
    refine ⟨bc, hav, rfl, ?_⟩
    simp only [hb] at h
    by_cases hfull : bc.devicesInUse ≥ (T.MAX_SPI_DEVICES : Int)
    · simp only [hfull, if_true, Option.some.injEq, Prod.mk.injEq] at h
      exact Or.inl ⟨hfull, h.1.symm, h.2.1.symm, h.2.2.symm⟩
    right
    simp only [hfull, if_false] at h
    refine ⟨by omega, ?_⟩
    rcases hi : nanoSPI_OpenDeviceEx.initBus T D (cfg.Spi_Bus % 256) bc tr with ⟨hr | bc1, tri⟩
    · simp only [hi, Option.some.injEq, Prod.mk.injEq] at h
      obtain ⟨rfl, rfl, rfl⟩ := h
      exact Or.inl ⟨rfl, rfl⟩
    have hbc1 := nanoSPI_OpenDeviceEx.initBus_ok hi
    subst hbc1
    right
    refine ⟨tri, rfl, ?_⟩
    simp only [hi, FindFreeDeviceSlotSpi_inited] at h
    cases hf : FindFreeDeviceSlotSpi T bc cfg.DeviceChipSelect with
    | none => simp [hf] at h
    | some d =>
      simp only [hf] at h
      rcases FindFreeDeviceSlotSpi.loop_some bc cfg.DeviceChipSelect T.MAX_SPI_DEVICES 0 d hf with
        ⟨i, rfl, -⟩ | ⟨rfl, -⟩ | ⟨rfl, -⟩
      · right; right
        refine ⟨i, rfl, ?_⟩
        have hneg : ¬ ((i : Int) < 0) := by omega
        simp only [hneg, if_false, Int.toNat_ofNat] at h
        by_cases hfail : D.CPU_SPI_Add_Device tri cfg ≠ 0 ∧
            D.CPU_GPIO_ReservePin (tri ++ [Call.SPI_Add_Device cfg]) cfg.DeviceChipSelect true = false
        · rw [if_pos hfail, if_pos hfail.1] at h
          simp only [Option.some.injEq, Prod.mk.injEq] at h
          exact Or.inl ⟨hfail.1, hfail.2, h.1.symm, h.2.1.symm, h.2.2.symm⟩
        · rw [if_neg hfail] at h
          by_cases hin : i < bc.deviceCongfig.length ∧ i < bc.deviceHandles.length
          · rw [if_pos hin] at h
            simp only [Option.some.injEq, Prod.mk.injEq] at h
            exact Or.inr ⟨hin.1, hin.2, h.1.symm, by rw [← h.2.1]; rfl, h.2.2.symm⟩
          · rw [if_neg hin] at h
            cases h
      · left
        simp only [show ((-1 : Int) < 0) = True from by simp, if_true, Option.some.injEq,
          Prod.mk.injEq] at h
        exact ⟨rfl, h.1.symm, h.2.1.symm, h.2.2.symm⟩
      · right; left
        simp only [show ((-2 : Int) < 0) = True from by simp,
          show ((-2 : Int) = -1) = False from by simp, if_true, if_false,
          Option.some.injEq, Prod.mk.injEq] at h
        exact ⟨rfl, h.1.symm, h.2.1.symm, h.2.2.symm⟩

/-! ## Failed and successful opens (C14, C15) -/

/-- An open that returns a handle has stored the device: the bus entry before
the call, the slot, and the log up to the add-device call whose answer is
stored. -/
theorem nanoSPI_OpenDeviceEx_handle {T : Target} {D : Driver} {s s1 : SpiConfig}
    {tr tr1 : List Call} {cfg : SPI_DEVICE_CONFIGURATION} {h : Nat}
    (hopen : nanoSPI_OpenDeviceEx T D s tr cfg = some (HRESULT.handle h, s1, tr1)) :
    ∃ (bc : nanoSPI_BusConfig) (i : Nat) (tri : List Call),
      busAvailable T (cfg.Spi_Bus % 256) = true ∧ s[cfg.Spi_Bus % 256]? = some bc ∧
      bc.devicesInUse < (T.MAX_SPI_DEVICES : Int) ∧
      FindFreeDeviceSlotSpi T bc cfg.DeviceChipSelect = some (i : Int) ∧
      i < bc.deviceCongfig.length ∧ i < bc.deviceHandles.length ∧
      h = CreateSpiHandle T (cfg.Spi_Bus % 256) i ∧
      (tri ++ [Call.SPI_Add_Device cfg]) <+: tr1 ∧
      s1 = s.set (cfg.Spi_Bus % 256) (storeDevice bc i cfg (D.CPU_SPI_Add_Device tri cfg)) := by
  rcases nanoSPI_OpenDeviceEx_spec hopen with ⟨-, hr, -, -⟩ |
    ⟨bc, hav, hb, ⟨-, hr, -, -⟩ | ⟨hroom, ⟨hi, -⟩ | ⟨tri, hi,
      ⟨-, hr, -, -⟩ | ⟨-, hr, -, -⟩ |
      ⟨i, hf, ⟨-, -, hr, -, -⟩ | ⟨h1, h2, hr, hs, ht⟩⟩⟩⟩⟩
  · cases hr
  · cases hr
  · cases (nanoSPI_OpenDeviceEx.initBus_error hi).1
  · cases hr
  · cases hr
  · cases hr
  · cases hr
    refine ⟨bc, i, tri, hav, hb, hroom, hf, h1, h2, rfl, ?_, hs⟩
    rw [ht]
    split_ifs
    · exact List.prefix_append _ _
    · exact List.prefix_refl _

/-- C15: whenever `nanoSPI_OpenDeviceEx` returns a handle for a configuration
on bus `b` (the low byte of `Spi_Bus`), the handle is `CreateSpiHandle(b, i)`
where slot `i` of bus `b` had handle 0 before the call and every lower slot
had a nonzero handle; the driver's add-device was called, and afterwards
`deviceCongfig[i]` is the configuration, `deviceHandles[i]` is what add-device
returned, `devicesInUse` is one more, every other slot of bus `b` and every
other bus are unchanged. -/
theorem open_success (T : Target) (D : Driver) (s s1 : SpiConfig) (tr tr1 : List Call)
    (cfg : SPI_DEVICE_CONFIGURATION) (h : Nat)
    (hopen : nanoSPI_OpenDeviceEx T D s tr cfg = some (HRESULT.handle h, s1, tr1)) :
    ∃ bc bc1 i tri, s[cfg.Spi_Bus % 256]? = some bc ∧ s1[cfg.Spi_Bus % 256]? = some bc1 ∧
      h = CreateSpiHandle T (cfg.Spi_Bus % 256) i ∧
      bc.deviceHandles[i]? = some 0 ∧
      (∀ j, j < i → ∃ hj, bc.deviceHandles[j]? = some hj ∧ hj ≠ 0) ∧
      (tri ++ [Call.SPI_Add_Device cfg]) <+: tr1 ∧
      bc1.deviceCongfig[i]? = some cfg ∧
      bc1.deviceHandles[i]? = some (D.CPU_SPI_Add_Device tri cfg) ∧
      bc1.devicesInUse = bc.devicesInUse + 1 ∧
      (∀ j, j ≠ i → bc1.deviceHandles[j]? = bc.deviceHandles[j]? ∧
        bc1.deviceCongfig[j]? = bc.deviceCongfig[j]?) ∧
      (∀ spiBus, spiBus ≠ cfg.Spi_Bus % 256 → s1[spiBus]? = s[spiBus]?) := by
  obtain ⟨bc, i, tri, -, hb, -, hf, h1, h2, hh, hlog, hs⟩ := nanoSPI_OpenDeviceEx_handle hopen
  have hblt : cfg.Spi_Bus % 256 < s.length := (List.getElem?_eq_some.mp hb).1
  have hscan : bc.deviceHandles[i]? = some 0 ∧
      ∀ j : Nat, j < i → OccupiedByOther bc cfg.DeviceChipSelect j := by
    rcases FindFreeDeviceSlotSpi.loop_some bc cfg.DeviceChipSelect T.MAX_SPI_DEVICES 0 _ hf with
      ⟨i', e, -, -, h4, h5⟩ | ⟨e, -⟩ | ⟨e, -⟩
    · have : i' = i := by omega
      subst this
      exact ⟨h4, fun j hj => h5 j (Nat.zero_le j) hj⟩
    · omega
    · omega
  refine ⟨bc, storeDevice bc i cfg (D.CPU_SPI_Add_Device tri cfg), i, tri, hb, ?_, hh, hscan.1,
    fun j hj => (hscan.2 j hj).1, hlog, ?_, ?_, rfl, ?_, ?_⟩
  · rw [hs]
    exact List.getElem?_set_self hblt
  · simp only [storeDevice]
    exact List.getElem?_set_self h1
  · simp only [storeDevice]
    exact List.getElem?_set_self h2
  · intro j hj
    simp only [storeDevice]
    exact ⟨List.getElem?_set_ne (Ne.symm hj), List.getElem?_set_ne (Ne.symm hj)⟩
  · intro spiBus hne
    rw [hs]
    exact List.getElem?_set_ne (Ne.symm hne)

/-- C15 (instance): device B is opened on the table that holds device A. -/
theorem open_success_witness :
    ∃ bc bc1 i tri, tableA[deviceB.Spi_Bus % 256]? = some bc ∧
      tableAB[deviceB.Spi_Bus % 256]? = some bc1 ∧
      65537 = CreateSpiHandle target2x4 (deviceB.Spi_Bus % 256) i ∧
      bc.deviceHandles[i]? = some 0 ∧
      (∀ j, j < i → ∃ hj, bc.deviceHandles[j]? = some hj ∧ hj ≠ 0) ∧
      (tri ++ [Call.SPI_Add_Device deviceB]) <+:
        [Call.SPI_Add_Device deviceB, Call.GPIO_ReservePin 11 true] ∧
      bc1.deviceCongfig[i]? = some deviceB ∧
      bc1.deviceHandles[i]? = some (testDriver.CPU_SPI_Add_Device tri deviceB) ∧
      bc1.devicesInUse = bc.devicesInUse + 1 ∧
      (∀ j, j ≠ i → bc1.deviceHandles[j]? = bc.deviceHandles[j]? ∧
        bc1.deviceCongfig[j]? = bc.deviceCongfig[j]?) ∧
      (∀ spiBus, spiBus ≠ deviceB.Spi_Bus % 256 → tableAB[spiBus]? = tableA[spiBus]?) :=
  open_success target2x4 testDriver tableA tableAB []
    [Call.SPI_Add_Device deviceB, Call.GPIO_ReservePin 11 true] deviceB 65537 (by decide!)

/-! ## The byte time (C16) -/

/-- With enough fuel the loop of `bitLength` returns the number of binary digits. -/
theorem bitLength.loop_spec : ∀ (fuel n : Nat), n ≤ fuel →
    n < 2 ^ bitLength.loop fuel n ∧ (n ≠ 0 → 2 ^ (bitLength.loop fuel n - 1) ≤ n)
  | 0, n, h => by
    have : n = 0 := by omega
    subst this
    simp [bitLength.loop]
  | fuel + 1, n, h => by
    unfold bitLength.loop
    by_cases h0 : n = 0
    · subst h0; simp
    · rw [if_neg h0]
      have ih := bitLength.loop_spec fuel (n / 2) (by omega)
      refine ⟨?_, fun _ => ?_⟩
      · rw [pow_succ]
        have := ih.1
        omega
      · rw [Nat.add_sub_cancel]
        by_cases h1 : n / 2 = 0
        · have : bitLength.loop fuel (n / 2) = 0 := by
            rw [h1]; cases fuel <;> simp [bitLength.loop]
          rw [this]; simp; omega
        · have h2 := ih.2 h1
          have h3 : 1 ≤ bitLength.loop fuel (n / 2) := by
            cases fuel with
            | zero => omega
            | succ k => unfold bitLength.loop; rw [if_neg h1]; omega
          obtain ⟨k, hk⟩ : ∃ k, bitLength.loop fuel (n / 2) = k + 1 := ⟨_, (Nat.sub_add_cancel h3).symm⟩
          rw [hk] at h2 ⊢
          rw [Nat.add_sub_cancel] at h2
          rw [pow_succ]
          omega

/-- A positive `n` has `bitLength n` binary digits. -/
theorem bitLength_spec (n : Nat) (h : n ≠ 0) :
    2 ^ (bitLength n - 1) ≤ n ∧ n < 2 ^ bitLength n ∧ 1 ≤ bitLength n := by
  have := bitLength.loop_spec n n le_rfl
  refine ⟨this.2 h, this.1, ?_⟩
  unfold bitLength
  cases n with
  | zero => exact absurd rfl h
  | succ k => unfold bitLength.loop; rw [if_neg h]; omega

/-- The binary exponent of a rational other than 0 gives its binade. -/
theorem binaryExponent_spec (x : ℚ) (hx : x ≠ 0) :
    (2 : ℚ) ^ binaryExponent x ≤ |x| ∧ |x| < (2 : ℚ) ^ (binaryExponent x + 1) := by
  have hn : x.num.natAbs ≠ 0 := by
    simpa [Int.natAbs_eq_zero] using hx
  have hm : x.den ≠ 0 := x.den_nz
  obtain ⟨hn1, hn2, hn3⟩ := bitLength_spec _ hn
  obtain ⟨hm1, hm2, hm3⟩ := bitLength_spec _ hm
  obtain ⟨A, hA⟩ : ∃ A, bitLength x.num.natAbs = A + 1 := ⟨_, (Nat.sub_add_cancel hn3).symm⟩
  obtain ⟨B, hB⟩ : ∃ B, bitLength x.den = B + 1 := ⟨_, (Nat.sub_add_cancel hm3).symm⟩
  rw [hA] at hn1 hn2
  rw [hB] at hm1 hm2
  rw [Nat.add_sub_cancel] at hn1 hm1
  have habs : |x| = (x.num.natAbs : ℚ) / (x.den : ℚ) := by
    rw [Rat.abs_def, Rat.divInt_eq_div]; simp [Nat.cast_natAbs]
  have hmq : (0 : ℚ) < x.den := by exact_mod_cast Nat.pos_of_ne_zero hm
  have hn1q : (2 : ℚ) ^ A ≤ x.num.natAbs := by exact_mod_cast hn1
  have hn2q : (x.num.natAbs : ℚ) < 2 ^ (A + 1) := by exact_mod_cast hn2
  have hm1q : (2 : ℚ) ^ B ≤ x.den := by exact_mod_cast hm1
  have hm2q : (x.den : ℚ) < 2 ^ (B + 1) := by exact_mod_cast hm2
  have hA0 : (0 : ℚ) < 2 ^ A := by positivity
  have hB0 : (0 : ℚ) < 2 ^ B := by positivity
  have hd : ((bitLength x.num.natAbs : Int) - (bitLength x.den : Int)) = (A : Int) - (B : Int) := by
    rw [hA, hB]; push_cast; ring
  have e1 : (2 : ℚ) ^ ((A : Int) - (B : Int) + 1) = 2 ^ (A + 1) / 2 ^ B := by
    rw [show (A : Int) - (B : Int) + 1 = ((A + 1 : Nat) : Int) - ((B : Nat) : Int) by push_cast; ring]
    rw [zpow_sub₀ (by norm_num : (2 : ℚ) ≠ 0), zpow_natCast, zpow_natCast]
  have e2 : (2 : ℚ) ^ ((A : Int) - (B : Int) - 1) = 2 ^ A / 2 ^ (B + 1) := by
    rw [show (A : Int) - (B : Int) - 1 = ((A : Nat) : Int) - ((B + 1 : Nat) : Int) by push_cast; ring]
    rw [zpow_sub₀ (by norm_num : (2 : ℚ) ≠ 0), zpow_natCast, zpow_natCast]
  have hup : |x| < (2 : ℚ) ^ ((A : Int) - (B : Int) + 1) := by
    rw [e1, habs, div_lt_div_iff₀ hmq hB0]
    calc (x.num.natAbs : ℚ) * 2 ^ B < 2 ^ (A + 1) * 2 ^ B := by
          exact mul_lt_mul_of_pos_right hn2q hB0
      _ ≤ 2 ^ (A + 1) * x.den := by
          exact mul_le_mul_of_nonneg_left hm1q (by positivity)
  have hlo : (2 : ℚ) ^ ((A : Int) - (B : Int) - 1) ≤ |x| := by
    rw [e2, habs, div_le_div_iff₀ (by positivity) hmq]
    calc (2 : ℚ) ^ A * x.den ≤ 2 ^ A * 2 ^ (B + 1) := by
          exact mul_le_mul_of_nonneg_left hm2q.le (by positivity)
      _ ≤ x.num.natAbs * 2 ^ (B + 1) := by
          exact mul_le_mul_of_nonneg_right hn1q (by positivity)
  unfold binaryExponent
  dsimp only
  rw [hd]
  by_cases h : (2 : ℚ) ^ ((A : Int) - (B : Int)) ≤ |x|
  · rw [if_pos h]; exact ⟨h, hup⟩
  · rw [if_neg h]
    refine ⟨hlo, ?_⟩
    rw [sub_add_cancel]
    exact not_le.mp h

/-- Rounding to an integer moves a number by at most one half. -/
theorem roundNearestEven_spec (m : ℚ) : |(roundNearestEven m : ℚ) - m| ≤ 1 / 2 := by
  have h1 := Int.floor_le m
  have h2 := Int.lt_floor_add_one m
  unfold roundNearestEven
  dsimp only
  split_ifs with a b c
  · rw [abs_le]; constructor <;> linarith
  · rw [abs_le]; constructor <;> push_cast <;> linarith
  · rw [abs_le]; constructor <;> linarith
  · rw [abs_le]; constructor <;> push_cast <;> linarith

/-- No integer is nearer to `m` than `roundNearestEven m`. -/
theorem roundNearestEven_nearest (m : ℚ) (k : Int) :
    |(roundNearestEven m : ℚ) - m| ≤ |(k : ℚ) - m| := by
  have h1 := Int.floor_le m
  have h2 := Int.lt_floor_add_one m
  have hk : |(k : ℚ) - m| = max ((k : ℚ) - m) (m - (k : ℚ)) := by
    rw [abs_eq_max_neg, neg_sub]
  rcases le_or_lt k ⌊m⌋ with hle | hlt
  · have hq : (k : ℚ) ≤ (⌊m⌋ : ℚ) := by exact_mod_cast hle
    have hb : m - (⌊m⌋ : ℚ) ≤ |(k : ℚ) - m| := by
      rw [hk]; exact le_trans (by linarith) (le_max_right _ _)
    unfold roundNearestEven
    dsimp only
    split_ifs with a b c
    · rw [abs_le]; constructor <;> linarith
    · rw [abs_le]; constructor <;> push_cast <;> linarith
    · rw [abs_le]; constructor <;> linarith
    · rw [abs_le]; constructor <;> push_cast <;> linarith
  · have hq : (⌊m⌋ : ℚ) + 1 ≤ (k : ℚ) := by exact_mod_cast hlt
    have hb : (⌊m⌋ : ℚ) + 1 - m ≤ |(k : ℚ) - m| := by
      rw [hk]; exact le_trans (by linarith) (le_max_left _ _)
    unfold roundNearestEven
    dsimp only
    split_ifs with a b c
    · rw [abs_le]; constructor <;> linarith
    · rw [abs_le]; constructor <;> push_cast <;> linarith
    · rw [abs_le]; constructor <;> linarith
    · rw [abs_le]; constructor <;> push_cast <;> linarith

/-- In the range of the normal numbers of a format, rounding yields a finite
number with a relative error of at most `2 ^ (-precision)`. -/
theorem roundTo_normal (F : FloatFormat) (x : ℚ) (hp : 1 ≤ F.precision)
    (hlo : (2 : ℚ) ^ F.emin ≤ |x|) (hhi : |x| ≤ (2 : ℚ) ^ F.emax) :
    ∃ y, roundTo F x = CFloat.finite y ∧ |y - x| ≤ |x| / 2 ^ F.precision := by
  have h2 : (2 : ℚ) ≠ 0 := by norm_num
  have hpos : (0 : ℚ) < |x| := lt_of_lt_of_le (zpow_pos (by norm_num) _) hlo
  have hx : x ≠ 0 := abs_pos.mp hpos
  obtain ⟨he1, he2⟩ := binaryExponent_spec x hx
  have he : F.emin ≤ binaryExponent x := by
    have := lt_of_le_of_lt hlo he2
    rw [zpow_lt_zpow_iff_right₀ (by norm_num : (1 : ℚ) < 2)] at this
    omega
  have hu : (0 : ℚ) < (2 : ℚ) ^ (binaryExponent x - F.precision + 1) := zpow_pos (by norm_num) _
  have hhalf : (2 : ℚ) ^ (binaryExponent x - F.precision + 1) / 2 =
      (2 : ℚ) ^ binaryExponent x / 2 ^ F.precision := by
    rw [zpow_add_one₀ h2, zpow_sub₀ h2, zpow_natCast]
    field_simp
    ring
  have herr : |(roundNearestEven (x / (2 : ℚ) ^ (binaryExponent x - F.precision + 1)) : ℚ) *
      (2 : ℚ) ^ (binaryExponent x - F.precision + 1) - x| ≤ |x| / 2 ^ F.precision := by
    have h := roundNearestEven_spec (x / (2 : ℚ) ^ (binaryExponent x - F.precision + 1))
    have e : (roundNearestEven (x / (2 : ℚ) ^ (binaryExponent x - F.precision + 1)) : ℚ) *
        (2 : ℚ) ^ (binaryExponent x - F.precision + 1) - x =
        ((roundNearestEven (x / (2 : ℚ) ^ (binaryExponent x - F.precision + 1)) : ℚ) -
          x / (2 : ℚ) ^ (binaryExponent x - F.precision + 1)) *
        (2 : ℚ) ^ (binaryExponent x - F.precision + 1) := by
      field_simp
    rw [e, abs_mul, abs_of_pos hu]
    calc _ ≤ 1 / 2 * (2 : ℚ) ^ (binaryExponent x - F.precision + 1) :=
          mul_le_mul_of_nonneg_right h hu.le
      _ = (2 : ℚ) ^ binaryExponent x / 2 ^ F.precision := by rw [← hhalf]; ring
      _ ≤ |x| / 2 ^ F.precision := by
          exact div_le_div_of_nonneg_right he1 (by positivity)
  refine ⟨_, ?_, herr⟩
  unfold roundTo
  dsimp only
  rw [max_eq_left he, if_neg]
  rw [not_le]
  have hq : |x| / 2 ^ F.precision ≤ |x| / 2 := by
    apply div_le_div_of_nonneg_left hpos.le (by norm_num)
    calc (2 : ℚ) = 2 ^ 1 := by norm_num
      _ ≤ 2 ^ F.precision := pow_le_pow_right₀ (by norm_num) hp
  have habs : |(roundNearestEven (x / (2 : ℚ) ^ (binaryExponent x - F.precision + 1)) : ℚ) *
      (2 : ℚ) ^ (binaryExponent x - F.precision + 1)| ≤ |x| + |x| / 2 := by
    have := abs_sub_abs_le_abs_sub
      ((roundNearestEven (x / (2 : ℚ) ^ (binaryExponent x - F.precision + 1)) : ℚ) *
        (2 : ℚ) ^ (binaryExponent x - F.precision + 1)) x
    linarith
  have hemax : (2 : ℚ) ^ (F.emax + 1) = 2 ^ F.emax * 2 := zpow_add_one₀ h2 _
  rw [hemax]
  have : (0 : ℚ) < (2 : ℚ) ^ F.emax := zpow_pos (by norm_num) _
  linarith

/-- For a clock rate `0 < R < 2 ^ 31` the byte time stored is a positive finite
number within `1000 / R / 2 ^ 23` of `1000 / R`: two roundings to `double` and
one to `float`. -/
theorem byteTimeOf_spec (R : Int) (h0 : 0 < R) (h31 : R < 2 ^ 31) :
    ∃ q, byteTimeOf R = CFloat.finite q ∧ 0 < q ∧
      |q - 1000 / (R : ℚ)| ≤ 1000 / (R : ℚ) / 2 ^ 23 := by
  have hR : (0 : ℚ) < (R : ℚ) := by exact_mod_cast h0
  have hR1 : (1 : ℚ) ≤ (R : ℚ) := by exact_mod_cast h0
  have hR31 : (R : ℚ) ≤ 2 ^ 31 := by exact_mod_cast h31.le
  have hx : (0 : ℚ) < 1 / (R : ℚ) := by positivity
  have hxlo : (1 : ℚ) / 2 ^ 31 ≤ 1 / (R : ℚ) := one_div_le_one_div_of_le hR hR31
  have hxhi : 1 / (R : ℚ) ≤ 1 := by rw [div_le_one hR]; exact hR1
  have e64lo : (2 : ℚ) ^ binary64.emin ≤ 1 / 2 ^ 32 := by
    rw [show (1 : ℚ) / 2 ^ 32 = 2 ^ (-32 : Int) by norm_num]
    exact zpow_le_zpow_right₀ (by norm_num) (by decide)
  have e64hi : (2 : ℚ) ^ (11 : Int) ≤ 2 ^ binary64.emax :=
    zpow_le_zpow_right₀ (by norm_num) (by decide)
  have e32lo : (2 : ℚ) ^ binary32.emin ≤ 1 / 2 ^ 32 := by
    rw [show (1 : ℚ) / 2 ^ 32 = 2 ^ (-32 : Int) by norm_num]
    exact zpow_le_zpow_right₀ (by norm_num) (by decide)
  have e32hi : (2 : ℚ) ^ (11 : Int) ≤ 2 ^ binary32.emax :=
    zpow_le_zpow_right₀ (by norm_num) (by decide)
  have e11 : (2 : ℚ) ^ (11 : Int) = 2048 := by norm_num
  rw [e11] at e64hi e32hi
  obtain ⟨y1, hy1, b1⟩ := roundTo_normal binary64 (1 / (R : ℚ)) (by decide)
    (by rw [abs_of_pos hx]; linarith) (by rw [abs_of_pos hx]; linarith)
  rw [abs_of_pos hx, abs_le] at b1
  have p53 : (2 : ℚ) ^ binary64.precision = 9007199254740992 := by norm_num [binary64]
  have p24 : (2 : ℚ) ^ binary32.precision = 16777216 := by norm_num [binary32]
  rw [p53] at b1
  have hy1pos : 0 < y1 := by linarith [b1.1]
  have hx2 : (0 : ℚ) < y1 * 1000 := by positivity
  obtain ⟨y2, hy2, b2⟩ := roundTo_normal binary64 (y1 * 1000) (by decide)
    (by rw [abs_of_pos hx2]; linarith [b1.1]) (by rw [abs_of_pos hx2]; linarith [b1.2])
  rw [abs_of_pos hx2, abs_le, p53] at b2
  have hy2pos : 0 < y2 := by linarith [b2.1]
  obtain ⟨y3, hy3, b3⟩ := roundTo_normal binary32 y2 (by decide)
    (by rw [abs_of_pos hy2pos]; linarith [b1.1, b2.1])
    (by rw [abs_of_pos hy2pos]; linarith [b1.2, b2.2])
  rw [abs_of_pos hy2pos, abs_le, p24] at b3
  have hdef : byteTimeOf R = CFloat.finite y3 := by
    unfold byteTimeOf CFloat.divDouble
    rw [if_neg (ne_of_gt h0)]
    have : ((1 : Int) : ℚ) / (R : ℚ) = 1 / (R : ℚ) := by norm_num
    rw [this, hy1]
    show CFloat.toFloat (roundTo binary64 (y1 * ((1000 : Int) : ℚ))) = _
    have : y1 * ((1000 : Int) : ℚ) = y1 * 1000 := by norm_num
    rw [this, hy2]
    exact hy3
  refine ⟨y3, hdef, by linarith [b3.1], ?_⟩
  have e : 1000 / (R : ℚ) = 1000 * (1 / (R : ℚ)) := by ring
  rw [e, abs_le]
  constructor <;> linarith [b1.1, b1.2, b2.1, b2.2, b3.1, b3.2]

/-- The rounding model on known constants: the `float` and the `double` nearest
to 0.1, underflow to subnormal `float` numbers and to zero (ties to even),
overflow to infinity and the greatest `float`, and the byte times of 1 MHz, 2 MHz and of the clock rate 0. -/
theorem roundTo_examples :
    roundTo binary32 (1 / 10) = CFloat.finite (13421773 / 134217728) ∧
    roundTo binary64 (1 / 10) = CFloat.finite (3602879701896397 / 36028797018963968) ∧
    roundTo binary32 (3 / 2 ^ 151) = CFloat.finite (1 / 2 ^ 149) ∧
    roundTo binary32 (3 / 2 ^ 150) = CFloat.finite (1 / 2 ^ 148) ∧
    roundTo binary32 (1 / 2 ^ 150) = CFloat.finite 0 ∧
    roundTo binary32 (2 ^ 128 - 2 ^ 103) = CFloat.inf false ∧
    roundTo binary32 (2 ^ 128 - 2 ^ 103 - 1) = CFloat.finite (2 ^ 128 - 2 ^ 104) ∧
    byteTimeOf 1000000 = byteTime1MHz ∧
    byteTimeOf 2000000 = byteTime2MHz ∧
    byteTimeOf 0 = CFloat.inf false := by
  decide!

/-- The bus byte of a minted handle is the bus, when bus and slot fit in a byte. -/
theorem GetBusFromHandle_CreateSpiHandle (T : Target) (spiBus deviceIndex : Nat)
    (hb : spiBus < 256) (hi : deviceIndex < 256) :
    GetBusFromHandle (CreateSpiHandle T spiBus deviceIndex) = spiBus := by
  simp only [GetBusFromHandle, CreateSpiHandle, Nat.shiftLeft_eq, Nat.shiftRight_eq_div_pow,
    and_255_eq_mod]
  omega

/-- After an open that returned a handle, every handle whose bus byte is the
bus of the open reads the `float` computed from `Clock_RateHz`, and every
handle with another bus byte reads what it read before. -/
theorem nanoSPI_GetByteTime_after_open {T : Target} {D : Driver} {s s1 : SpiConfig}
    {tr tr1 : List Call} {cfg : SPI_DEVICE_CONFIGURATION} {h : Nat}
    (hopen : nanoSPI_OpenDeviceEx T D s tr cfg = some (HRESULT.handle h, s1, tr1)) :
    (∀ h1, GetBusFromHandle h1 = cfg.Spi_Bus % 256 →
      nanoSPI_GetByteTime s1 h1 = some (byteTimeOf cfg.Clock_RateHz)) ∧
    (∀ h1, GetBusFromHandle h1 ≠ cfg.Spi_Bus % 256 →
      nanoSPI_GetByteTime s1 h1 = nanoSPI_GetByteTime s h1) := by
  obtain ⟨bc, i, tri, -, hb, -, -, -, -, -, -, hs⟩ := nanoSPI_OpenDeviceEx_handle hopen
  have hblt : cfg.Spi_Bus % 256 < s.length := (List.getElem?_eq_some.mp hb).1
  constructor
  · intro h1 hbus
    unfold nanoSPI_GetByteTime
    rw [hbus, hs, List.getElem?_set_self hblt]
    simp only [storeDevice]
  · intro h1 hbus
    unfold nanoSPI_GetByteTime
    rw [hs, List.getElem?_set_ne (Ne.symm hbus)]

/-- C16 (counterexample): device B, clock rate 1,000,000 Hz, is opened next to A
and gets handle `0x00010001`.  `nanoSPI_GetByteTime` of that handle is the
`float` 8589935 / 2 ^ 33, the `float` nearest to 0.001, and not 1000 / 1000000. -/
theorem byteTime_is_rounded :
    nanoSPI_OpenDeviceEx target2x4 testDriver tableA logOpenA deviceB =
      some (HRESULT.handle 65537, tableAB,
        logOpenA ++ [Call.SPI_Add_Device deviceB, Call.GPIO_ReservePin 11 true]) ∧
    deviceB.Clock_RateHz = 1000000 ∧
    nanoSPI_GetByteTime tableAB 65537 = some (CFloat.finite (8589935 / 2 ^ 33)) ∧
    nanoSPI_GetByteTime tableAB 65537 ≠ some (CFloat.finite (1000 / 1000000)) := by
  decide!

/-- C16 (amended): on a well-shaped table of a target with at most 256 slots per
bus, an open with clock rate `0 < R < 2 ^ 31` that returns handle `h` leaves in
`nanoSPI_GetByteTime(h)` the `float` that `(1.0 / R) * 1000` yields: a finite
number `q` with `|q - 1000 / R| ≤ (1000 / R) / 2 ^ 23`.  After any later open on
the same bus with clock rate `R2` that returns a handle, `nanoSPI_GetByteTime`
of every handle of that bus, `h` among them, is the `float` computed from `R2`
(within the same bound of `1000 / R2` when `0 < R2 < 2 ^ 31`), and that of the
handles of the other buses is what it was before that open. -/
theorem byteTime_after_open (T : Target) (D D2 : Driver) (s s1 s2 s3 : SpiConfig)
    (tr tr1 tr2 tr3 : List Call) (cfg cfg2 : SPI_DEVICE_CONFIGURATION) (h h2 : Nat)
    (hwf : WellFormed T s) (hmax : T.MAX_SPI_DEVICES ≤ 256)
    (hR : 0 < cfg.Clock_RateHz) (hR31 : cfg.Clock_RateHz < 2 ^ 31)
    (hopen : nanoSPI_OpenDeviceEx T D s tr cfg = some (HRESULT.handle h, s1, tr1))
    (hbus : cfg2.Spi_Bus % 256 = cfg.Spi_Bus % 256)
    (hopen2 : nanoSPI_OpenDeviceEx T D2 s2 tr2 cfg2 = some (HRESULT.handle h2, s3, tr3)) :
    (∃ q : ℚ, nanoSPI_GetByteTime s1 h = some (CFloat.finite q) ∧
      byteTimeOf cfg.Clock_RateHz = CFloat.finite q ∧
      |q - 1000 / (cfg.Clock_RateHz : ℚ)| ≤ 1000 / (cfg.Clock_RateHz : ℚ) / 2 ^ 23) ∧
    nanoSPI_GetByteTime s3 h = some (byteTimeOf cfg2.Clock_RateHz) ∧
    (∀ h1, GetBusFromHandle h1 = cfg.Spi_Bus % 256 →
      nanoSPI_GetByteTime s3 h1 = some (byteTimeOf cfg2.Clock_RateHz)) ∧
    (0 < cfg2.Clock_RateHz → cfg2.Clock_RateHz < 2 ^ 31 →
      ∃ q2 : ℚ, nanoSPI_GetByteTime s3 h = some (CFloat.finite q2) ∧
        |q2 - 1000 / (cfg2.Clock_RateHz : ℚ)| ≤ 1000 / (cfg2.Clock_RateHz : ℚ) / 2 ^ 23) ∧
    (∀ h1, GetBusFromHandle h1 ≠ cfg.Spi_Bus % 256 →
      nanoSPI_GetByteTime s3 h1 = nanoSPI_GetByteTime s2 h1) := by
  obtain ⟨bc, i, tri, -, hb, -, -, -, hi, hh, -, -⟩ := nanoSPI_OpenDeviceEx_handle hopen
  have hi256 : i < 256 := by
    have := (hwf.bus hb).2
    omega
  have hhb : GetBusFromHandle h = cfg.Spi_Bus % 256 := by
    rw [hh]
    exact GetBusFromHandle_CreateSpiHandle T _ i (Nat.mod_lt _ (by decide)) hi256
  have h1 := nanoSPI_GetByteTime_after_open hopen
  have h2 := nanoSPI_GetByteTime_after_open hopen2
  rw [hbus] at h2
  obtain ⟨q, hq, -, hqb⟩ := byteTimeOf_spec cfg.Clock_RateHz hR hR31
  refine ⟨⟨q, ?_, hq, hqb⟩, h2.1 h hhb, h2.1, fun h0 h31 => ?_, h2.2⟩
  · rw [h1.1 h hhb, hq]
  · obtain ⟨q2, hq2, -, hqb2⟩ := byteTimeOf_spec cfg2.Clock_RateHz h0 h31
    exact ⟨q2, by rw [h2.1 h hhb, hq2], hqb2⟩

/-- C16 (instance): device B (1 MHz) is opened next to A and gets handle
`0x00010001`; later, in the table where B is alone in slot 1, device C (2 MHz)
is opened on the same bus. -/
theorem byteTime_after_open_witness :
    (∃ q : ℚ, nanoSPI_GetByteTime tableAB 65537 = some (CFloat.finite q) ∧
      byteTimeOf deviceB.Clock_RateHz = CFloat.finite q ∧
      |q - 1000 / (deviceB.Clock_RateHz : ℚ)| ≤ 1000 / (deviceB.Clock_RateHz : ℚ) / 2 ^ 23) ∧
    nanoSPI_GetByteTime tableCB 65537 = some (byteTimeOf deviceC.Clock_RateHz) :=
  have h := byteTime_after_open target2x4 testDriver testDriver tableA tableAB tableB tableCB []
    [Call.SPI_Add_Device deviceB, Call.GPIO_ReservePin 11 true] []
    [Call.SPI_Add_Device deviceC, Call.GPIO_ReservePin 11 true] deviceB deviceC 65537 65536
    (by decide) (by decide) (by decide) (by decide) (by decide!) (by decide) (by decide!)
  ⟨h.1, h.2.1⟩

/-! ## The single-pass scan (C17) -/

theorem OccupiedByOther.not_free {bc : nanoSPI_BusConfig} {cs : Int} {j : Nat}
    (h : OccupiedByOther bc cs j) (h0 : bc.deviceHandles[j]? = some 0) : False := by
  obtain ⟨⟨dh, hh, hne⟩, -⟩ := h
  rw [h0] at hh
  cases hh
  exact hne rfl

theorem OccupiedByOther.not_match {bc : nanoSPI_BusConfig} {cs : Int} {j : Nat}
    (h : OccupiedByOther bc cs j)
    (hm : ∃ c, bc.deviceCongfig[j]? = some c ∧ c.DeviceChipSelect = cs) : False := by
  obtain ⟨-, c, hc, hne⟩ := h
  obtain ⟨c1, hc1, he⟩ := hm
  rw [hc] at hc1
  cases hc1
  exact hne he

/-- The scan does not read the configuration of a slot whose handle is 0. -/
theorem FindFreeDeviceSlotSpi.loop_stale (bc bc1 : nanoSPI_BusConfig) (cs : Int)
    (hh : bc1.deviceHandles = bc.deviceHandles)
    (hc : ∀ (j dh : Nat), bc.deviceHandles[j]? = some dh → dh ≠ 0 →
      bc1.deviceCongfig[j]? = bc.deviceCongfig[j]?) (fuel : Nat) :
    ∀ k, FindFreeDeviceSlotSpi.loop bc1 cs fuel k = FindFreeDeviceSlotSpi.loop bc cs fuel k := by
  induction fuel with
  | zero => intro k; rfl
  | succ fuel ih =>
    intro k
    simp only [FindFreeDeviceSlotSpi.loop, hh, ih]
    cases hk : bc.deviceHandles[k]? with
    | none => rfl
    | some dh =>
      by_cases h0 : dh = 0
      · simp [h0]
      · simp only [h0, if_false, hc k dh hk h0]

/-- C17: on a bus entry of the declared size `FindFreeDeviceSlotSpi` returns
(a) the index `i` of a slot with handle 0 when every slot before it holds a
device with another chip select; (b) `-2` when a slot holds a device with chip
select `cs` and every slot before it holds a device with another chip select;
(c) `-1` when every slot holds a device with another chip select.  An open that
reaches the scan returns `CLR_E_NOT_SUPPORTED` for `-2` and
`CLR_E_INDEX_OUT_OF_RANGE` for `-1`.  The result does not depend on the
configurations stored in slots whose handle is 0. -/
theorem single_pass_scan (T : Target) (bc : nanoSPI_BusConfig) (cs : Int)
    (hlh : bc.deviceHandles.length = T.MAX_SPI_DEVICES)
    (hlc : bc.deviceCongfig.length = T.MAX_SPI_DEVICES) :
    (∀ i : Nat, i < T.MAX_SPI_DEVICES → bc.deviceHandles[i]? = some 0 →
      (∀ j, j < i → OccupiedByOther bc cs j) →
      FindFreeDeviceSlotSpi T bc cs = some (i : Int)) ∧
    (∀ i : Nat, i < T.MAX_SPI_DEVICES → (∃ dh, bc.deviceHandles[i]? = some dh ∧ dh ≠ 0) →
      (∃ c, bc.deviceCongfig[i]? = some c ∧ c.DeviceChipSelect = cs) →
      (∀ j, j < i → OccupiedByOther bc cs j) →
      FindFreeDeviceSlotSpi T bc cs = some (-2)) ∧
    ((∀ j, j < T.MAX_SPI_DEVICES → OccupiedByOther bc cs j) →
      FindFreeDeviceSlotSpi T bc cs = some (-1)) ∧
    (∀ (D : Driver) (s s1 : SpiConfig) (tr tr1 : List Call) (cfg : SPI_DEVICE_CONFIGURATION)
      (r : HRESULT), cfg.DeviceChipSelect = cs → s[cfg.Spi_Bus % 256]? = some bc →
      busAvailable T (cfg.Spi_Bus % 256) = true →
      bc.devicesInUse < (T.MAX_SPI_DEVICES : Int) →
      (nanoSPI_OpenDeviceEx.initBus T D (cfg.Spi_Bus % 256) bc tr).1 =
        Except.ok { bc with spiBusInited := true } →
      nanoSPI_OpenDeviceEx T D s tr cfg = some (r, s1, tr1) →
      (FindFreeDeviceSlotSpi T bc cs = some (-2) → r = HRESULT.CLR_E_NOT_SUPPORTED) ∧
      (FindFreeDeviceSlotSpi T bc cs = some (-1) → r = HRESULT.CLR_E_INDEX_OUT_OF_RANGE)) ∧
    (∀ bc1 : nanoSPI_BusConfig, bc1.deviceHandles = bc.deviceHandles →
      (∀ (j dh : Nat), bc.deviceHandles[j]? = some dh → dh ≠ 0 →
        bc1.deviceCongfig[j]? = bc.deviceCongfig[j]?) →
      FindFreeDeviceSlotSpi T bc1 cs = FindFreeDeviceSlotSpi T bc cs) := by
  refine ⟨?_, ?_, ?_, ?_, ?_⟩
  · intro i hi h0 hocc
    rcases FindFreeDeviceSlotSpi_cases T bc cs hlh hlc with
      ⟨i1, h1, h2, h3, h4⟩ | ⟨-, h2⟩ | ⟨-, i1, h2, h3, h4, h5⟩
    · rcases Nat.lt_trichotomy i1 i with hlt | heq | hgt
      · exact ((hocc i1 hlt).not_free h3).elim
      · rw [h1, heq]
      · exact ((h4 i hgt).not_free h0).elim
    · exact ((h2 i hi).not_free h0).elim
    · rcases Nat.lt_trichotomy i1 i with hlt | heq | hgt
      · exact ((hocc i1 hlt).not_match h4).elim
      · obtain ⟨dh, hdh, hne⟩ := h3
        rw [heq, h0] at hdh
        cases hdh
        exact (hne rfl).elim
      · exact ((h5 i hgt).not_free h0).elim
  · intro i hi hnz hm hocc
    rcases FindFreeDeviceSlotSpi_cases T bc cs hlh hlc with
      ⟨i1, h1, h2, h3, h4⟩ | ⟨-, h2⟩ | ⟨h1, -⟩
    · rcases Nat.lt_trichotomy i1 i with hlt | heq | hgt
      · exact ((hocc i1 hlt).not_free h3).elim
      · obtain ⟨dh, hdh, hne⟩ := hnz
        rw [← heq, h3] at hdh
        cases hdh
        exact (hne rfl).elim
      · exact ((h4 i hgt).not_match hm).elim
    · exact ((h2 i hi).not_match hm).elim
    · exact h1
  · intro hocc
    rcases FindFreeDeviceSlotSpi_cases T bc cs hlh hlc with
      ⟨i1, h1, h2, h3, h4⟩ | ⟨h1, -⟩ | ⟨-, i1, h2, h3, h4, h5⟩
    · exact ((hocc i1 h2).not_free h3).elim
    · exact h1
    · exact ((hocc i1 h2).not_match h4).elim
  · intro D s s1 tr tr1 cfg r hcs hb hav hroom hinit hopen
    subst hcs
    rcases nanoSPI_OpenDeviceEx_spec hopen with ⟨hav1, -⟩ |
      ⟨bc1, -, hb1, ⟨hfull, -⟩ | ⟨-, ⟨hi, -⟩ | ⟨tri, hi,
        ⟨hf, hr, -, -⟩ | ⟨hf, hr, -, -⟩ | ⟨i, hf, -⟩⟩⟩⟩
    · rw [hav1] at hav; cases hav
    · rw [hb] at hb1; cases hb1; omega
    · rw [hb] at hb1; cases hb1
      rw [hi] at hinit
      cases hinit
    · rw [hb] at hb1; cases hb1
      exact ⟨(fun h => by rw [hf] at h; cases h), fun _ => hr⟩
    · rw [hb] at hb1; cases hb1
      exact ⟨fun _ => hr, fun h => by rw [hf] at h; cases h⟩
    · rw [hb] at hb1; cases hb1
      rw [hf]
      constructor
      · intro h
        simp only [Option.some.injEq] at h
        omega
      · intro h
        simp only [Option.some.injEq] at h
        omega
  · intro bc1 hh hc
    exact FindFreeDeviceSlotSpi.loop_stale bc bc1 cs hh hc T.MAX_SPI_DEVICES 0

/-- C17 (instance): in the entry with slot 0 free, where the configuration of
the closed device A (chip select 10) is still stored, and device B in slot 1,
the scan for chip select 10 returns slot 0. -/
theorem single_pass_scan_witness :
    FindFreeDeviceSlotSpi target2x4
      ⟨true, 1, [deviceA, deviceB, noDevice, noDevice], [0, 111, 0, 0], byteTime1MHz⟩ 10 =
      some ((0 : Nat) : Int) :=
  (single_pass_scan target2x4
    ⟨true, 1, [deviceA, deviceB, noDevice, noDevice], [0, 111, 0, 0], byteTime1MHz⟩ 10 rfl rfl).1
    0 (by decide) rfl (fun j hj => absurd hj (Nat.not_lt_zero j))

/-! ## Initialised buses and the counter (C18, C19) -/

/-- The slot byte of a minted handle is the slot, when the slot fits in a byte. -/
theorem CreateSpiHandle_and_255 (T : Target) (spiBus deviceIndex : Nat) (hi : deviceIndex < 256) :
    CreateSpiHandle T spiBus deviceIndex &&& 0x00ff = deviceIndex := by
  simp only [CreateSpiHandle, Nat.shiftLeft_eq, and_255_eq_mod]
  omega

/-- On a target whose bus and slot counts fit in a byte, the handle minted for
an occupied slot of a well-shaped table decodes to that slot. -/
theorem closesOpenDevice.occupied {T : Target} {s : SpiConfig} {handle : Nat}
    (hwf : WellFormed T s) (hN : T.NUM_SPI_BUSES ≤ 256) (hM : T.MAX_SPI_DEVICES ≤ 256)
    (h : closesOpenDevice T s handle) : closesOccupiedSlot T s handle := by
  obtain ⟨spiBus, deviceIndex, bc, dh, rfl, hb, hh, hne⟩ := h
  have hblt : spiBus < 256 := by
    have := (List.getElem?_eq_some.mp hb).1
    have := hwf.1
    omega
  have hilt : deviceIndex < 256 := by
    have := (List.getElem?_eq_some.mp hh).1
    have := (hwf.bus hb).2
    omega
  have hs := getDevice_snd T (CreateSpiHandle T spiBus deviceIndex)
  rw [GetBusFromHandle_CreateSpiHandle T spiBus deviceIndex hblt hilt,
    CreateSpiHandle_and_255 T spiBus deviceIndex hilt] at hs
  right
  refine ⟨bc, dh, ?_, ?_, hne⟩
  · rw [hs]; exact hb
  · rw [hs]; exact hh

/-- Reachability is monotone in the two restrictions; the restriction on the
closes need only be compared on well-shaped tables. -/
theorem Reachable.mono_wf {T : Target} {okDriver okDriver2 : Driver → Prop}
    {okClose okClose2 : SpiConfig → Nat → Prop} (hD : ∀ D, okDriver D → okDriver2 D)
    (hC : ∀ s handle, WellFormed T s → okClose s handle → okClose2 s handle) {s : SpiConfig}
    (h : Reachable T okDriver okClose s) : Reachable T okDriver2 okClose2 s := by
  induction h with
  | init s0 s hwf hinit => exact Reachable.init s0 s hwf hinit
  | openDevice s s1 D tr tr1 cfg r _ hd hopen ih =>
    exact Reachable.openDevice s s1 D tr tr1 cfg r ih (hD D hd) hopen
  | closeDevice s s1 D tr tr1 handle r hs hd hc hclose ih =>
    exact Reachable.closeDevice s s1 D tr tr1 handle r ih (hD D hd)
      (hC s handle hs.wellFormed hc) hclose

/-- In every reachable table, whatever the driver answers and whatever handles
are closed, a bus with a positive counter is initialised. -/
theorem Reachable.inited_of_in_use {T : Target} {okDriver : Driver → Prop}
    {okClose : SpiConfig → Nat → Prop} {s : SpiConfig} (h : Reachable T okDriver okClose s) :
    ∀ bc ∈ s, 0 < bc.devicesInUse → bc.spiBusInited = true := by
  induction h with
  | init s0 s hwf hinit =>
    rw [nanoSPI_Initialize_eq T s0 hwf.1] at hinit
    simp only [Option.some.injEq, Prod.mk.injEq, true_and] at hinit
    subst hinit
    intro bc hbc hpos
    obtain ⟨bc0, -, rfl⟩ := List.mem_map.mp hbc
    simp [nanoSPI_Initialize.reset] at hpos
  | openDevice s s1 D tr tr1 cfg r _ _ hopen ih =>
    rcases nanoSPI_OpenDeviceEx_spec hopen with ⟨-, -, rfl, -⟩ |
      ⟨bc, -, hb, ⟨-, -, rfl, -⟩ | ⟨-, ⟨-, rfl⟩ | ⟨tri, -,
        ⟨-, -, rfl, -⟩ | ⟨-, -, rfl, -⟩ | ⟨i, -, ⟨-, -, -, rfl, -⟩ | ⟨-, -, -, rfl, -⟩⟩⟩⟩⟩
    · exact ih
    · exact ih
    · exact ih
    all_goals
      intro x hx hpos
      rcases List.mem_or_eq_of_mem_set hx with hx | rfl
      · exact ih x hx hpos
      · rfl
  | closeDevice s s1 D tr tr1 handle r _ _ _ hclose ih =>
    rcases nanoSPI_CloseDevice_cases hclose with ⟨-, -, rfl, -⟩ | ⟨-, -, bc, dh, c0, hb, -, -, rfl⟩
    · exact ih
    · intro x hx hpos
      rcases List.mem_or_eq_of_mem_set hx with hx | rfl
      · exact ih x hx hpos
      · simp only [releaseDevice] at hpos ⊢
        have hnz : ¬ (bc.devicesInUse - 1 ≤ 0) := by omega
        rw [if_neg hnz]
        exact ih bc (List.getElem?_mem hb) (by omega)

/-- The bus-initialisation block of open does nothing on an initialised bus. -/
theorem nanoSPI_OpenDeviceEx.initBus_inited (T : Target) (D : Driver) (spiBus : Nat)
    (bc : nanoSPI_BusConfig) (tr : List Call) (h : bc.spiBusInited = true) :
    nanoSPI_OpenDeviceEx.initBus T D spiBus bc tr = (Except.ok bc, tr) := by
  unfold nanoSPI_OpenDeviceEx.initBus
  simp [h]

/-- An open whose new log entries contain a `CPU_SPI_Initialize` call was made
on an offered bus with room that was not initialised. -/
theorem nanoSPI_OpenDeviceEx_calls_initialize {T : Target} {D : Driver} {s s1 : SpiConfig}
    {tr tr1 : List Call} {cfg : SPI_DEVICE_CONFIGURATION} {r : HRESULT} {spiBus : Nat}
    (hopen : nanoSPI_OpenDeviceEx T D s tr cfg = some (r, s1, tr1))
    (hmem : Call.SPI_Initialize spiBus ∈ tr1.drop tr.length) :
    ∃ bc, s[cfg.Spi_Bus % 256]? = some bc ∧ bc.spiBusInited = false := by
  rcases nanoSPI_OpenDeviceEx_spec hopen with ⟨-, -, -, rfl⟩ |
    ⟨bc, -, hb, ⟨-, -, -, rfl⟩ | ⟨-, ⟨hi, -⟩ | ⟨tri, hi, hrest⟩⟩⟩
  · simp at hmem
  · simp at hmem
  · exact ⟨bc, hb, (nanoSPI_OpenDeviceEx.initBus_error hi).2⟩
  · cases hin : bc.spiBusInited with
    | false => exact ⟨bc, hb, hin⟩
    | true =>
      exfalso
      rw [nanoSPI_OpenDeviceEx.initBus_inited T D _ bc tr hin] at hi
      simp only [Prod.mk.injEq] at hi
      obtain ⟨-, rfl⟩ := hi
      rcases hrest with ⟨-, -, -, rfl⟩ | ⟨-, -, -, rfl⟩ |
        ⟨i, -, ⟨-, -, -, -, rfl⟩ | ⟨-, -, -, -, rfl⟩⟩
      · simp at hmem
      · simp at hmem
      · simp at hmem
      · split_ifs at hmem <;> simp at hmem

/-- C18: in every table reached from `nanoSPI_Initialize` by opens (any
configuration, any driver answers) and closes of handles of devices that are
open, a bus with `devicesInUse > 0` has `spiBusInited = true`.  And, on a
target whose bus and slot counts fit the bytes of the handle: when an open made
in such a table calls the driver's `CPU_SPI_Initialize`, the bus it is made on
has `devicesInUse = 0`. -/
theorem initialized_when_in_use (T : Target) (s : SpiConfig)
    (hreach : Reachable T (fun _ => True) (closesOpenDevice T) s) :
    (∀ bc ∈ s, 0 < bc.devicesInUse → bc.spiBusInited = true) ∧
    (T.NUM_SPI_BUSES ≤ 256 → T.MAX_SPI_DEVICES ≤ 256 →
      ∀ (D : Driver) (tr tr1 : List Call) (cfg : SPI_DEVICE_CONFIGURATION) (r : HRESULT)
        (s1 : SpiConfig) (spiBus : Nat),
        nanoSPI_OpenDeviceEx T D s tr cfg = some (r, s1, tr1) →
        Call.SPI_Initialize spiBus ∈ tr1.drop tr.length →
        ∃ bc, s[cfg.Spi_Bus % 256]? = some bc ∧ bc.devicesInUse = 0) := by
  have hinv := hreach.inited_of_in_use
  refine ⟨hinv, ?_⟩
  intro hN hM D tr tr1 cfg r s1 spiBus hopen hmem
  obtain ⟨bc, hb, hun⟩ := nanoSPI_OpenDeviceEx_calls_initialize hopen hmem
  have hmemb : bc ∈ s := List.getElem?_mem hb
  have hreach2 : Reachable T (fun _ => True) (closesOccupiedSlot T) s :=
    hreach.mono_wf (fun _ h => h) (fun _ _ hwf h => closesOpenDevice.occupied hwf hN hM h)
  have hcount := hreach2.count_between bc hmemb
  refine ⟨bc, hb, ?_⟩
  have hle : ¬ 0 < bc.devicesInUse := by
    intro hpos
    rw [hinv bc hmemb hpos] at hun
    cases hun
  have hge : (0 : Int) ≤ (occupiedSlots bc : Int) := Int.ofNat_nonneg _
  omega

/-- C18 (instance): in the table with devices A and B open, bus 0 has two
devices in use and is initialised. -/
theorem initialized_when_in_use_witness :
    (⟨true, 2, [deviceA, deviceB, noDevice, noDevice], [110, 111, 0, 0], byteTime1MHz⟩ :
      nanoSPI_BusConfig).spiBusInited = true :=
  (initialized_when_in_use target2x4 tableAB (reachable_tableAB _ _ trivial)).1
    ⟨true, 2, [deviceA, deviceB, noDevice, noDevice], [110, 111, 0, 0], byteTime1MHz⟩
    (List.mem_cons_self _ _) (by decide)

/-- With a driver whose add-device never returns 0, and closes of handles that
are rejected or name an occupied slot, the counter of every bus is the number
of its occupied slots. -/
theorem Reachable.count_eq {T : Target} {s : SpiConfig}
    (h : Reachable T addsNonzero (closesOccupiedSlot T) s) :
    ∀ bc ∈ s, bc.devicesInUse = (occupiedSlots bc : Int) := by
  induction h with
  | init s0 s hwf hinit =>
    rw [nanoSPI_Initialize_eq T s0 hwf.1] at hinit
    simp only [Option.some.injEq, Prod.mk.injEq, true_and] at hinit
    subst hinit
    intro bc hbc
    obtain ⟨bc0, -, rfl⟩ := List.mem_map.mp hbc
    rw [occupiedSlots_reset]
    simp [nanoSPI_Initialize.reset]
  | openDevice s s1 D tr tr1 cfg r hs hD hopen ih =>
    have hwf := hs.wellFormed
    have hbus : busAvailable T (cfg.Spi_Bus % 256) = true → cfg.Spi_Bus % 256 < T.NUM_SPI_BUSES :=
      fun hav => hwf.1 ▸ nanoSPI_OpenDeviceEx_bus_lt hopen hav
    obtain ⟨r1, s2, tr2, he, hc⟩ := nanoSPI_OpenDeviceEx_cases T D s tr cfg hwf hbus
    rw [hopen] at he
    simp only [Option.some.injEq, Prod.mk.injEq] at he
    obtain ⟨-, rfl, -⟩ := he
    rcases hc with ⟨rfl, -⟩ | ⟨bc, hb, -, rfl, -⟩ | ⟨bc, i, hb, -, -, h0, -, -, rfl⟩
    · exact ih
    · intro x hx
      rcases List.mem_or_eq_of_mem_set hx with hx | rfl
      · exact ih x hx
      · exact ih bc (List.getElem?_mem hb)
    · intro x hx
      rcases List.mem_or_eq_of_mem_set hx with hx | rfl
      · exact ih x hx
      · have hbc := ih bc (List.getElem?_mem hb)
        have hcnt := countP_set_nonzero bc.deviceHandles i _ h0
          (hD (nanoSPI_OpenDeviceEx.initBus T D (cfg.Spi_Bus % 256) bc tr).2 cfg)
        simp only [storeDevice, occupiedSlots] at hbc ⊢
        rw [hcnt, hbc]
        push_cast
        rfl
  | closeDevice s s1 D tr tr1 handle r hs _ hok hclose ih =>
    rcases nanoSPI_CloseDevice_cases hclose with ⟨-, -, rfl, -⟩ | ⟨hv, -, bc, dh, c0, hb, hh, -, rfl⟩
    · exact ih
    · rcases hok with hrej | ⟨bc2, dh2, hb2, hh2, hne⟩
      · rw [hv] at hrej; cases hrej
      · rw [hb] at hb2
        cases hb2
        rw [hh] at hh2
        cases hh2
        intro x hx
        rcases List.mem_or_eq_of_mem_set hx with hx | rfl
        · exact ih x hx
        · have hbc := ih bc (List.getElem?_mem hb)
          have hcnt := countP_set_zero bc.deviceHandles _ dh hh hne
          simp only [releaseDevice, occupiedSlots] at hbc ⊢
          omega

/-- C19: on a target whose bus and slot counts fit the bytes of the handle, in
every table reached from `nanoSPI_Initialize` by opens with a driver whose
add-device never returns 0 and by closes of handles of devices that are open,
`devicesInUse` of each bus is the number of its slots with a nonzero handle. -/
theorem count_matches_occupancy (T : Target) (s : SpiConfig) (bc : nanoSPI_BusConfig)
    (hN : T.NUM_SPI_BUSES ≤ 256) (hM : T.MAX_SPI_DEVICES ≤ 256)
    (hreach : Reachable T addsNonzero (closesOpenDevice T) s) (hbc : bc ∈ s) :
    bc.devicesInUse = ((bc.deviceHandles.filter (fun h => h != 0)).length : Int) := by
  have hreach2 : Reachable T addsNonzero (closesOccupiedSlot T) s :=
    hreach.mono_wf (fun _ h => h) (fun _ _ hwf h => closesOpenDevice.occupied hwf hN hM h)
  have h := hreach2.count_eq bc hbc
  rw [h, occupiedSlots, List.countP_eq_length_filter]

/-- C19 (instance): in the table with B alone in slot 1 of bus 0 the counter
is 1, the number of nonzero handles among `[0, 111, 0, 0]`. -/
theorem count_matches_occupancy_witness :
    (1 : Int) = (([0, 111, 0, 0].filter (fun h => h != 0)).length : Int) :=
  count_matches_occupancy target2x4 tableB
    ⟨true, 1, [deviceA, deviceB, noDevice, noDevice], [0, 111, 0, 0], byteTime1MHz⟩
    (by decide) (by decide) reachable_tableB (List.mem_cons_self _ _)

end NanoSpi
